import Mathlib

/-!
# Geometry core of the 3D wireframe viewer (`script.js`)

A shallow embedding of the classes `Point3D`, `Face`, `Polyhedron`,
`TransformationMatrix`, `OBJLoader`, `RotationFigureBuilder`, `SurfaceBuilder`
and of the geometry in `PolyhedronViewer` (the built-in solids, the two
projections, the matrix part of `draw`), followed by theorems about them.

Conventions of the embedding.

* Numbers.  The algebraic code is written once, over an arbitrary carrier `α`
  with the operations it uses; theorems instantiate it with a ring, a field or
  the reals.  `Math.cos`, `Math.sin`, `Math.sqrt` and `Math.PI` are the fields of
  a record `JSMath α` that is passed explicitly.
* Arrays of a fixed small length (`[x, y, z]`, the rows of a 4×4 matrix) are
  functions out of `Fin k`, written with the vector literal `![…]`.
* Strings are lists of characters.  The numbers of the OBJ codec are the type
  `JSNum`, which has `NaN` and the two infinities.
* Storage.  Where a claim is about independent storage (`clone`), the code is
  also given on a heap of cells, and related to its value-level version.
-/

namespace Lab7

/-! ## Geometric primitives -/

/-- Class `Point3D`: three coordinates. -/
structure Point3D (α : Type) where
  x : α
  y : α
  z : α
deriving DecidableEq

/-- Method `Point3D.toArray`: the array `[this.x, this.y, this.z]`. -/
def Point3D.toArray {α : Type} (p : Point3D α) : Fin 3 → α :=
  ![p.x, p.y, p.z]

/-- Method `Point3D.clone`: `new Point3D(this.x, this.y, this.z)`. -/
def Point3D.clone {α : Type} (p : Point3D α) : Point3D α :=
  Point3D.mk p.x p.y p.z

/-- Class `Face`: the list of vertex indices of one polygon.  Indices are
integers: the OBJ parser stores `parseInt(..) - 1`, which may be negative. -/
structure Face where
  vertexIndices : List ℤ
deriving DecidableEq

/-! ## Mesh -/

/-- Class `Polyhedron`: the three fields set by its constructor. -/
structure Polyhedron (α : Type) where
  vertices : List (Point3D α)
  faces : List Face
  center : Point3D α
deriving DecidableEq

/-- Method `Polyhedron.calculateCenter`, as a function of `this.vertices`:
a `reduce` that adds the coordinates up starting from `(0, 0, 0)`, then a
division of each sum by `this.vertices.length`. -/
def Polyhedron.calculateCenter {α : Type} [Zero α] [Add α] [Div α] [NatCast α]
    (vertices : List (Point3D α)) : Point3D α :=
  let sum := vertices.foldl
    (fun acc vertex => Point3D.mk (acc.x + vertex.x) (acc.y + vertex.y) (acc.z + vertex.z))
    (Point3D.mk 0 0 0)
  let count : α := (vertices.length : α)
  Point3D.mk (sum.x / count) (sum.y / count) (sum.z / count)

/-- The constructor of `Polyhedron`: every input triple becomes a `Point3D`,
every input index list becomes a `Face`, and the center is computed from the
new vertex list.  Nothing else happens: there is no check of any kind. -/
def Polyhedron.new {α : Type} [Zero α] [Add α] [Div α] [NatCast α]
    (vertices : List (Fin 3 → α)) (faces : List (List ℤ)) : Polyhedron α :=
  let vs := vertices.map (fun v => Point3D.mk (v 0) (v 1) (v 2))
  let fs := faces.map (fun f => Face.mk f)
  { vertices := vs, faces := fs, center := Polyhedron.calculateCenter vs }

/-- Method `Polyhedron.clone`: copies of the coordinate triples and of the
index lists are handed to the constructor. -/
def Polyhedron.clone {α : Type} [Zero α] [Add α] [Div α] [NatCast α]
    (self : Polyhedron α) : Polyhedron α :=
  let vertices := self.vertices.map (fun v => v.toArray)
  let faces := self.faces.map (fun f => f.vertexIndices.map (fun i => i))
  Polyhedron.new vertices faces

/-- Method `PolyhedronViewer.createCube`. -/
def createCube {α : Type} [Zero α] [One α] [Neg α] [Add α] [Div α] [NatCast α] :
    Polyhedron α :=
  let vertices : List (Fin 3 → α) := [
    ![-1, -1, -1], ![1, -1, -1], ![1, 1, -1], ![-1, 1, -1],
    ![-1, -1, 1], ![1, -1, 1], ![1, 1, 1], ![-1, 1, 1]]
  let faces : List (List ℤ) := [
    [0, 1, 2, 3], [4, 5, 6, 7], [0, 1, 5, 4],
    [2, 3, 7, 6], [0, 3, 7, 4], [1, 2, 6, 5]]
  Polyhedron.new vertices faces

/-! ## Transform algebra -/

/-- A matrix as an array of `n` rows of `m` numbers, indexed `m[row][col]`. -/
abbrev Mat (n m : ℕ) (α : Type) := Fin n → Fin m → α

/-- The functions of the JavaScript `Math` object that the program calls. -/
structure JSMath (α : Type) where
  cos : α → α
  sin : α → α
  sqrt : α → α
  PI : α

/-- Method `TransformationMatrix.getIdentityMatrix`. -/
def getIdentityMatrix {α : Type} [Zero α] [One α] : Mat 4 4 α :=
  ![![1, 0, 0, 0],
    ![0, 1, 0, 0],
    ![0, 0, 1, 0],
    ![0, 0, 0, 1]]

/-- Method `TransformationMatrix.multiplyMatrices`: for each row `i` of `a` and each
column `j` of `b`, the loop `sum = 0; for k: sum += a[i][k] * b[k][j]` over the
columns `k` of `a`. -/
def multiplyMatrices {α : Type} [Zero α] [Add α] [Mul α] {n m p : ℕ}
    (a : Mat n m α) (b : Mat m p α) : Mat n p α :=
  fun i j => (List.finRange m).foldl (fun sum k => sum + a i k * b k j) 0

/-- Method `TransformationMatrix.multiplyMatrixVector`: only `v[0]`, `v[1]`, `v[2]` are
read, whatever the length of `v` (the callers pass arrays of length 3, 4 or 5);
the last column of `m` is added as it stands. -/
def multiplyMatrixVector {α : Type} [Add α] [Mul α] {k : ℕ}
    (m : Mat 4 4 α) (v : Fin (k + 3) → α) : Fin 4 → α :=
  let v0 := v ⟨0, by omega⟩
  let v1 := v ⟨1, by omega⟩
  let v2 := v ⟨2, by omega⟩
  ![m 0 0 * v0 + m 0 1 * v1 + m 0 2 * v2 + m 0 3,
    m 1 0 * v0 + m 1 1 * v1 + m 1 2 * v2 + m 1 3,
    m 2 0 * v0 + m 2 1 * v1 + m 2 2 * v2 + m 2 3,
    m 3 0 * v0 + m 3 1 * v1 + m 3 2 * v2 + m 3 3]

/-- Method `TransformationMatrix.getRotationXMatrix`. -/
def getRotationXMatrix {α : Type} [Zero α] [One α] [Neg α] (M : JSMath α) (angle : α) :
    Mat 4 4 α :=
  let c := M.cos angle
  let s := M.sin angle
  ![![1, 0, 0, 0],
    ![0, c, -s, 0],
    ![0, s, c, 0],
    ![0, 0, 0, 1]]

/-- Method `TransformationMatrix.getRotationYMatrix`. -/
def getRotationYMatrix {α : Type} [Zero α] [One α] [Neg α] (M : JSMath α) (angle : α) :
    Mat 4 4 α :=
  let c := M.cos angle
  let s := M.sin angle
  ![![c, 0, s, 0],
    ![0, 1, 0, 0],
    ![-s, 0, c, 0],
    ![0, 0, 0, 1]]

/-- Method `TransformationMatrix.getRotationZMatrix`. -/
def getRotationZMatrix {α : Type} [Zero α] [One α] [Neg α] (M : JSMath α) (angle : α) :
    Mat 4 4 α :=
  let c := M.cos angle
  let s := M.sin angle
  ![![c, -s, 0, 0],
    ![s, c, 0, 0],
    ![0, 0, 1, 0],
    ![0, 0, 0, 1]]

/-- Method `TransformationMatrix.getScaleMatrix`. -/
def getScaleMatrix {α : Type} [Zero α] [One α] (scale : α) : Mat 4 4 α :=
  ![![scale, 0, 0, 0],
    ![0, scale, 0, 0],
    ![0, 0, scale, 0],
    ![0, 0, 0, 1]]

/-- Method `TransformationMatrix.getTranslationMatrix`. -/
def getTranslationMatrix {α : Type} [Zero α] [One α] (dx dy dz : α) : Mat 4 4 α :=
  ![![1, 0, 0, dx],
    ![0, 1, 0, dy],
    ![0, 0, 1, dz],
    ![0, 0, 0, 1]]

/-- The assignment `matrix[i][j] = value` on a matrix. -/
def Mat.assign {α : Type} {n m : ℕ} (matrix : Mat n m α) (i : Fin n) (j : Fin m)
    (value : α) : Mat n m α :=
  Function.update matrix i (Function.update (matrix i) j value)

/-- Method `TransformationMatrix.getReflectionMatrix`: the identity matrix, with up to
three diagonal entries overwritten by `-1`, in the order of the source. -/
def getReflectionMatrix {α : Type} [Zero α] [One α] [Neg α]
    (reflectXY reflectXZ reflectYZ : Bool) : Mat 4 4 α :=
  let matrix : Mat 4 4 α := getIdentityMatrix
  let matrix := if reflectXY then matrix.assign 2 2 (-1) else matrix
  let matrix := if reflectXZ then matrix.assign 1 1 (-1) else matrix
  let matrix := if reflectYZ then matrix.assign 0 0 (-1) else matrix
  matrix

/-- Method `TransformationMatrix.getScaleAroundCenterMatrix`. -/
def getScaleAroundCenterMatrix {α : Type} [Zero α] [One α] [Neg α] [Add α] [Mul α]
    (scale : α) (center : Point3D α) : Mat 4 4 α :=
  let toOrigin := getTranslationMatrix (-center.x) (-center.y) (-center.z)
  let scaling := getScaleMatrix scale
  let backFromOrigin := getTranslationMatrix center.x center.y center.z
  let matrix := multiplyMatrices toOrigin scaling
  multiplyMatrices matrix backFromOrigin

/-! ## Numbers of the OBJ codec

`parseFloat` can answer `NaN` and `Infinity`, so the codec works with numbers
that have these three extra values.  Finite values are exact rationals: the
rounding of a decimal literal to the nearest double and the sign of zero are
not modelled. -/

/-- A JavaScript number: `NaN`, `Infinity`, `-Infinity` or a finite value. -/
inductive JSNum where
  | nan : JSNum
  | posInf : JSNum
  | negInf : JSNum
  | fin (q : ℚ) : JSNum
deriving DecidableEq

/-- The operator `+` on numbers. -/
def JSNum.add : JSNum → JSNum → JSNum
  | JSNum.nan, _ => JSNum.nan
  | _, JSNum.nan => JSNum.nan
  | JSNum.posInf, JSNum.negInf => JSNum.nan
  | JSNum.negInf, JSNum.posInf => JSNum.nan
  | JSNum.posInf, _ => JSNum.posInf
  | JSNum.negInf, _ => JSNum.negInf
  | JSNum.fin _, JSNum.posInf => JSNum.posInf
  | JSNum.fin _, JSNum.negInf => JSNum.negInf
  | JSNum.fin a, JSNum.fin b => JSNum.fin (a + b)

/-- The operator `/` on numbers; a finite zero divisor counts as `+0`. -/
def JSNum.div : JSNum → JSNum → JSNum
  | JSNum.nan, _ => JSNum.nan
  | _, JSNum.nan => JSNum.nan
  | JSNum.posInf, JSNum.fin b => if 0 ≤ b then JSNum.posInf else JSNum.negInf
  | JSNum.negInf, JSNum.fin b => if 0 ≤ b then JSNum.negInf else JSNum.posInf
  | JSNum.posInf, _ => JSNum.nan
  | JSNum.negInf, _ => JSNum.nan
  | JSNum.fin _, JSNum.posInf => JSNum.fin 0
  | JSNum.fin _, JSNum.negInf => JSNum.fin 0
  | JSNum.fin a, JSNum.fin b =>
    if b = 0 then
      if a = 0 then JSNum.nan else if 0 < a then JSNum.posInf else JSNum.negInf
    else JSNum.fin (a / b)

instance : Zero JSNum := ⟨JSNum.fin 0⟩
instance : Add JSNum := ⟨JSNum.add⟩
instance : Div JSNum := ⟨JSNum.div⟩
instance : NatCast JSNum := ⟨fun n => JSNum.fin n⟩

/-! ## Strings -/

/-- The code points that `String.prototype.trim` removes and that the class `\s`
of a regular expression matches: WhiteSpace and LineTerminator of ECMAScript. -/
def isWhiteSpace (c : Char) : Bool :=
  let n := c.toNat
  n = 0x09 || n = 0x0A || n = 0x0B || n = 0x0C || n = 0x0D || n = 0x20 || n = 0xA0 ||
  n = 0x1680 || (0x2000 ≤ n && n ≤ 0x200A) || n = 0x2028 || n = 0x2029 || n = 0x202F ||
  n = 0x205F || n = 0x3000 || n = 0xFEFF

/-- String method `s.trim()`: white space is removed from both ends. -/
def trim (s : List Char) : List Char :=
  ((s.dropWhile isWhiteSpace).reverse.dropWhile isWhiteSpace).reverse

/-- String method `s.split(sep)` for a one-character separator: the pieces between the
occurrences of `sep`; a string without `sep` (the empty one too) is one piece. -/
def splitChar (sep : Char) : List Char → List (List Char)
  | [] => [[]]
  | c :: cs =>
    if c = sep then [] :: splitChar sep cs
    else match splitChar sep cs with
      | [] => [[c]]
      | piece :: pieces => (c :: piece) :: pieces

/-- The scan behind `s.split(/\s+/)`.  The flag says that the previous
character was white space, so that a run of white space separates once. -/
def splitWhiteSpaceAux : Bool → List Char → List (List Char)
  | _, [] => [[]]
  | inRun, c :: cs =>
    if isWhiteSpace c then
      if inRun then splitWhiteSpaceAux true cs else [] :: splitWhiteSpaceAux true cs
    else match splitWhiteSpaceAux false cs with
      | [] => [[c]]
      | piece :: pieces => (c :: piece) :: pieces

/-- String method `s.split(/\s+/)`: the pieces between the maximal runs of white space. -/
def splitWhiteSpace (s : List Char) : List (List Char) :=
  splitWhiteSpaceAux false s

/-- Array method `pieces.join(sep)`. -/
def join (sep : List Char) : List (List Char) → List Char
  | [] => []
  | [piece] => piece
  | piece :: rest => piece ++ sep ++ join sep rest

/-- The value of a decimal digit. -/
def digitValue (c : Char) : Option ℕ :=
  if c = '0' then some 0 else if c = '1' then some 1 else if c = '2' then some 2
  else if c = '3' then some 3 else if c = '4' then some 4 else if c = '5' then some 5
  else if c = '6' then some 6 else if c = '7' then some 7 else if c = '8' then some 8
  else if c = '9' then some 9 else none

/-- The value of a digit in the given radix (10 or 16). -/
def radixDigitValue (radix : ℕ) (c : Char) : Option ℕ :=
  match digitValue c with
  | some d => some d
  | none =>
    if radix = 16 then
      if c = 'a' ∨ c = 'A' then some 10 else if c = 'b' ∨ c = 'B' then some 11
      else if c = 'c' ∨ c = 'C' then some 12 else if c = 'd' ∨ c = 'D' then some 13
      else if c = 'e' ∨ c = 'E' then some 14 else if c = 'f' ∨ c = 'F' then some 15
      else none
    else none

/-- The longest prefix of digits of the radix, as digit values, and what follows it. -/
def takeDigits (radix : ℕ) : List Char → List ℕ × List Char
  | [] => ([], [])
  | c :: cs =>
    match radixDigitValue radix c with
    | some d => let r := takeDigits radix cs; (d :: r.1, r.2)
    | none => ([], c :: cs)

/-- The number written by a list of digit values, most significant first. -/
def digitsValue (radix : ℕ) (ds : List ℕ) : ℕ :=
  ds.foldl (fun acc d => acc * radix + d) 0

/-- An optional sign at the head of a string: whether it is `-`, and the rest. -/
def takeSign : List Char → Bool × List Char
  | c :: cs => if c = '-' then (true, cs) else if c = '+' then (false, cs) else (false, c :: cs)
  | [] => (false, [])

/-- Global function `parseInt(s)` without a radix argument: leading white space is skipped, a
sign is read, a prefix `0x` or `0X` selects radix 16 (otherwise 10), and the
longest run of digits is the value; `none` stands for `NaN` (no digit). -/
def parseInt (s : List Char) : Option ℤ :=
  let s1 := s.dropWhile isWhiteSpace
  let (negative, s2) := takeSign s1
  let (radix, s3) : ℕ × List Char :=
    match s2 with
    | c0 :: c1 :: rest => if c0 = '0' ∧ (c1 = 'x' ∨ c1 = 'X') then (16, rest) else (10, s2)
    | _ => (10, s2)
  let ds := (takeDigits radix s3).1
  if ds = [] then none
  else
    let value : ℤ := (digitsValue radix ds : ℕ)
    some (if negative then -value else value)

/-- An exponent part `e±ddd` at the head of a string, if there is a complete one. -/
def takeExponent : List Char → Option ℤ
  | c :: cs =>
    if c = 'e' ∨ c = 'E' then
      let (negative, cs1) := takeSign cs
      let ds := (takeDigits 10 cs1).1
      if ds = [] then none
      else
        let value : ℤ := (digitsValue 10 ds : ℕ)
        some (if negative then -value else value)
    else none
  | [] => none

/-- The value `mantissa · 10^exponent`. -/
def scale10 (mantissa : ℕ) (exponent : ℤ) : ℚ :=
  match exponent with
  | Int.ofNat e => (mantissa * 10 ^ e : ℕ)
  | Int.negSucc e => Rat.divInt (mantissa : ℤ) ((10 ^ (e + 1) : ℕ) : ℤ)

/-- Global function `parseFloat(s)`: leading white space is skipped and the longest prefix that
is a decimal literal (`±Infinity`, or digits with an optional fraction and an
optional exponent) is the value; `NaN` when there is none. -/
def parseFloat (s : List Char) : JSNum :=
  let s1 := s.dropWhile isWhiteSpace
  let (negative, s2) := takeSign s1
  if ['I', 'n', 'f', 'i', 'n', 'i', 't', 'y'].isPrefixOf s2 then
    if negative then JSNum.negInf else JSNum.posInf
  else
    let (intDigits, s3) := takeDigits 10 s2
    let (fracDigits, s4) : List ℕ × List Char :=
      match s3 with
      | c :: cs => if c = '.' then takeDigits 10 cs else ([], s3)
      | [] => ([], s3)
    if intDigits = [] ∧ fracDigits = [] then JSNum.nan
    else
      let exponent : ℤ := (takeExponent s4).getD 0
      let mantissa := digitsValue 10 (intDigits ++ fracDigits)
      let value := scale10 mantissa (exponent - fracDigits.length)
      JSNum.fin (if negative then -value else value)

/-- The character of a digit value below ten. -/
def digitChar (d : ℕ) : Char :=
  match d with
  | 0 => '0' | 1 => '1' | 2 => '2' | 3 => '3' | 4 => '4'
  | 5 => '5' | 6 => '6' | 7 => '7' | 8 => '8' | _ => '9'

/-- The decimal digits of `n` in front of `acc`; `fuel` bounds the number of digits. -/
def natToStringAux : ℕ → ℕ → List Char → List Char
  | 0, _, acc => acc
  | fuel + 1, n, acc =>
    if n / 10 = 0 then digitChar (n % 10) :: acc
    else natToStringAux fuel (n / 10) (digitChar (n % 10) :: acc)

/-- The decimal numeral of a natural number. -/
def natToString (n : ℕ) : List Char :=
  natToStringAux (n + 1) n []

/-- The string of an integer-valued number, as template literals and `join`
produce it: the decimal numeral, after a `-` when negative. -/
def intToString (i : ℤ) : List Char :=
  match i with
  | Int.ofNat n => natToString n
  | Int.negSucc n => '-' :: natToString (n + 1)

/-! ## OBJ codec -/

/-- The header line written by `toOBJ`. -/
def objHeader : List Char := "# Экспортированная 3D модель\n".toList

/-- Method `Polyhedron.toOBJ`.  The text of a coordinate inside the template
literal is the engine's conversion of a number to a string, the parameter
`numToString`; the indices are integers and are printed by `intToString`. -/
def Polyhedron.toOBJ {α : Type} (numToString : α → List Char) (self : Polyhedron α) :
    List Char :=
  let objContent := objHeader
  let objContent := self.vertices.foldl (fun objContent vertex =>
    objContent ++ (['v', ' '] ++ numToString vertex.x ++ [' '] ++ numToString vertex.y
      ++ [' '] ++ numToString vertex.z ++ ['\n'])) objContent
  let objContent := objContent ++ ['\n']
  let objContent := self.faces.foldl (fun objContent face =>
    let faceIndices := join [' '] (face.vertexIndices.map (fun idx => intToString (idx + 1)))
    objContent ++ (['f', ' '] ++ faceIndices ++ ['\n'])) objContent
  objContent

/-- The body of the loop over the parts of a face line in `OBJLoader.parseOBJ`:
the array `faceIndices` after one part has been processed. -/
def parseOBJFacePart (faceIndices : List ℤ) (part : List Char) : List ℤ :=
  match parseInt ((splitChar '/' part).headD []) with
  | some vertexIndex => faceIndices ++ [vertexIndex - 1]
  | none => faceIndices

/-- The body of the loop over the lines in `OBJLoader.parseOBJ`: the arrays
`vertices` and `faces` after the line has been processed. -/
def parseOBJLine (acc : List (Fin 3 → JSNum) × List (List ℤ)) (line : List Char) :
    List (Fin 3 → JSNum) × List (List ℤ) :=
  let (vertices, faces) := acc
  let trimmed := trim line
  if ['v', ' '].isPrefixOf trimmed then
    let parts := (splitWhiteSpace trimmed).drop 1
    if parts.length ≥ 3 then
      let x := parseFloat (parts.getD 0 [])
      let y := parseFloat (parts.getD 1 [])
      let z := parseFloat (parts.getD 2 [])
      (vertices ++ [![x, y, z]], faces)
    else (vertices, faces)
  else if ['f', ' '].isPrefixOf trimmed then
    let parts := (splitWhiteSpace trimmed).drop 1
    let faceIndices := parts.foldl parseOBJFacePart []
    if faceIndices.length ≥ 3 then (vertices, faces ++ [faceIndices])
    else (vertices, faces)
  else (vertices, faces)

/-- Method `OBJLoader.parseOBJ`. -/
def parseOBJ (content : List Char) : Polyhedron JSNum :=
  let lines := splitChar '\n' content
  let (vertices, faces) := lines.foldl parseOBJLine ([], [])
  Polyhedron.new vertices faces

/-- The vertex that the loop body of `parseOBJ` appends for a line, if any. -/
def vertexOfLine (line : List Char) : Option (Fin 3 → JSNum) :=
  let trimmed := trim line
  if ['v', ' '].isPrefixOf trimmed then
    let parts := (splitWhiteSpace trimmed).drop 1
    if parts.length ≥ 3 then
      some ![parseFloat (parts.getD 0 []), parseFloat (parts.getD 1 []),
        parseFloat (parts.getD 2 [])]
    else none
  else none

/-- The face that a line contributes, in the words of the specification: the
line, once trimmed, starts with `f `; each token after the `f` gives the integer
in front of its first `/`, less one; tokens without an integer are skipped; the
face is kept when at least three indices result. -/
def faceOfLine (line : List Char) : Option (List ℤ) :=
  let trimmed := trim line
  if ['f', ' '].isPrefixOf trimmed then
    let tokens := (splitWhiteSpace trimmed).drop 1
    let indices := tokens.filterMap (fun token =>
      (parseInt (token.takeWhile (fun c => c ≠ '/'))).map (fun i => i - 1))
    if 3 ≤ indices.length then some indices else none
  else none

/-! ## Projection pipeline -/

/-- The record `transformParams` of the viewer. -/
structure TransformParams (α : Type) where
  rotateX : α
  rotateY : α
  rotateZ : α
  scale : α
  translateX : α
  translateY : α
  translateZ : α
  reflectXY : Bool
  reflectXZ : Bool
  reflectYZ : Bool

/-- The fields of `PolyhedronViewer` that `draw` reads: the size of the canvas,
the projection mode, the transform parameters and the current figure. -/
structure Viewer (α : Type) where
  canvasWidth : α
  canvasHeight : α
  currentProjection : String
  transformParams : TransformParams α
  currentFigure : Polyhedron α

/-- Method `PolyhedronViewer.projectPerspective`; `point` is the array of four numbers
that `draw` passes, and `[...point, 1]` has five entries. -/
def projectPerspective {α : Type} [LinearOrderedField α] (canvasWidth canvasHeight : α)
    (point : Fin 4 → α) : Fin 2 → α :=
  let c : α := 5
  let scale : α := 100
  let perspectiveMatrix : Mat 4 4 α :=
    ![![scale, 0, 0, 0],
      ![0, -scale, 0, 0],
      ![0, 0, 1, 0],
      ![0, 0, -1 / c, 1]]
  let r := multiplyMatrixVector perspectiveMatrix
    (![point 0, point 1, point 2, point 3, 1] : Fin (2 + 3) → α)
  let x := r 0
  let y := r 1
  let w := r 3
  let adjustedW := max w 0.1
  ![x / adjustedW + canvasWidth / 2, y / adjustedW + canvasHeight / 2]

/-- Method `PolyhedronViewer.projectAxonometric`. -/
def projectAxonometric {α : Type} [LinearOrderedField α] (M : JSMath α)
    (canvasWidth canvasHeight : α) (point : Fin 4 → α) : Fin 2 → α :=
  let scale : α := 80
  let angle : α := M.PI / 6
  let axonometricMatrix : Mat 4 4 α :=
    ![![M.cos angle, 0, -M.sin angle, 0],
      ![M.sin angle * M.sin angle, M.cos angle, M.cos angle * M.sin angle, 0],
      ![0, 0, 0, 0],
      ![0, 0, 0, 1]]
  let r := multiplyMatrixVector axonometricMatrix
    (![point 0, point 1, point 2, point 3, 1] : Fin (2 + 3) → α)
  let x := r 0
  let y := r 1
  ![x * scale + canvasWidth / 2, canvasHeight / 2 - y * scale]

/-- The matrix `transformMatrix` that `PolyhedronViewer.draw` builds: it starts
as the identity and is replaced by `multiplyMatrices(transformMatrix, next)` for
the reflection, for the scaling around the center of the figure, and then, in
the `forEach`, for the three rotations and the translation. -/
def drawTransformMatrix {α : Type} [Zero α] [One α] [Neg α] [Add α] [Mul α]
    (M : JSMath α) (transformParams : TransformParams α) (currentFigure : Polyhedron α) :
    Mat 4 4 α :=
  let transformMatrix : Mat 4 4 α := getIdentityMatrix
  let reflectionMatrix : Mat 4 4 α := getReflectionMatrix
    transformParams.reflectXY transformParams.reflectXZ transformParams.reflectYZ
  let transformMatrix := multiplyMatrices transformMatrix reflectionMatrix
  let scaleMatrix := getScaleAroundCenterMatrix transformParams.scale currentFigure.center
  let transformMatrix := multiplyMatrices transformMatrix scaleMatrix
  let transformations : List (Mat 4 4 α) := [
    getRotationXMatrix M transformParams.rotateX,
    getRotationYMatrix M transformParams.rotateY,
    getRotationZMatrix M transformParams.rotateZ,
    getTranslationMatrix transformParams.translateX transformParams.translateY
      transformParams.translateZ]
  transformations.foldl
    (fun transformMatrix matrix => multiplyMatrices transformMatrix matrix) transformMatrix

/-- The array `transformedVertices` of `PolyhedronViewer.draw`: every vertex of
the current figure, multiplied by the transform matrix and then projected.  The
rest of `draw` strokes and fills these points on the canvas. -/
def drawTransformedVertices {α : Type} [LinearOrderedField α] (M : JSMath α)
    (self : Viewer α) : List (Fin 2 → α) :=
  let transformMatrix := drawTransformMatrix M self.transformParams self.currentFigure
  self.currentFigure.vertices.map (fun vertex =>
    let transformed := multiplyMatrixVector transformMatrix vertex.toArray
    if self.currentProjection = "perspective"
    then projectPerspective self.canvasWidth self.canvasHeight transformed
    else projectAxonometric M self.canvasWidth self.canvasHeight transformed)

/-! ## The Mesh invariant of the specification -/

/-- Every index of every face lies in `[0, len(vertices))`. -/
def Polyhedron.IndicesInRange {α : Type} (m : Polyhedron α) : Prop :=
  ∀ f ∈ m.faces, ∀ i ∈ f.vertexIndices, 0 ≤ i ∧ i < (m.vertices.length : ℤ)

/-- A token: a string that is not empty and has no white space. -/
def IsToken (t : List Char) : Prop :=
  t ≠ [] ∧ ∀ c ∈ t, isWhiteSpace c = false

/-- The line that `toOBJ` writes for a vertex, without its line feed. -/
def objVertexLine {α : Type} (numToString : α → List Char) (vertex : Point3D α) : List Char :=
  ['v', ' '] ++ numToString vertex.x ++ [' '] ++ numToString vertex.y ++ [' ']
    ++ numToString vertex.z

/-- The line that `toOBJ` writes for a face, without its line feed. -/
def objFaceLine (face : Face) : List Char :=
  ['f', ' '] ++ join [' '] (face.vertexIndices.map (fun idx => intToString (idx + 1)))

/-- The numeral of an integer-valued number, as the engine prints it (below
`10^21` in absolute value), and the names of the three special values.  A
finite value that is not an integer has no numeral here: the answer is empty. -/
def integerNumeral : JSNum → List Char
  | JSNum.nan => ['N', 'a', 'N']
  | JSNum.posInf => ['I', 'n', 'f', 'i', 'n', 'i', 't', 'y']
  | JSNum.negInf => ['-', 'I', 'n', 'f', 'i', 'n', 'i', 't', 'y']
  | JSNum.fin q => if q.den = 1 then intToString q.num else []

instance : DecidablePred IsToken := fun t => by
  unfold IsToken
  infer_instance

/-- A small mesh with integer coordinates: four vertices, a triangle and a quadrilateral. -/
def sampleMesh : Polyhedron JSNum :=
  Polyhedron.new
    [![JSNum.fin 0, JSNum.fin 0, JSNum.fin 0], ![JSNum.fin 1, JSNum.fin 0, JSNum.fin 0],
     ![JSNum.fin 0, JSNum.fin 12, JSNum.fin 0], ![JSNum.fin 0, JSNum.fin 0, JSNum.fin (-2)]]
    [[0, 1, 2], [0, 2, 3, 1]]

/-! ## Objects and references

`clone` is about storage, so the constructor and `clone` are also given on a
heap: a list of cells, where a reference is the position of a cell and `new` or
an array literal appends a cell.  `none` stands for a `TypeError` or for a
coordinate that would be `undefined` (a reference to a cell of the wrong kind). -/

/-- The objects that a mesh is made of. -/
inductive Cell (α : Type) where
  | point (x y z : α) : Cell α
  | numbers (items : List α) : Cell α
  | indices (items : List ℤ) : Cell α
  | face (vertexIndices : ℕ) : Cell α
  | array (items : List ℕ) : Cell α
  | polyhedron (vertices faces center : ℕ) : Cell α
deriving DecidableEq

/-- A heap: the cell of reference `r` is at position `r`. -/
abbrev Heap (α : Type) := List (Cell α)

/-- The loop of `Array.prototype.map`: for each element the callback builds one
new object, from what it reads in the current heap, and the new object is put
at the end of the heap; the result is the list of the new references. -/
def mapNew {α : Type} (callback : Heap α → ℕ → Option (Cell α)) :
    Heap α → List ℕ → Option (Heap α × List ℕ)
  | h, [] => some (h, [])
  | h, r :: rs =>
    match callback h r with
    | none => none
    | some c =>
      match mapNew callback (h ++ [c]) rs with
      | none => none
      | some (h', out) => some (h', h.length :: out)

/-- Array method `array.map(callback)` on the array at `array`: the new elements, and then the
new array that holds them. -/
def arrayMap {α : Type} (callback : Heap α → ℕ → Option (Cell α)) (h : Heap α) (array : ℕ) :
    Option (Heap α × ℕ) :=
  match h[array]? with
  | some (Cell.array items) =>
    match mapNew callback h items with
    | some (h', out) => some (h' ++ [Cell.array out], h'.length)
    | none => none
  | _ => none

/-- The callback `v => new Point3D(...v)`. -/
def newPoint3D {α : Type} (h : Heap α) (v : ℕ) : Option (Cell α) :=
  match h[v]? with
  | some (Cell.numbers (x :: y :: z :: _)) => some (Cell.point x y z)
  | _ => none

/-- The callback `f => new Face(f)`: the new face keeps the reference `f`. -/
def newFace {α : Type} (_h : Heap α) (f : ℕ) : Option (Cell α) :=
  some (Cell.face f)

/-- The callback `v => v.toArray()`. -/
def toArrayOf {α : Type} (h : Heap α) (v : ℕ) : Option (Cell α) :=
  match h[v]? with
  | some (Cell.point x y z) => some (Cell.numbers [x, y, z])
  | _ => none

/-- The callback `f => [...f.vertexIndices]`. -/
def spreadIndices {α : Type} (h : Heap α) (f : ℕ) : Option (Cell α) :=
  match h[f]? with
  | some (Cell.face a) =>
    match h[a]? with
    | some (Cell.indices items) => some (Cell.indices items)
    | _ => none
  | _ => none

/-- The `reduce` of `calculateCenter` on the heap: each step reads the
accumulator and the vertex and makes a new `Point3D`. -/
def reduceCenter {α : Type} [Add α] : Heap α → ℕ → List ℕ → Option (Heap α × ℕ)
  | h, acc, [] => some (h, acc)
  | h, acc, vertex :: rest =>
    match h[acc]?, h[vertex]? with
    | some (Cell.point ax ay az), some (Cell.point vx vy vz) =>
      reduceCenter (h ++ [Cell.point (ax + vx) (ay + vy) (az + vz)]) h.length rest
    | _, _ => none

/-- Method `calculateCenter` on the heap, for the vertex array at `vertices`. -/
def calculateCenterH {α : Type} [Zero α] [Add α] [Div α] [NatCast α] (h : Heap α)
    (vertices : ℕ) : Option (Heap α × ℕ) :=
  match h[vertices]? with
  | some (Cell.array items) =>
    match reduceCenter (h ++ [Cell.point 0 0 0]) h.length items with
    | some (h', sum) =>
      match h'[sum]? with
      | some (Cell.point sx sy sz) =>
        let count : α := (items.length : α)
        some (h' ++ [Cell.point (sx / count) (sy / count) (sz / count)], h'.length)
      | _ => none
    | none => none
  | _ => none

/-- The constructor of `Polyhedron` on the heap; the new object is written
once its three fields are known. -/
def constructorH {α : Type} [Zero α] [Add α] [Div α] [NatCast α] (h : Heap α)
    (vertices faces : ℕ) : Option (Heap α × ℕ) :=
  match arrayMap newPoint3D h vertices with
  | some (h1, thisVertices) =>
    match arrayMap newFace h1 faces with
    | some (h2, thisFaces) =>
      match calculateCenterH h2 thisVertices with
      | some (h3, thisCenter) =>
        some (h3 ++ [Cell.polyhedron thisVertices thisFaces thisCenter], h3.length)
      | none => none
    | none => none
  | none => none

/-- Method `Polyhedron.clone` on the heap, for the mesh at `self`. -/
def cloneH {α : Type} [Zero α] [Add α] [Div α] [NatCast α] (h : Heap α) (self : ℕ) :
    Option (Heap α × ℕ) :=
  match h[self]? with
  | some (Cell.polyhedron thisVertices thisFaces _) =>
    match arrayMap toArrayOf h thisVertices with
    | some (h1, vertices) =>
      match arrayMap spreadIndices h1 thisFaces with
      | some (h2, faces) => constructorH h2 vertices faces
      | none => none
    | none => none
  | _ => none

/-- The points at the given references. -/
def readPoints {α : Type} (h : Heap α) : List ℕ → Option (List (Point3D α))
  | [] => some []
  | r :: rs =>
    match h[r]?, readPoints h rs with
    | some (Cell.point x y z), some ps => some (Point3D.mk x y z :: ps)
    | _, _ => none

/-- The faces at the given references, with their index lists. -/
def readFaces {α : Type} (h : Heap α) : List ℕ → Option (List Face)
  | [] => some []
  | r :: rs =>
    match h[r]?, readFaces h rs with
    | some (Cell.face a), some fs =>
      match h[a]? with
      | some (Cell.indices items) => some (Face.mk items :: fs)
      | _ => none
    | _, _ => none

/-- The mesh stored at reference `r`, as a value. -/
def readPolyhedron {α : Type} (h : Heap α) (r : ℕ) : Option (Polyhedron α) :=
  match h[r]? with
  | some (Cell.polyhedron vertices faces center) =>
    match h[vertices]?, h[faces]?, h[center]? with
    | some (Cell.array vs), some (Cell.array fs), some (Cell.point x y z) =>
      match readPoints h vs, readFaces h fs with
      | some points, some faceList => some ⟨points, faceList, Point3D.mk x y z⟩
      | _, _ => none
    | _, _, _ => none
  | _ => none

/-- The references of all the objects that make up the mesh at `r`: the object
itself, its vertex array, its face array, its center, its points, its faces and
the index arrays of its faces. -/
def meshCells {α : Type} (h : Heap α) (r : ℕ) : List ℕ :=
  match h[r]? with
  | some (Cell.polyhedron vertices faces center) =>
    let points := match h[vertices]? with
      | some (Cell.array items) => items
      | _ => []
    let faceRefs := match h[faces]? with
      | some (Cell.array items) => items
      | _ => []
    let indexArrays := faceRefs.filterMap (fun f =>
      match h[f]? with
      | some (Cell.face a) => some a
      | _ => none)
    r :: vertices :: faces :: center :: (points ++ faceRefs ++ indexArrays)
  | _ => []

/-- A heap that holds the input arrays of a triangle and then the mesh built
from them by the constructor: the arrays `[0,0,0]`, `[4,0,0]`, `[0,2,0]`, the
array of these three, the index array `[0,1,2]` and the array of it. -/
def sampleHeap : Heap ℚ :=
  ((constructorH
    [Cell.numbers [0, 0, 0], Cell.numbers [4, 0, 0], Cell.numbers [0, 2, 0],
      Cell.array [0, 1, 2], Cell.indices [0, 1, 2], Cell.array [4]] 3 5).map
    (fun r => r.1)).getD []

/-- The cell of a point. -/
def Cell.ofPoint {α : Type} (p : Point3D α) : Cell α :=
  Cell.point p.x p.y p.z

/-- The cell of the array `[x, y, z]` of a point. -/
def Cell.ofTriple {α : Type} (p : Point3D α) : Cell α :=
  Cell.numbers [p.x, p.y, p.z]

/-- The triangle stored at reference 17 of `sampleHeap`. -/
def sampleTriangle : Polyhedron ℚ :=
  ⟨[⟨0, 0, 0⟩, ⟨4, 0, 0⟩, ⟨0, 2, 0⟩], [⟨[0, 1, 2]⟩], ⟨4 / 3, 2 / 3, 0⟩⟩

/-! ## Procedural generators -/

/-- The three values of the parameter `axis` that the `switch` of
`createRotationFigure` handles (the strings `'x'`, `'y'`, `'z'`).  With any
other value the coordinates stay `undefined`, which is outside the model. -/
inductive Axis where
  | x : Axis
  | y : Axis
  | z : Axis
deriving DecidableEq

/-- The `switch` inside the inner loop of `createRotationFigure`: the array
`[x, y, z]` that is pushed for one profile point at one angle. -/
def rotateProfilePoint {α : Type} [Field α] (M : JSMath α) (axis : Axis) (angle : α)
    (point : Fin 3 → α) : Fin 3 → α :=
  match axis with
  | Axis.x =>
    ![point 0,
      point 1 * M.cos angle - point 2 * M.sin angle,
      point 1 * M.sin angle + point 2 * M.cos angle]
  | Axis.y =>
    ![point 0 * M.cos angle + point 2 * M.sin angle,
      point 1,
      -point 0 * M.sin angle + point 2 * M.cos angle]
  | Axis.z =>
    ![point 0 * M.cos angle - point 1 * M.sin angle,
      point 0 * M.sin angle + point 1 * M.cos angle,
      point 2]

/-- The array `vertices` after the first pair of loops of `createRotationFigure`. -/
def rotationVertices {α : Type} [Field α] (M : JSMath α) (profilePoints : List (Fin 3 → α))
    (axis : Axis) (slices : ℕ) : List (Fin 3 → α) :=
  let angleStep : α := (2 * M.PI) / (slices : α)
  (List.range (slices + 1)).foldl (fun vertices (i : ℕ) =>
    let angle : α := (i : α) * angleStep
    profilePoints.foldl (fun vertices point =>
      vertices ++ [rotateProfilePoint M axis angle point]) vertices) []

/-- The two triangles pushed by the body of the face loop of
`createRotationFigure` for slice `i` and position `j`. -/
def rotationQuad (pointsPerSlice slices i j : ℕ) : List (List ℤ) :=
  let currentSlice := i * pointsPerSlice
  let nextSlice := ((i + 1) % (slices + 1)) * pointsPerSlice
  let v1 := currentSlice + j
  let v2 := currentSlice + j + 1
  let v3 := nextSlice + j + 1
  let v4 := nextSlice + j
  [[(v1 : ℤ), (v2 : ℤ), (v3 : ℤ)]] ++ [[(v1 : ℤ), (v3 : ℤ), (v4 : ℤ)]]

/-- The array `faces` after the second pair of loops of `createRotationFigure`;
`j < pointsPerSlice - 1` has no solution when `pointsPerSlice` is 0, as with the
truncated subtraction here. -/
def rotationFaces (pointsPerSlice slices : ℕ) : List (List ℤ) :=
  (List.range slices).foldl (fun faces (i : ℕ) =>
    (List.range (pointsPerSlice - 1)).foldl (fun faces (j : ℕ) =>
      faces ++ rotationQuad pointsPerSlice slices i j) faces) []

/-- Method `RotationFigureBuilder.createRotationFigure`; `slices` is a natural
number. -/
def createRotationFigure {α : Type} [Field α] (M : JSMath α)
    (profilePoints : List (Fin 3 → α)) (axis : Axis) (slices : ℕ) : Polyhedron α :=
  let vertices := rotationVertices M profilePoints axis slices
  let pointsPerSlice := profilePoints.length
  let faces := rotationFaces pointsPerSlice slices
  Polyhedron.new vertices faces

/-- Method `SurfaceBuilder.calculateFunction`: the `switch` on the selector. -/
def calculateFunction {α : Type} [LinearOrderedField α] (M : JSMath α) (funcType : String)
    (x y : α) : α :=
  if funcType = "paraboloid" then x * x + y * y
  else if funcType = "hyperbolic" then x * x - y * y
  else if funcType = "sinc" then
    let r := M.sqrt (x * x + y * y)
    if r = 0 then 1 else M.sin r / r
  else if funcType = "wave" then M.sin x * M.cos y
  else if funcType = "sphere" then
    let r2 := x * x + y * y
    if r2 ≤ 1 then M.sqrt (1 - r2) else 0
  else 0

/-- The array `vertices` after the first pair of loops of `createSurface`. -/
def surfaceVertices {α : Type} [LinearOrderedField α] (M : JSMath α) (funcType : String)
    (xMin xMax yMin yMax : α) (gridSize : ℕ) : List (Fin 3 → α) :=
  let xStep : α := (xMax - xMin) / (gridSize : α)
  let yStep : α := (yMax - yMin) / (gridSize : α)
  (List.range (gridSize + 1)).foldl (fun vertices (i : ℕ) =>
    (List.range (gridSize + 1)).foldl (fun vertices (j : ℕ) =>
      let x : α := xMin + (i : α) * xStep
      let y : α := yMin + (j : α) * yStep
      let z : α := calculateFunction M funcType x y
      vertices ++ [![x, y, z]]) vertices) []

/-- The two triangles pushed by the body of the face loop of `createSurface`
for the cell `(i, j)`. -/
def surfaceQuad (gridSize i j : ℕ) : List (List ℤ) :=
  let v1 := i * (gridSize + 1) + j
  let v2 := i * (gridSize + 1) + j + 1
  let v3 := (i + 1) * (gridSize + 1) + j + 1
  let v4 := (i + 1) * (gridSize + 1) + j
  [[(v1 : ℤ), (v2 : ℤ), (v3 : ℤ)]] ++ [[(v1 : ℤ), (v3 : ℤ), (v4 : ℤ)]]

/-- The array `faces` after the second pair of loops of `createSurface`. -/
def surfaceFaces (gridSize : ℕ) : List (List ℤ) :=
  (List.range gridSize).foldl (fun faces (i : ℕ) =>
    (List.range gridSize).foldl (fun faces (j : ℕ) =>
      faces ++ surfaceQuad gridSize i j) faces) []

/-- Method `SurfaceBuilder.createSurface`; `gridSize` is a natural number. -/
def createSurface {α : Type} [LinearOrderedField α] (M : JSMath α) (funcType : String)
    (xMin xMax yMin yMax : α) (gridSize : ℕ) : Polyhedron α :=
  let vertices := surfaceVertices M funcType xMin xMax yMin yMax gridSize
  let faces := surfaceFaces gridSize
  Polyhedron.new vertices faces

/-! ## Built-in solids -/

/-- Method `PolyhedronViewer.createTetrahedron`. -/
def createTetrahedron {α : Type} [Field α] (M : JSMath α) : Polyhedron α :=
  let vertices : List (Fin 3 → α) := [
    ![0, 0, M.sqrt (8 / 3)],
    ![M.sqrt (8 / 3), 0, -M.sqrt (8 / 9)],
    ![-M.sqrt (2 / 3), M.sqrt 2, -M.sqrt (8 / 9)],
    ![-M.sqrt (2 / 3), -M.sqrt 2, -M.sqrt (8 / 9)]]
  let faces : List (List ℤ) := [
    [0, 1, 2], [0, 2, 3], [0, 3, 1], [1, 3, 2]]
  Polyhedron.new vertices faces

/-- Method `PolyhedronViewer.createOctahedron`. -/
def createOctahedron {α : Type} [Field α] : Polyhedron α :=
  let vertices : List (Fin 3 → α) := [
    ![0, 0, 1], ![1, 0, 0], ![0, 1, 0],
    ![-1, 0, 0], ![0, -1, 0], ![0, 0, -1]]
  let faces : List (List ℤ) := [
    [0, 1, 2], [0, 2, 3], [0, 3, 4], [0, 4, 1],
    [5, 1, 2], [5, 2, 3], [5, 3, 4], [5, 4, 1]]
  Polyhedron.new vertices faces

/-- Method `PolyhedronViewer.createIcosahedron`. -/
def createIcosahedron {α : Type} [Field α] (M : JSMath α) : Polyhedron α :=
  let t : α := (1 + M.sqrt 5) / 2
  let vertices : List (Fin 3 → α) := [
    ![-1, t, 0], ![1, t, 0], ![-1, -t, 0], ![1, -t, 0],
    ![0, -1, t], ![0, 1, t], ![0, -1, -t], ![0, 1, -t],
    ![t, 0, -1], ![t, 0, 1], ![-t, 0, -1], ![-t, 0, 1]]
  let faces : List (List ℤ) := [
    [0, 11, 5], [0, 5, 1], [0, 1, 7], [0, 7, 10], [0, 10, 11],
    [1, 5, 9], [5, 11, 4], [11, 10, 2], [10, 7, 6], [7, 1, 8],
    [3, 9, 4], [3, 4, 2], [3, 2, 6], [3, 6, 8], [3, 8, 9],
    [4, 9, 5], [2, 4, 11], [6, 2, 10], [8, 6, 7], [9, 8, 1]]
  Polyhedron.new vertices faces

/-- Method `PolyhedronViewer.createDodecahedron`. -/
def createDodecahedron {α : Type} [Field α] (M : JSMath α) : Polyhedron α :=
  let phi : α := (1 + M.sqrt 5) / 2
  let invPhi : α := 1 / phi
  let vertices : List (Fin 3 → α) := [
    ![1, 1, 1], ![1, 1, -1], ![1, -1, 1], ![1, -1, -1],
    ![-1, 1, 1], ![-1, 1, -1], ![-1, -1, 1], ![-1, -1, -1],
    ![0, invPhi, phi], ![0, -invPhi, phi], ![0, invPhi, -phi], ![0, -invPhi, -phi],
    ![invPhi, phi, 0], ![-invPhi, phi, 0], ![invPhi, -phi, 0], ![-invPhi, -phi, 0],
    ![phi, 0, invPhi], ![-phi, 0, invPhi], ![phi, 0, -invPhi], ![-phi, 0, -invPhi]]
  let faces : List (List ℤ) := [
    [0, 8, 9, 2, 16],
    [0, 16, 17, 4, 12],
    [0, 12, 13, 1, 8],
    [1, 13, 14, 3, 10],
    [1, 10, 11, 5, 9],
    [2, 9, 5, 15, 18],
    [2, 18, 19, 6, 16],
    [3, 14, 13, 12, 17],
    [3, 17, 16, 6, 19],
    [4, 8, 1, 10, 11],
    [4, 11, 7, 15, 12],
    [5, 11, 10, 3, 14]]
  Polyhedron.new vertices faces

/-! ## Projection matrices and affine matrices -/

/-- The constant `perspectiveMatrix` of `projectPerspective` (`c = 5`, `scale = 100`). -/
def perspectiveMatrix {α : Type} [Field α] : Mat 4 4 α :=
  let c : α := 5
  let scale : α := 100
  ![![scale, 0, 0, 0],
    ![0, -scale, 0, 0],
    ![0, 0, 1, 0],
    ![0, 0, -1 / c, 1]]

/-- The constant `axonometricMatrix` of `projectAxonometric` (`angle = Math.PI / 6`). -/
def axonometricMatrix {α : Type} [Field α] (M : JSMath α) : Mat 4 4 α :=
  let angle : α := M.PI / 6
  ![![M.cos angle, 0, -M.sin angle, 0],
    ![M.sin angle * M.sin angle, M.cos angle, M.cos angle * M.sin angle, 0],
    ![0, 0, 0, 0],
    ![0, 0, 0, 1]]

/-- The matrices that the program obtains from the constructors of
`TransformationMatrix` by products: the identity, the three rotations, the
scaling, the translation, the reflection, the scaling around a center, and
`multiplyMatrices(a, b)` of two such matrices. -/
inductive TransformBuilt {α : Type} [Ring α] (M : JSMath α) : Mat 4 4 α → Prop where
  | identity : TransformBuilt M getIdentityMatrix
  | rotationX (angle : α) : TransformBuilt M (getRotationXMatrix M angle)
  | rotationY (angle : α) : TransformBuilt M (getRotationYMatrix M angle)
  | rotationZ (angle : α) : TransformBuilt M (getRotationZMatrix M angle)
  | scale (scale : α) : TransformBuilt M (getScaleMatrix scale)
  | translation (dx dy dz : α) : TransformBuilt M (getTranslationMatrix dx dy dz)
  | reflection (reflectXY reflectXZ reflectYZ : Bool) :
      TransformBuilt M (getReflectionMatrix reflectXY reflectXZ reflectYZ)
  | scaleAroundCenter (scale : α) (center : Point3D α) :
      TransformBuilt M (getScaleAroundCenterMatrix scale center)
  | product (a b : Mat 4 4 α) (ha : TransformBuilt M a) (hb : TransformBuilt M b) :
      TransformBuilt M (multiplyMatrices a b)

/-! ## Flat faces -/

/-- The points of a face of a mesh: the vertices at the indices of the face, in
the order of the indices (an index outside the vertex list gives no point). -/
def Polyhedron.facePoints {α : Type} (m : Polyhedron α) (f : Face) : List (Point3D α) :=
  f.vertexIndices.filterMap (fun i => if 0 ≤ i then m.vertices[i.toNat]? else none)

/-- The points lie in one plane `a·x + b·y + c·z = d` whose normal `(a, b, c)`
is not zero. -/
def Coplanar {α : Type} [Ring α] (points : List (Point3D α)) : Prop :=
  ∃ a b c d : α, (a ≠ 0 ∨ b ≠ 0 ∨ c ≠ 0) ∧ ∀ p ∈ points, a * p.x + b * p.y + c * p.z = d

/-- The scalar triple product of `q − p`, `r − p` and `s − p`: six times the
signed volume of the tetrahedron `p q r s`. -/
def tripleProduct {α : Type} [Ring α] (p q r s : Point3D α) : α :=
  (q.x - p.x) * ((r.y - p.y) * (s.z - p.z) - (r.z - p.z) * (s.y - p.y))
  - (q.y - p.y) * ((r.x - p.x) * (s.z - p.z) - (r.z - p.z) * (s.x - p.x))
  + (q.z - p.z) * ((r.x - p.x) * (s.y - p.y) - (r.y - p.y) * (s.x - p.x))

/-! ## Theorems -/

/-! ### Helper lemmas: vectors and matrices -/

theorem vec4_ext {α : Type} (f : Fin 4 → α) (a b c d : α)
    (h0 : f 0 = a) (h1 : f 1 = b) (h2 : f 2 = c) (h3 : f 3 = d) : f = ![a, b, c, d] := by
  funext i; fin_cases i <;> assumption

theorem vec3_eta {α : Type} (v : Fin 3 → α) : ![v 0, v 1, v 2] = v := by
  funext i; fin_cases i <;> rfl

theorem multiplyMatrices_apply {α : Type} [Zero α] [Add α] [Mul α] {n p : ℕ}
    (a : Mat n 4 α) (b : Mat 4 p α) (i : Fin n) (j : Fin p) :
    multiplyMatrices a b i j
      = 0 + a i 0 * b 0 j + a i 1 * b 1 j + a i 2 * b 2 j + a i 3 * b 3 j := rfl

theorem getIdentityMatrix_apply {α : Type} [Zero α] [One α] (i j : Fin 4) :
    (getIdentityMatrix : Mat 4 4 α) i j = if i = j then 1 else 0 := by
  fin_cases i <;> fin_cases j <;> rfl

theorem multiplyMatrixVector_apply {α : Type} [Add α] [Mul α] (m : Mat 4 4 α) (x y z : α) :
    multiplyMatrixVector m ![x, y, z]
      = ![m 0 0 * x + m 0 1 * y + m 0 2 * z + m 0 3,
          m 1 0 * x + m 1 1 * y + m 1 2 * z + m 1 3,
          m 2 0 * x + m 2 1 * y + m 2 2 * z + m 2 3,
          m 3 0 * x + m 3 1 * y + m 3 2 * z + m 3 3] := rfl

/-! ### Helper lemmas: the mesh -/

theorem foldl_center_sum {α : Type} [AddCommMonoid α] (vs : List (Point3D α))
    (a : Point3D α) :
    vs.foldl (fun acc vertex =>
        Point3D.mk (acc.x + vertex.x) (acc.y + vertex.y) (acc.z + vertex.z)) a
      = Point3D.mk (a.x + (vs.map Point3D.x).sum) (a.y + (vs.map Point3D.y).sum)
          (a.z + (vs.map Point3D.z).sum) := by
  induction vs generalizing a with
  | nil => simp
  | cons v vs ih => simp [ih, add_assoc]

theorem new_vertices_toArray {α : Type} [Zero α] [Add α] [Div α] [NatCast α]
    (vertices : List (Fin 3 → α)) (faces : List (List ℤ)) :
    (Polyhedron.new vertices faces).vertices.map Point3D.toArray = vertices := by
  simp only [Polyhedron.new, List.map_map]
  conv_rhs => rw [← List.map_id vertices]
  apply List.map_congr_left
  intro v _
  exact vec3_eta v

theorem new_faces_vertexIndices {α : Type} [Zero α] [Add α] [Div α] [NatCast α]
    (vertices : List (Fin 3 → α)) (faces : List (List ℤ)) :
    (Polyhedron.new vertices faces).faces.map Face.vertexIndices = faces := by
  simp only [Polyhedron.new, List.map_map]
  conv_rhs => rw [← List.map_id faces]
  apply List.map_congr_left
  intro f _
  rfl

/-! ### Helper lemmas: the line loop of the OBJ parser -/

theorem splitChar_ne_nil (sep : Char) (s : List Char) : splitChar sep s ≠ [] := by
  induction s with
  | nil => simp [splitChar]
  | cons c cs ih =>
    unfold splitChar
    split
    · simp
    · split <;> simp

theorem splitChar_headD (sep : Char) (s : List Char) :
    (splitChar sep s).headD [] = s.takeWhile (fun c => c ≠ sep) := by
  induction s with
  | nil => simp [splitChar]
  | cons c cs ih =>
    unfold splitChar
    by_cases h : c = sep
    · simp [h]
    · simp only [h, if_false]
      cases hs : splitChar sep cs with
      | nil => exact absurd hs (splitChar_ne_nil sep cs)
      | cons piece pieces =>
        rw [hs] at ih
        simp [List.takeWhile_cons, h] at ih ⊢
        exact ih

theorem foldl_parseOBJFacePart (parts : List (List Char)) (init : List ℤ) :
    parts.foldl parseOBJFacePart init
      = init ++ parts.filterMap (fun token =>
          (parseInt (token.takeWhile (fun c => c ≠ '/'))).map (fun i => i - 1)) := by
  induction parts generalizing init with
  | nil => simp
  | cons part parts ih =>
    simp only [List.foldl_cons, ih, parseOBJFacePart, splitChar_headD, List.filterMap_cons]
    generalize parseInt (part.takeWhile (fun c => c ≠ '/')) = r
    cases r <;> simp

theorem not_both_prefixes (s : List Char) (h : ['v', ' '].isPrefixOf s = true) :
    ['f', ' '].isPrefixOf s = false := by
  cases s with
  | nil => simp at h
  | cons c cs =>
    simp only [List.isPrefixOf, Bool.and_eq_true, beq_iff_eq] at h
    have : c = 'v' := h.1.symm
    subst this
    simp [List.isPrefixOf]

theorem parseOBJLine_eq (acc : List (Fin 3 → JSNum) × List (List ℤ)) (line : List Char) :
    parseOBJLine acc line
      = (acc.1 ++ (vertexOfLine line).toList, acc.2 ++ (faceOfLine line).toList) := by
  obtain ⟨vertices, faces⟩ := acc
  unfold parseOBJLine vertexOfLine faceOfLine
  simp only [foldl_parseOBJFacePart, List.nil_append]
  cases hv : ['v', ' '].isPrefixOf (trim line)
  · cases hf : ['f', ' '].isPrefixOf (trim line)
    · simp
    · simp only [Bool.false_eq_true, if_true, if_false]
      split <;> simp_all
  · simp only [not_both_prefixes _ hv, Bool.false_eq_true, if_true, if_false]
    split <;> simp

theorem foldl_parseOBJLine (lines : List (List Char))
    (acc : List (Fin 3 → JSNum) × List (List ℤ)) :
    lines.foldl parseOBJLine acc
      = (acc.1 ++ lines.filterMap vertexOfLine, acc.2 ++ lines.filterMap faceOfLine) := by
  induction lines generalizing acc with
  | nil => simp
  | cons line lines ih =>
    rw [List.foldl_cons, ih, parseOBJLine_eq]
    cases hv : vertexOfLine line <;> cases hf : faceOfLine line <;>
      simp [List.filterMap_cons, hv, hf]

theorem parseOBJ_eq (content : List Char) :
    parseOBJ content = Polyhedron.new ((splitChar '\n' content).filterMap vertexOfLine)
      ((splitChar '\n' content).filterMap faceOfLine) := by
  unfold parseOBJ
  simp only [foldl_parseOBJLine, List.nil_append]

/-! ### Helper lemmas: decimal numerals -/

theorem radixDigitValue_digitChar (d : ℕ) (h : d < 10) :
    radixDigitValue 10 (digitChar d) = some d := by
  interval_cases d <;> decide

theorem digitChar_props (d : ℕ) :
    isWhiteSpace (digitChar d) = false ∧ digitChar d ≠ '/' ∧ digitChar d ≠ '-'
      ∧ digitChar d ≠ '+' ∧ digitChar d ≠ 'x' ∧ digitChar d ≠ 'X' := by
  unfold digitChar
  split <;> decide

theorem digitsValue_append (ds : List ℕ) (d : ℕ) :
    digitsValue 10 (ds ++ [d]) = digitsValue 10 ds * 10 + d := by
  simp [digitsValue, List.foldl_append]

theorem natToStringAux_spec (fuel n : ℕ) (acc : List Char) (h : n < fuel) :
    ∃ ds : List ℕ, natToStringAux fuel n acc = ds.map digitChar ++ acc ∧ ds ≠ []
      ∧ (∀ d ∈ ds, d < 10) ∧ digitsValue 10 ds = n := by
  induction fuel generalizing n acc with
  | zero => omega
  | succ fuel ih =>
    unfold natToStringAux
    by_cases h0 : n / 10 = 0
    · refine ⟨[n % 10], ?_, by simp, ?_, ?_⟩
      · simp [h0]
      · intro d hd
        simp at hd
        omega
      · simp [digitsValue]
        omega
    · have hlt : n / 10 < fuel := by omega
      obtain ⟨ds, h1, -, h3, h4⟩ := ih (n / 10) (digitChar (n % 10) :: acc) hlt
      refine ⟨ds ++ [n % 10], ?_, by simp, ?_, ?_⟩
      · simp [h0, h1]
      · intro d hd
        rcases List.mem_append.1 hd with hd | hd
        · exact h3 d hd
        · simp at hd
          omega
      · rw [digitsValue_append, h4]
        omega

theorem natToString_spec (n : ℕ) :
    ∃ ds : List ℕ, natToString n = ds.map digitChar ∧ ds ≠ []
      ∧ (∀ d ∈ ds, d < 10) ∧ digitsValue 10 ds = n := by
  obtain ⟨ds, h1, h2, h3, h4⟩ := natToStringAux_spec (n + 1) n [] (by omega)
  exact ⟨ds, by simpa using h1, h2, h3, h4⟩

theorem takeDigits_digits (ds : List ℕ) (h : ∀ d ∈ ds, d < 10) :
    takeDigits 10 (ds.map digitChar) = (ds, []) := by
  induction ds with
  | nil => simp [takeDigits]
  | cons d ds ih =>
    have hd : d < 10 := h d (by simp)
    have ih2 := ih (fun e he => h e (by simp [he]))
    simp [takeDigits, radixDigitValue_digitChar d hd, ih2]

/-- Reading a numeral made of decimal digits only. -/
theorem parseInt_digits (ds : List ℕ) (hne : ds ≠ []) (h : ∀ d ∈ ds, d < 10) :
    parseInt (ds.map digitChar) = some (digitsValue 10 ds : ℕ) := by
  have htd := takeDigits_digits ds h
  cases ds with
  | nil => exact absurd rfl hne
  | cons d ds =>
    obtain ⟨hw, -, hm, hp, hx, hX⟩ := digitChar_props d
    cases ds with
    | nil =>
      simp only [List.map_cons, List.map_nil] at htd ⊢
      simp [parseInt, hw, takeSign, hm, hp, htd]
    | cons e ds =>
      obtain ⟨-, -, -, -, hex, heX⟩ := digitChar_props e
      simp only [List.map_cons] at htd ⊢
      simp [parseInt, hw, takeSign, hm, hp, htd, hex, heX]

theorem parseInt_intToString (i : ℤ) : parseInt (intToString i) = some i := by
  cases i with
  | ofNat n =>
    obtain ⟨ds, h1, h2, h3, h4⟩ := natToString_spec n
    simp only [intToString, h1, parseInt_digits ds h2 h3, h4]
    rfl
  | negSucc n =>
    obtain ⟨ds, h1, h2, h3, h4⟩ := natToString_spec (n + 1)
    have htd := takeDigits_digits ds h3
    cases ds with
    | nil => exact absurd rfl h2
    | cons d ds =>
      obtain ⟨hw, -, hm, hp, hx, hX⟩ := digitChar_props d
      cases ds with
      | nil =>
        simp only [List.map_cons, List.map_nil] at htd h1
        simp [intToString, h1, parseInt, isWhiteSpace, takeSign, htd, h4, Int.negSucc_eq]
      | cons e ds =>
        obtain ⟨-, -, -, -, hex, heX⟩ := digitChar_props e
        simp only [List.map_cons] at htd h1
        simp [intToString, h1, parseInt, isWhiteSpace, takeSign, htd, hex, heX, h4,
          Int.negSucc_eq]

/-! ### Helper lemmas: tokens, `split` and `trim` -/

theorem isToken_intToString (i : ℤ) :
    IsToken (intToString i) ∧ ∀ c ∈ intToString i, c ≠ '/' := by
  have key : ∀ n : ℕ, IsToken (natToString n) ∧ ∀ c ∈ natToString n, c ≠ '/' := by
    intro n
    obtain ⟨ds, h1, h2, -, -⟩ := natToString_spec n
    rw [h1]
    refine ⟨⟨by simpa using h2, ?_⟩, ?_⟩
    · intro c hc
      obtain ⟨d, -, rfl⟩ := List.mem_map.1 hc
      exact (digitChar_props d).1
    · intro c hc
      obtain ⟨d, -, rfl⟩ := List.mem_map.1 hc
      exact (digitChar_props d).2.1
  cases i with
  | ofNat n => exact key n
  | negSucc n =>
    obtain ⟨⟨-, h2⟩, h3⟩ := key (n + 1)
    refine ⟨⟨by simp [intToString], ?_⟩, ?_⟩
    · intro c hc
      simp only [intToString, List.mem_cons] at hc
      rcases hc with rfl | hc
      · decide
      · exact h2 c hc
    · intro c hc
      simp only [intToString, List.mem_cons] at hc
      rcases hc with rfl | hc
      · decide
      · exact h3 c hc

theorem splitChar_of_not_mem (sep : Char) (l : List Char) (h : sep ∉ l) :
    splitChar sep l = [l] := by
  induction l with
  | nil => rfl
  | cons c cs ih =>
    have hc : c ≠ sep := fun e => h (by simp [e])
    have hcs : sep ∉ cs := fun e => h (by simp [e])
    simp [splitChar, hc, ih hcs]

theorem splitChar_append_sep (sep : Char) (l rest : List Char) (h : sep ∉ l) :
    splitChar sep (l ++ sep :: rest) = l :: splitChar sep rest := by
  induction l with
  | nil => simp [splitChar]
  | cons c cs ih =>
    have hc : c ≠ sep := fun e => h (by simp [e])
    have hcs : sep ∉ cs := fun e => h (by simp [e])
    simp [splitChar, hc, ih hcs]

theorem splitChar_lines (sep : Char) (ls : List (List Char)) (rest : List Char)
    (h : ∀ l ∈ ls, sep ∉ l) :
    splitChar sep ((ls.map (fun l => l ++ [sep])).flatten ++ rest)
      = ls ++ splitChar sep rest := by
  induction ls with
  | nil => simp
  | cons l ls ih =>
    have hl : sep ∉ l := h l (by simp)
    have hls : ∀ l ∈ ls, sep ∉ l := fun l hl => h l (by simp [hl])
    simp only [List.map_cons, List.flatten_cons, List.append_assoc, List.singleton_append,
      List.cons_append]
    rw [splitChar_append_sep sep l _ hl, List.nil_append, ih hls]

theorem splitWhiteSpaceAux_token (t rest : List Char) (b : Bool) (hne : t ≠ [])
    (h : ∀ c ∈ t, isWhiteSpace c = false) :
    splitWhiteSpaceAux b (t ++ ' ' :: rest) = t :: splitWhiteSpaceAux true rest := by
  induction t generalizing b with
  | nil => exact absurd rfl hne
  | cons c cs ih =>
    have hc : isWhiteSpace c = false := h c (by simp)
    have hcs : ∀ c ∈ cs, isWhiteSpace c = false := fun c hc => h c (by simp [hc])
    cases cs with
    | nil =>
      have hsp : isWhiteSpace ' ' = true := by decide
      simp [splitWhiteSpaceAux, hc, hsp]
    | cons d ds =>
      have := ih false (by simp) hcs
      simp only [List.cons_append] at this ⊢
      rw [splitWhiteSpaceAux]
      simp [hc, this]

theorem splitWhiteSpaceAux_last (t : List Char) (b : Bool) (hne : t ≠ [])
    (h : ∀ c ∈ t, isWhiteSpace c = false) :
    splitWhiteSpaceAux b t = [t] := by
  induction t generalizing b with
  | nil => exact absurd rfl hne
  | cons c cs ih =>
    have hc : isWhiteSpace c = false := h c (by simp)
    have hcs : ∀ c ∈ cs, isWhiteSpace c = false := fun c hc => h c (by simp [hc])
    cases cs with
    | nil => simp [splitWhiteSpaceAux, hc]
    | cons d ds =>
      have := ih false (by simp) hcs
      rw [splitWhiteSpaceAux]
      simp [hc, this]

theorem splitWhiteSpaceAux_join (ts : List (List Char)) (b : Bool) (hne : ts ≠ [])
    (h : ∀ t ∈ ts, IsToken t) :
    splitWhiteSpaceAux b (join [' '] ts) = ts := by
  induction ts generalizing b with
  | nil => exact absurd rfl hne
  | cons t ts ih =>
    obtain ⟨ht1, ht2⟩ := h t (by simp)
    cases ts with
    | nil => simpa [join] using splitWhiteSpaceAux_last t b ht1 ht2
    | cons u us =>
      have := ih true (by simp) (fun t ht => h t (by simp [ht]))
      simp only [join, List.append_assoc, List.singleton_append]
      rw [splitWhiteSpaceAux_token t _ b ht1 ht2, this]

theorem splitWhiteSpace_join (ts : List (List Char)) (hne : ts ≠ [])
    (h : ∀ t ∈ ts, IsToken t) :
    splitWhiteSpace (join [' '] ts) = ts :=
  splitWhiteSpaceAux_join ts false hne h

theorem join_tokens_ends (ts : List (List Char)) (hne : ts ≠ [])
    (h : ∀ t ∈ ts, IsToken t) :
    (∃ c rest, join [' '] ts = c :: rest ∧ isWhiteSpace c = false)
    ∧ (∃ init c, join [' '] ts = init ++ [c] ∧ isWhiteSpace c = false) := by
  induction ts with
  | nil => exact absurd rfl hne
  | cons t ts ih =>
    obtain ⟨ht1, ht2⟩ := h t (by simp)
    obtain ⟨c, cs, rfl⟩ := List.exists_cons_of_ne_nil ht1
    cases ts with
    | nil =>
      refine ⟨⟨c, cs, by simp [join], ht2 c (by simp)⟩, ?_⟩
      refine ⟨(c :: cs).dropLast, (c :: cs).getLast (by simp), ?_, ?_⟩
      · simp only [join]
        exact (List.dropLast_append_getLast _).symm
      · exact ht2 _ (List.getLast_mem _)
    | cons u us =>
      obtain ⟨-, init, d, hj, hd⟩ := ih (by simp) (fun t ht => h t (by simp [ht]))
      refine ⟨⟨c, cs ++ [' '] ++ join [' '] (u :: us), by simp [join], ht2 c (by simp)⟩, ?_⟩
      refine ⟨(c :: cs) ++ [' '] ++ init, d, ?_, hd⟩
      simp only [join, hj, List.append_assoc]

theorem trim_eq_self (s : List Char)
    (h1 : ∃ c rest, s = c :: rest ∧ isWhiteSpace c = false)
    (h2 : ∃ init c, s = init ++ [c] ∧ isWhiteSpace c = false) : trim s = s := by
  obtain ⟨c, rest, hs, hc⟩ := h1
  obtain ⟨init, d, hs2, hd⟩ := h2
  have e1 : s.dropWhile isWhiteSpace = s := by
    rw [hs]; simp [List.dropWhile_cons, hc]
  unfold trim
  rw [e1, hs2]
  simp [List.dropWhile_cons, hd]

theorem trim_join (ts : List (List Char)) (hne : ts ≠ []) (h : ∀ t ∈ ts, IsToken t) :
    trim (join [' '] ts) = join [' '] ts :=
  trim_eq_self _ (join_tokens_ends ts hne h).1 (join_tokens_ends ts hne h).2

theorem foldl_append_flatten {β : Type} (f : β → List Char) (xs : List β) (init : List Char) :
    xs.foldl (fun acc x => acc ++ f x) init = init ++ (xs.map f).flatten := by
  induction xs generalizing init with
  | nil => simp
  | cons x xs ih => simp [ih]

/-! ### Helper lemmas: the text written by `toOBJ` -/

theorem mem_join (sep : List Char) (ts : List (List Char)) (c : Char)
    (h : c ∈ join sep ts) : c ∈ sep ∨ ∃ t ∈ ts, c ∈ t := by
  induction ts with
  | nil => simp [join] at h
  | cons t ts ih =>
    cases ts with
    | nil => exact Or.inr ⟨t, by simp, by simpa [join] using h⟩
    | cons u us =>
      simp only [join, List.mem_append] at h
      rcases h with (h | h) | h
      · exact Or.inr ⟨t, by simp, h⟩
      · exact Or.inl h
      · rcases ih h with h | ⟨w, hw, hc⟩
        · exact Or.inl h
        · exact Or.inr ⟨w, by simp [hw], hc⟩

theorem isToken_faceTokens (face : Face) :
    ∀ t ∈ face.vertexIndices.map (fun idx => intToString (idx + 1)), IsToken t := by
  intro t ht
  obtain ⟨i, -, rfl⟩ := List.mem_map.1 ht
  exact (isToken_intToString _).1

theorem toOBJ_eq {α : Type} (numToString : α → List Char) (m : Polyhedron α) :
    m.toOBJ numToString
      = (((objHeader.dropLast :: m.vertices.map (objVertexLine numToString)) ++ [[]]
          ++ m.faces.map objFaceLine).map (fun l => l ++ ['\n'])).flatten := by
  have hh : objHeader = objHeader.dropLast ++ ['\n'] := by decide
  unfold Polyhedron.toOBJ
  simp only [foldl_append_flatten]
  conv_lhs => rw [hh]
  simp [objVertexLine, objFaceLine, List.map_map, Function.comp_def]

theorem splitChar_toOBJ {α : Type} (numToString : α → List Char) (m : Polyhedron α)
    (hnum : ∀ v ∈ m.vertices, IsToken (numToString v.x) ∧ IsToken (numToString v.y)
      ∧ IsToken (numToString v.z)) :
    splitChar '\n' (m.toOBJ numToString)
      = (objHeader.dropLast :: m.vertices.map (objVertexLine numToString)) ++ [[]]
          ++ m.faces.map objFaceLine ++ [[]] := by
  rw [toOBJ_eq]
  have := splitChar_lines '\n' ((objHeader.dropLast :: m.vertices.map (objVertexLine numToString))
    ++ [[]] ++ m.faces.map objFaceLine) [] ?_
  · simpa [splitChar] using this
  · intro l hl
    have hnl : isWhiteSpace '\n' = true := by decide
    simp only [List.cons_append, List.append_assoc, List.mem_cons, List.mem_append,
      List.mem_map, List.mem_singleton] at hl
    rcases hl with rfl | ⟨v, hv, rfl⟩ | rfl | hl | ⟨f, -, rfl⟩
    · decide
    · obtain ⟨hx, hy, hz⟩ := hnum v hv
      intro hmem
      simp only [objVertexLine, List.mem_append, List.mem_cons, List.mem_singleton] at hmem
      have hx' := hx.2 '\n'
      have hy' := hy.2 '\n'
      have hz' := hz.2 '\n'
      simp only [hnl] at hx' hy' hz'
      rcases hmem with ((((h | h) | h) | h) | h) | h
      · revert h; decide
      · exact absurd (hx' h) (by simp)
      · revert h; decide
      · exact absurd (hy' h) (by simp)
      · revert h; decide
      · exact absurd (hz' h) (by simp)
    · simp
    · simp at hl
    · intro hmem
      simp only [objFaceLine, List.mem_append, List.mem_cons] at hmem
      rcases hmem with h | h
      · revert h; decide
      · rcases mem_join _ _ _ h with h | ⟨t, ht, hc⟩
        · revert h; decide
        · have := (isToken_faceTokens f t ht).2 _ hc
          simp [hnl] at this

/-! ### Helper lemmas: reading back the lines written by `toOBJ` -/

theorem objVertexLine_eq_join {α : Type} (numToString : α → List Char) (v : Point3D α) :
    objVertexLine numToString v
      = join [' '] [['v'], numToString v.x, numToString v.y, numToString v.z] := by
  simp [objVertexLine, join]

theorem objFaceLine_eq_join (face : Face) (h : face.vertexIndices ≠ []) :
    objFaceLine face
      = join [' '] (['f'] :: face.vertexIndices.map (fun idx => intToString (idx + 1))) := by
  cases hv : face.vertexIndices with
  | nil => exact absurd hv h
  | cons i is => simp [objFaceLine, join, hv]

theorem isToken_singleton_v : IsToken ['v'] := ⟨by simp, by decide⟩

theorem isToken_singleton_f : IsToken ['f'] := ⟨by simp, by decide⟩

theorem vertexOfLine_objVertexLine {α : Type} (numToString : α → List Char) (v : Point3D α)
    (hx : IsToken (numToString v.x)) (hy : IsToken (numToString v.y))
    (hz : IsToken (numToString v.z)) :
    vertexOfLine (objVertexLine numToString v)
        = some ![parseFloat (numToString v.x), parseFloat (numToString v.y),
            parseFloat (numToString v.z)]
    ∧ faceOfLine (objVertexLine numToString v) = none := by
  have htok : ∀ t ∈ [['v'], numToString v.x, numToString v.y, numToString v.z], IsToken t := by
    intro t ht
    simp only [List.mem_cons, List.mem_singleton, List.not_mem_nil, or_false] at ht
    rcases ht with rfl | rfl | rfl | rfl
    exacts [isToken_singleton_v, hx, hy, hz]
  have htrim := trim_join _ (by simp) htok
  have hsplit := splitWhiteSpace_join _ (by simp) htok
  rw [← objVertexLine_eq_join] at htrim hsplit
  have hpre : ['v', ' '].isPrefixOf (objVertexLine numToString v) = true := by
    simp [objVertexLine, List.isPrefixOf]
  constructor
  · simp [vertexOfLine, htrim, hsplit, hpre]
  · simp [faceOfLine, htrim, not_both_prefixes _ hpre]

theorem faceOfLine_objFaceLine (face : Face) (h3 : 3 ≤ face.vertexIndices.length) :
    faceOfLine (objFaceLine face) = some face.vertexIndices
    ∧ vertexOfLine (objFaceLine face) = none := by
  have hne : face.vertexIndices ≠ [] := by
    intro h; rw [h] at h3; simp at h3
  have htok : ∀ t ∈ ['f'] :: face.vertexIndices.map (fun idx => intToString (idx + 1)),
      IsToken t := by
    intro t ht
    rcases List.mem_cons.1 ht with rfl | ht
    · exact isToken_singleton_f
    · exact isToken_faceTokens face t ht
  have htrim := trim_join _ (by simp) htok
  have hsplit := splitWhiteSpace_join _ (by simp) htok
  rw [← objFaceLine_eq_join face hne] at htrim hsplit
  have hpre : ['f', ' '].isPrefixOf (objFaceLine face) = true := by
    simp [objFaceLine, List.isPrefixOf]
  have hnv : ['v', ' '].isPrefixOf (objFaceLine face) = false := by
    simp [objFaceLine, List.isPrefixOf]
  have hidx : (face.vertexIndices.map (fun idx => intToString (idx + 1))).filterMap
      (fun token => (parseInt (token.takeWhile (fun c => c ≠ '/'))).map (fun i => i - 1))
      = face.vertexIndices := by
    rw [List.filterMap_map]
    conv_rhs => rw [← List.filterMap_some face.vertexIndices]
    apply List.filterMap_congr
    intro i _
    have hns := (isToken_intToString (i + 1)).2
    have htw : (intToString (i + 1)).takeWhile (fun c => c ≠ '/') = intToString (i + 1) := by
      rw [List.takeWhile_eq_self_iff]
      intro c hc
      simpa using hns c hc
    simp only [Function.comp_apply]
    rw [htw, parseInt_intToString]
    simp
  constructor
  · simp only [faceOfLine, htrim, hsplit, hpre, if_true, List.drop_succ_cons, List.drop_zero,
      hidx, h3]
  · simp [vertexOfLine, htrim, hnv]

/-! ### Helper lemmas: the heap -/

theorem getElem?_append_stable {α : Type} (h e : Heap α) (r : ℕ) (c : Cell α)
    (hr : h[r]? = some c) : (h ++ e)[r]? = some c := by
  have hlt : r < h.length := by
    by_contra hge
    rw [List.getElem?_eq_none (by omega)] at hr
    exact absurd hr (by simp)
  rw [List.getElem?_append_left hlt]
  exact hr

theorem getElem?_length_append {α : Type} (h e : Heap α) (c : Cell α) :
    (h ++ c :: e)[h.length]? = some c := by
  rw [List.getElem?_append_right (le_refl _)]
  simp

theorem forall₂_append_stable {α β : Type} (h e : Heap α) (f : β → Cell α)
    (rs : List ℕ) (xs : List β)
    (hr : List.Forall₂ (fun r x => h[r]? = some (f x)) rs xs) :
    List.Forall₂ (fun r x => (h ++ e)[r]? = some (f x)) rs xs := by
  induction hr with
  | nil => exact List.Forall₂.nil
  | cons hx _ ih => exact List.Forall₂.cons (getElem?_append_stable h e _ _ hx) ih

theorem mapNew_spec {α β : Type} (callback : Heap α → ℕ → Option (Cell α)) (f : β → Cell α)
    (rs : List ℕ) (xs : List β) (h : Heap α)
    (hcb : List.Forall₂ (fun r x => ∀ e, callback (h ++ e) r = some (f x)) rs xs) :
    ∃ out e, mapNew callback h rs = some (h ++ e, out)
      ∧ List.Forall₂ (fun r x => (h ++ e)[r]? = some (f x)) out xs
      ∧ ∀ a ∈ out, h.length ≤ a := by
  induction rs generalizing xs h with
  | nil =>
    cases hcb
    exact ⟨[], [], by simp [mapNew], List.Forall₂.nil, by simp⟩
  | cons r rs ih =>
    cases hcb with
    | cons hx hrest =>
      rename_i x xs
      have h0 : callback h r = some (f x) := by simpa using hx []
      have hrest' : List.Forall₂ (fun r y => ∀ e, callback ((h ++ [f x]) ++ e) r = some (f y))
          rs xs := by
        refine List.Forall₂.imp ?_ hrest
        intro r y hy e
        rw [List.append_assoc]
        exact hy _
      obtain ⟨out, e, h1, h2, h3⟩ := ih xs (h ++ [f x]) hrest'
      refine ⟨h.length :: out, [f x] ++ e, ?_, ?_, ?_⟩
      · simp only [mapNew, h0, h1, List.append_assoc]
      · refine List.Forall₂.cons ?_ ?_
        · exact getElem?_length_append h e (f x)
        · simpa [List.append_assoc] using h2
      · intro a ha
        rcases List.mem_cons.1 ha with rfl | ha
        · exact le_rfl
        · have := h3 a ha
          simp at this
          omega

theorem arrayMap_spec {α β : Type} (callback : Heap α → ℕ → Option (Cell α)) (f : β → Cell α)
    (array : ℕ) (rs : List ℕ) (xs : List β) (h : Heap α)
    (harr : h[array]? = some (Cell.array rs))
    (hcb : List.Forall₂ (fun r x => ∀ e, callback (h ++ e) r = some (f x)) rs xs) :
    ∃ out e r', arrayMap callback h array = some (h ++ e, r')
      ∧ h.length ≤ r'
      ∧ (h ++ e)[r']? = some (Cell.array out)
      ∧ List.Forall₂ (fun r x => (h ++ e)[r]? = some (f x)) out xs
      ∧ ∀ a ∈ out, h.length ≤ a := by
  obtain ⟨out, e, h1, h2, h3⟩ := mapNew_spec callback f rs xs h hcb
  refine ⟨out, e ++ [Cell.array out], (h ++ e).length, ?_, ?_, ?_, ?_, h3⟩
  · simp only [arrayMap, harr, h1, List.append_assoc]
  · simp
  · rw [← List.append_assoc]
    exact getElem?_length_append (h ++ e) [] (Cell.array out)
  · rw [← List.append_assoc]
    exact forall₂_append_stable _ _ f out xs h2

theorem reduceCenter_spec {α : Type} [Add α] (rs : List ℕ) (ps : List (Point3D α))
    (h : Heap α) (acc : ℕ) (a : Point3D α)
    (hacc : h[acc]? = some (Cell.ofPoint a))
    (hps : List.Forall₂ (fun r p => h[r]? = some (Cell.ofPoint p)) rs ps) :
    ∃ e sum, reduceCenter h acc rs = some (h ++ e, sum)
      ∧ (h ++ e)[sum]? = some (Cell.ofPoint (ps.foldl (fun acc vertex =>
          Point3D.mk (acc.x + vertex.x) (acc.y + vertex.y) (acc.z + vertex.z)) a)) := by
  induction rs generalizing ps h acc a with
  | nil =>
    cases hps
    exact ⟨[], acc, by simp [reduceCenter], by simpa using hacc⟩
  | cons r rs ih =>
    cases hps with
    | cons hp hrest =>
      rename_i p ps
      have hrest' := forall₂_append_stable h
        [Cell.point (a.x + p.x) (a.y + p.y) (a.z + p.z)] Cell.ofPoint rs ps hrest
      obtain ⟨e, sum, h1, h2⟩ := ih ps (h ++ [Cell.point (a.x + p.x) (a.y + p.y) (a.z + p.z)])
        h.length ⟨a.x + p.x, a.y + p.y, a.z + p.z⟩ (by simp [Cell.ofPoint]) hrest'
      refine ⟨[Cell.point (a.x + p.x) (a.y + p.y) (a.z + p.z)] ++ e, sum, ?_, ?_⟩
      · simp only [Cell.ofPoint] at hacc hp
        simp only [reduceCenter, hacc, hp, h1, List.append_assoc]
      · simpa [List.append_assoc] using h2

theorem calculateCenterH_spec {α : Type} [Zero α] [Add α] [Div α] [NatCast α]
    (vertices : ℕ) (rs : List ℕ) (ps : List (Point3D α)) (h : Heap α)
    (harr : h[vertices]? = some (Cell.array rs))
    (hps : List.Forall₂ (fun r p => h[r]? = some (Cell.ofPoint p)) rs ps) :
    ∃ e c, calculateCenterH h vertices = some (h ++ e, c)
      ∧ h.length ≤ c
      ∧ (h ++ e)[c]? = some (Cell.ofPoint (Polyhedron.calculateCenter ps)) := by
  have hlen : rs.length = ps.length := hps.length_eq
  obtain ⟨e, sum, h1, h2⟩ := reduceCenter_spec rs ps (h ++ [Cell.point 0 0 0]) h.length
    ⟨0, 0, 0⟩ (by simp [Cell.ofPoint])
    (forall₂_append_stable h _ Cell.ofPoint rs ps hps)
  refine ⟨[Cell.point 0 0 0] ++ e ++ [Cell.ofPoint (Polyhedron.calculateCenter ps)],
    (h ++ [Cell.point 0 0 0] ++ e).length, ?_, ?_, ?_⟩
  · simp only [Cell.ofPoint] at h2
    simp only [calculateCenterH, harr, h1, h2, hlen, Polyhedron.calculateCenter, Cell.ofPoint]
    simp [List.append_assoc]
  · simp
  · have : h ++ ([Cell.point 0 0 0] ++ e ++ [Cell.ofPoint (Polyhedron.calculateCenter ps)])
        = (h ++ [Cell.point 0 0 0] ++ e) ++ [Cell.ofPoint (Polyhedron.calculateCenter ps)] := by
      simp [List.append_assoc]
    rw [this]
    exact getElem?_length_append _ [] _


theorem readPoints_spec {α : Type} (g : Heap α) (rs : List ℕ) (ps : List (Point3D α))
    (hps : List.Forall₂ (fun r p => g[r]? = some (Cell.ofPoint p)) rs ps) :
    readPoints g rs = some ps := by
  induction hps with
  | nil => rfl
  | cons hp _ ih =>
    simp only [Cell.ofPoint] at hp
    simp only [readPoints, hp, ih]

theorem readFaces_spec {α : Type} (g : Heap α) (rs frefs : List ℕ) (idxs : List (List ℤ))
    (hf : List.Forall₂ (fun r f => g[r]? = some (Cell.face f)) rs frefs)
    (hi : List.Forall₂ (fun f (items : List ℤ) => g[f]? = some (Cell.indices items)) frefs idxs) :
    readFaces g rs = some (idxs.map Face.mk)
    ∧ rs.filterMap (fun f => match g[f]? with
        | some (Cell.face a) => some a
        | _ => none) = frefs := by
  induction hf generalizing idxs with
  | nil =>
    cases hi
    exact ⟨rfl, rfl⟩
  | cons hp _ ih =>
    cases hi with
    | cons hx hrest =>
      obtain ⟨ih1, ih2⟩ := ih _ hrest
      constructor
      · simp only [readFaces, hp, ih1, hx, List.map_cons]
      · simp only [List.filterMap_cons, hp, ih2]

theorem readPoints_inv {α : Type} (h : Heap α) (rs : List ℕ) (ps : List (Point3D α))
    (hr : readPoints h rs = some ps) :
    List.Forall₂ (fun r p => h[r]? = some (Cell.ofPoint p)) rs ps := by
  induction rs generalizing ps with
  | nil =>
    simp only [readPoints, Option.some.injEq] at hr
    subst hr
    exact List.Forall₂.nil
  | cons r rs ih =>
    unfold readPoints at hr
    split at hr
    · rename_i x y z qs hcell hrec
      simp only [Option.some.injEq] at hr
      subst hr
      exact List.Forall₂.cons (by simpa [Cell.ofPoint] using hcell) (ih qs hrec)
    · exact absurd hr (by simp)

theorem readFaces_inv {α : Type} (h : Heap α) (rs : List ℕ) (fs : List Face)
    (hr : readFaces h rs = some fs) :
    List.Forall₂ (fun r (F : Face) => ∃ a, h[r]? = some (Cell.face a)
      ∧ h[a]? = some (Cell.indices F.vertexIndices)) rs fs := by
  induction rs generalizing fs with
  | nil =>
    simp only [readFaces, Option.some.injEq] at hr
    subst hr
    exact List.Forall₂.nil
  | cons r rs ih =>
    unfold readFaces at hr
    split at hr
    · rename_i a gs hcell hrec
      split at hr
      · rename_i items hidx
        simp only [Option.some.injEq] at hr
        subst hr
        exact List.Forall₂.cons ⟨a, hcell, hidx⟩ (ih gs hrec)
      · exact absurd hr (by simp)
    · exact absurd hr (by simp)

/-! ### Helper lemmas: the constructor and `clone` on the heap -/

theorem readPolyhedron_of_cells {α : Type} (g : Heap α) (r vertices faces center : ℕ)
    (vs fs frefs : List ℕ) (ps : List (Point3D α)) (idxs : List (List ℤ)) (c : Point3D α)
    (h0 : g[r]? = some (Cell.polyhedron vertices faces center))
    (h1 : g[vertices]? = some (Cell.array vs))
    (h2 : g[faces]? = some (Cell.array fs))
    (h3 : g[center]? = some (Cell.ofPoint c))
    (h4 : List.Forall₂ (fun r p => g[r]? = some (Cell.ofPoint p)) vs ps)
    (h5 : List.Forall₂ (fun r f => g[r]? = some (Cell.face f)) fs frefs)
    (h6 : List.Forall₂ (fun f (items : List ℤ) => g[f]? = some (Cell.indices items))
      frefs idxs) :
    readPolyhedron g r = some ⟨ps, idxs.map Face.mk, c⟩
    ∧ meshCells g r = r :: vertices :: faces :: center :: (vs ++ fs ++ frefs) := by
  obtain ⟨hf1, hf2⟩ := readFaces_spec g fs frefs idxs h5 h6
  simp only [Cell.ofPoint] at h3
  constructor
  · simp only [readPolyhedron, h0, h1, h2, h3, readPoints_spec g vs ps h4, hf1]
  · simp only [meshCells, h0, h1, h2, hf2]

theorem constructorH_spec {α : Type} [Zero α] [Add α] [Div α] [NatCast α] (h : Heap α)
    (vertices faces : ℕ) (vrefs frefs : List ℕ) (ps : List (Point3D α))
    (idxs : List (List ℤ))
    (hv : h[vertices]? = some (Cell.array vrefs))
    (hvs : List.Forall₂ (fun r p => h[r]? = some (Cell.ofTriple p)) vrefs ps)
    (hf : h[faces]? = some (Cell.array frefs))
    (hfs : List.Forall₂ (fun f (items : List ℤ) => h[f]? = some (Cell.indices items))
      frefs idxs) :
    ∃ e r', constructorH h vertices faces = some (h ++ e, r')
      ∧ readPolyhedron (h ++ e) r'
          = some ⟨ps, idxs.map Face.mk, Polyhedron.calculateCenter ps⟩
      ∧ ∀ a ∈ meshCells (h ++ e) r', h.length ≤ a ∨ a ∈ frefs := by
  -- the new points and their array
  have hcb1 : List.Forall₂ (fun r p => ∀ e, newPoint3D (h ++ e) r = some (Cell.ofPoint p))
      vrefs ps := by
    refine List.Forall₂.imp ?_ hvs
    intro r p hr e
    have := getElem?_append_stable h e r _ hr
    simp only [Cell.ofTriple] at this
    simp only [newPoint3D, this, Cell.ofPoint]
  obtain ⟨out1, e1, r1, a1, a2, a3, a4, a5⟩ :=
    arrayMap_spec newPoint3D Cell.ofPoint vertices vrefs ps h hv hcb1
  -- the new faces and their array
  have hcb2 : List.Forall₂ (fun r f => ∀ e, newFace ((h ++ e1) ++ e) r = some (Cell.face f))
      frefs frefs := by
    rw [List.forall₂_same]
    intro f _ e
    rfl
  obtain ⟨out2, e2, r2, b1, b2, b3, b4, b5⟩ :=
    arrayMap_spec newFace Cell.face faces frefs frefs (h ++ e1)
      (getElem?_append_stable h e1 _ _ hf) hcb2
  -- the center
  obtain ⟨e3, c, c1, c2, c3⟩ := calculateCenterH_spec r1 out1 ps ((h ++ e1) ++ e2)
    (getElem?_append_stable _ e2 _ _ a3) (forall₂_append_stable _ e2 Cell.ofPoint _ _ a4)
  -- the heap at the end
  have hF : h ++ (e1 ++ (e2 ++ (e3 ++ [Cell.polyhedron r1 r2 c])))
      = (((h ++ e1) ++ e2) ++ e3) ++ [Cell.polyhedron r1 r2 c] := by
    simp only [List.append_assoc]
  refine ⟨e1 ++ (e2 ++ (e3 ++ [Cell.polyhedron r1 r2 c])), (((h ++ e1) ++ e2) ++ e3).length,
    ?_, ?_, ?_⟩
  · rw [hF]
    simp only [constructorH, a1, b1, c1]
  all_goals rw [hF]
  all_goals
    obtain ⟨hr, hm⟩ := readPolyhedron_of_cells
      ((((h ++ e1) ++ e2) ++ e3) ++ [Cell.polyhedron r1 r2 c])
      (((h ++ e1) ++ e2) ++ e3).length r1 r2 c out1 out2 frefs ps idxs
      (Polyhedron.calculateCenter ps)
      (getElem?_length_append _ [] _)
      (getElem?_append_stable _ _ _ _ (getElem?_append_stable _ _ _ _
        (getElem?_append_stable _ _ _ _ a3)))
      (getElem?_append_stable _ _ _ _ (getElem?_append_stable _ _ _ _ b3))
      (getElem?_append_stable _ _ _ _ c3)
      (forall₂_append_stable _ _ Cell.ofPoint _ _ (forall₂_append_stable _ _ Cell.ofPoint _ _
        (forall₂_append_stable _ _ Cell.ofPoint _ _ a4)))
      (forall₂_append_stable _ _ Cell.face _ _ (forall₂_append_stable _ _ Cell.face _ _ b4))
      (forall₂_append_stable _ _ Cell.indices _ _ (forall₂_append_stable _ _ Cell.indices _ _
        (forall₂_append_stable _ _ Cell.indices _ _
          (forall₂_append_stable _ _ Cell.indices _ _ hfs))))
  · exact hr
  · intro a ha
    rw [hm] at ha
    simp only [List.mem_cons, List.mem_append, List.length_append] at ha b2 b5 c2
    rcases ha with rfl | rfl | rfl | rfl | (ha | ha) | ha
    · left; omega
    · left; exact a2
    · left; omega
    · left; omega
    · left; exact a5 a ha
    · left; have := b5 a ha; omega
    · right; exact ha

/-! ### Helper lemmas: loops that push -/

theorem foldl_append_flatMap {β γ : Type} (k : β → List γ) (ys : List β) (init : List γ) :
    ys.foldl (fun acc y => acc ++ k y) init = init ++ ys.flatMap k := by
  induction ys generalizing init with
  | nil => simp
  | cons y ys ih => simp [ih]

theorem foldl_foldl_append {β δ γ : Type} (ys : β → List δ) (k : β → δ → List γ)
    (xs : List β) (init : List γ) :
    xs.foldl (fun acc x => (ys x).foldl (fun acc y => acc ++ k x y) acc) init
      = init ++ xs.flatMap (fun x => (ys x).flatMap (k x)) := by
  induction xs generalizing init with
  | nil => simp
  | cons x xs ih => simp [ih, foldl_append_flatMap]

theorem length_flatMap_block {β γ : Type} (k : β → List γ) (xs : List β) (P : ℕ)
    (hk : ∀ x ∈ xs, (k x).length = P) : (xs.flatMap k).length = xs.length * P := by
  induction xs with
  | nil => simp
  | cons x xs ih =>
    have h1 := hk x (by simp)
    have h2 := ih (fun y hy => hk y (by simp [hy]))
    simp only [List.flatMap_cons, List.length_append, List.length_cons, h1, h2]
    ring

theorem getElem?_flatMap_block {β γ : Type} (k : β → List γ) (xs : List β) (P i j : ℕ)
    (hk : ∀ x ∈ xs, (k x).length = P) (hj : j < P) :
    (xs.flatMap k)[i * P + j]? = (xs[i]?).bind (fun x => (k x)[j]?) := by
  induction xs generalizing i with
  | nil => simp
  | cons x xs ih =>
    have h1 := hk x (by simp)
    have h2 : ∀ i, (xs.flatMap k)[i * P + j]? = (xs[i]?).bind (fun x => (k x)[j]?) :=
      fun i => ih i (fun y hy => hk y (by simp [hy]))
    cases i with
    | zero =>
      simp only [List.flatMap_cons, Nat.zero_mul, Nat.zero_add, List.getElem?_cons_zero,
        Option.some_bind]
      rw [List.getElem?_append_left (by omega)]
    | succ i =>
      simp only [List.flatMap_cons, List.getElem?_cons_succ]
      rw [List.getElem?_append_right (by rw [h1]; nlinarith)]
      rw [← h2 i]
      congr 1
      rw [h1]
      have : (i + 1) * P = i * P + P := by ring
      omega

theorem mem_flatMap_range {γ : Type} (k : ℕ → List γ) (n : ℕ) (c : γ)
    (h : c ∈ (List.range n).flatMap k) : ∃ i, i < n ∧ c ∈ k i := by
  obtain ⟨i, hi, hc⟩ := List.mem_flatMap.1 h
  exact ⟨i, List.mem_range.1 hi, hc⟩

/-! ### Helper lemmas: the generators -/

theorem flatMap_singleton_map {β γ : Type} (h : β → γ) (ys : List β) :
    ys.flatMap (fun y => [h y]) = ys.map h := by
  induction ys with
  | nil => rfl
  | cons y ys ih => simp [ih]

theorem rotationVertices_eq {α : Type} [Field α] (M : JSMath α)
    (profilePoints : List (Fin 3 → α)) (axis : Axis) (slices : ℕ) :
    rotationVertices M profilePoints axis slices
      = (List.range (slices + 1)).flatMap (fun (i : ℕ) =>
          profilePoints.map
            (rotateProfilePoint M axis ((i : α) * ((2 * M.PI) / (slices : α))))) := by
  unfold rotationVertices
  simp only []
  rw [foldl_foldl_append (fun (_ : ℕ) => profilePoints)
    (fun (i : ℕ) point =>
      [rotateProfilePoint M axis ((i : α) * ((2 * M.PI) / (slices : α))) point])]
  simp only [List.nil_append, flatMap_singleton_map]

theorem rotationFaces_eq (pointsPerSlice slices : ℕ) :
    rotationFaces pointsPerSlice slices
      = (List.range slices).flatMap (fun i =>
          (List.range (pointsPerSlice - 1)).flatMap (fun j =>
            rotationQuad pointsPerSlice slices i j)) := by
  unfold rotationFaces
  rw [foldl_foldl_append (fun (_ : ℕ) => List.range (pointsPerSlice - 1))
    (fun (i j : ℕ) => rotationQuad pointsPerSlice slices i j)]
  simp only [List.nil_append]

theorem surfaceVertices_eq {α : Type} [LinearOrderedField α] (M : JSMath α)
    (funcType : String) (xMin xMax yMin yMax : α) (gridSize : ℕ) :
    surfaceVertices M funcType xMin xMax yMin yMax gridSize
      = (List.range (gridSize + 1)).flatMap (fun (i : ℕ) =>
          (List.range (gridSize + 1)).map (fun (j : ℕ) =>
            ![xMin + (i : α) * ((xMax - xMin) / (gridSize : α)),
              yMin + (j : α) * ((yMax - yMin) / (gridSize : α)),
              calculateFunction M funcType
                (xMin + (i : α) * ((xMax - xMin) / (gridSize : α)))
                (yMin + (j : α) * ((yMax - yMin) / (gridSize : α)))])) := by
  unfold surfaceVertices
  simp only []
  rw [foldl_foldl_append (fun (_ : ℕ) => List.range (gridSize + 1))
    (fun (i j : ℕ) => [![xMin + (i : α) * ((xMax - xMin) / (gridSize : α)),
              yMin + (j : α) * ((yMax - yMin) / (gridSize : α)),
              calculateFunction M funcType
                (xMin + (i : α) * ((xMax - xMin) / (gridSize : α)))
                (yMin + (j : α) * ((yMax - yMin) / (gridSize : α)))]])]
  simp only [List.nil_append, flatMap_singleton_map]

theorem surfaceFaces_eq (gridSize : ℕ) :
    surfaceFaces gridSize
      = (List.range gridSize).flatMap (fun i =>
          (List.range gridSize).flatMap (fun j => surfaceQuad gridSize i j)) := by
  unfold surfaceFaces
  rw [foldl_foldl_append (fun (_ : ℕ) => List.range gridSize)
    (fun (i j : ℕ) => surfaceQuad gridSize i j)]
  simp only [List.nil_append]

theorem rotationVertices_length {α : Type} [Field α] (M : JSMath α)
    (profilePoints : List (Fin 3 → α)) (axis : Axis) (slices : ℕ) :
    (rotationVertices M profilePoints axis slices).length
      = (slices + 1) * profilePoints.length := by
  rw [rotationVertices_eq, length_flatMap_block _ _ profilePoints.length (by simp)]
  simp

theorem surfaceVertices_length {α : Type} [LinearOrderedField α] (M : JSMath α)
    (funcType : String) (xMin xMax yMin yMax : α) (gridSize : ℕ) :
    (surfaceVertices M funcType xMin xMax yMin yMax gridSize).length
      = (gridSize + 1) * (gridSize + 1) := by
  rw [surfaceVertices_eq, length_flatMap_block _ _ (gridSize + 1) (by simp)]
  simp

theorem rotationFaces_length (pointsPerSlice slices : ℕ) :
    (rotationFaces pointsPerSlice slices).length = slices * ((pointsPerSlice - 1) * 2) := by
  rw [rotationFaces_eq, length_flatMap_block _ _ ((pointsPerSlice - 1) * 2)]
  · simp
  · intro i _
    rw [length_flatMap_block _ _ 2]
    · simp
    · intro j _
      rfl

theorem surfaceFaces_length (gridSize : ℕ) :
    (surfaceFaces gridSize).length = gridSize * (gridSize * 2) := by
  rw [surfaceFaces_eq, length_flatMap_block _ _ (gridSize * 2)]
  · simp
  · intro i _
    rw [length_flatMap_block _ _ 2]
    · simp
    · intro j _
      rfl

theorem new_vertices_length {α : Type} [Zero α] [Add α] [Div α] [NatCast α]
    (vertices : List (Fin 3 → α)) (faces : List (List ℤ)) :
    (Polyhedron.new vertices faces).vertices.length = vertices.length := by
  simp [Polyhedron.new]

theorem indicesInRange_new {α : Type} [Zero α] [Add α] [Div α] [NatCast α]
    (vertices : List (Fin 3 → α)) (faces : List (List ℤ)) :
    (Polyhedron.new vertices faces).IndicesInRange
      ↔ ∀ f ∈ faces, ∀ i ∈ f, 0 ≤ i ∧ i < (vertices.length : ℤ) := by
  unfold Polyhedron.IndicesInRange
  rw [new_vertices_length]
  constructor
  · intro h f hf i hi
    exact h ⟨f⟩ (by simp [Polyhedron.new, hf]) i hi
  · intro h F hF i hi
    simp only [Polyhedron.new, List.mem_map] at hF
    obtain ⟨f, hf, rfl⟩ := hF
    exact h f hf i hi

theorem rotationFaces_mem (pointsPerSlice slices : ℕ) (f : List ℤ)
    (hf : f ∈ rotationFaces pointsPerSlice slices) :
    ∃ i j, i < slices ∧ j < pointsPerSlice - 1 ∧ f ∈ rotationQuad pointsPerSlice slices i j := by
  rw [rotationFaces_eq] at hf
  obtain ⟨i, hi, hf⟩ := mem_flatMap_range _ _ _ hf
  obtain ⟨j, hj, hf⟩ := mem_flatMap_range _ _ _ hf
  exact ⟨i, j, hi, hj, hf⟩

theorem surfaceFaces_mem (gridSize : ℕ) (f : List ℤ) (hf : f ∈ surfaceFaces gridSize) :
    ∃ i j, i < gridSize ∧ j < gridSize ∧ f ∈ surfaceQuad gridSize i j := by
  rw [surfaceFaces_eq] at hf
  obtain ⟨i, hi, hf⟩ := mem_flatMap_range _ _ _ hf
  obtain ⟨j, hj, hf⟩ := mem_flatMap_range _ _ _ hf
  exact ⟨i, j, hi, hj, hf⟩

theorem mod_no_wrap (slices i : ℕ) (hi : i < slices) : (i + 1) % (slices + 1) = i + 1 :=
  Nat.mod_eq_of_lt (by omega)

theorem rotationQuad_eq (pointsPerSlice slices i j : ℕ) (hi : i < slices) :
    rotationQuad pointsPerSlice slices i j
      = [[((i * pointsPerSlice + j : ℕ) : ℤ), ((i * pointsPerSlice + j + 1 : ℕ) : ℤ),
            (((i + 1) * pointsPerSlice + j + 1 : ℕ) : ℤ)],
         [((i * pointsPerSlice + j : ℕ) : ℤ), (((i + 1) * pointsPerSlice + j + 1 : ℕ) : ℤ),
            (((i + 1) * pointsPerSlice + j : ℕ) : ℤ)]] := by
  simp only [rotationQuad, mod_no_wrap slices i hi]
  push_cast
  rfl

theorem rotationQuad_inRange (pointsPerSlice slices i j : ℕ) (hi : i < slices)
    (hj : j < pointsPerSlice - 1) (f : List ℤ) (hf : f ∈ rotationQuad pointsPerSlice slices i j)
    (v : ℤ) (hv : v ∈ f) : 0 ≤ v ∧ v < (((slices + 1) * pointsPerSlice : ℕ) : ℤ) := by
  rw [rotationQuad_eq pointsPerSlice slices i j hi] at hf
  have hb : (i + 1) * pointsPerSlice + j + 1 < (slices + 1) * pointsPerSlice := by
    have h1 : (i + 1) * pointsPerSlice ≤ slices * pointsPerSlice :=
      Nat.mul_le_mul_right _ (by omega)
    have h2 : (slices + 1) * pointsPerSlice = slices * pointsPerSlice + pointsPerSlice := by
      ring
    omega
  have ha : i * pointsPerSlice ≤ (i + 1) * pointsPerSlice := Nat.mul_le_mul_right _ (by omega)
  simp only [List.mem_cons, List.mem_singleton, List.not_mem_nil, or_false] at hf
  rcases hf with rfl | rfl <;>
    · simp only [List.mem_cons, List.mem_singleton, List.not_mem_nil, or_false] at hv
      rcases hv with rfl | rfl | rfl <;> constructor <;> omega

theorem surfaceQuad_inRange (gridSize i j : ℕ) (hi : i < gridSize) (hj : j < gridSize)
    (f : List ℤ) (hf : f ∈ surfaceQuad gridSize i j) (v : ℤ) (hv : v ∈ f) :
    0 ≤ v ∧ v < (((gridSize + 1) * (gridSize + 1) : ℕ) : ℤ) := by
  have hb : (i + 1) * (gridSize + 1) + j + 1 < (gridSize + 1) * (gridSize + 1) := by
    have h1 : (i + 1) * (gridSize + 1) ≤ gridSize * (gridSize + 1) :=
      Nat.mul_le_mul_right _ (by omega)
    have h2 : (gridSize + 1) * (gridSize + 1) = gridSize * (gridSize + 1) + (gridSize + 1) := by
      ring
    omega
  have ha : i * (gridSize + 1) ≤ (i + 1) * (gridSize + 1) := Nat.mul_le_mul_right _ (by omega)
  simp only [surfaceQuad, List.cons_append, List.nil_append, List.mem_cons, List.mem_singleton,
    List.not_mem_nil, or_false] at hf
  rcases hf with rfl | rfl <;>
    · simp only [List.mem_cons, List.mem_singleton, List.not_mem_nil, or_false] at hv
      rcases hv with rfl | rfl | rfl <;> constructor <;> omega

/-! ### Helper lemmas: positions in the generated vertex lists -/

theorem flatMap_congr_range {γ : Type} (k k' : ℕ → List γ) (n : ℕ)
    (h : ∀ i, i < n → k i = k' i) : (List.range n).flatMap k = (List.range n).flatMap k' := by
  rw [List.flatMap_def, List.flatMap_def]
  congr 1
  apply List.map_congr_left
  intro i hi
  exact h i (List.mem_range.1 hi)

theorem rotationVertices_getElem? {α : Type} [Field α] (M : JSMath α)
    (profilePoints : List (Fin 3 → α)) (axis : Axis) (slices i j : ℕ) (p : Fin 3 → α)
    (hi : i ≤ slices) (hp : profilePoints[j]? = some p) :
    (rotationVertices M profilePoints axis slices)[i * profilePoints.length + j]?
      = some (rotateProfilePoint M axis ((i : α) * ((2 * M.PI) / (slices : α))) p) := by
  have hj : j < profilePoints.length := by
    by_contra hge
    rw [List.getElem?_eq_none (by omega)] at hp
    exact absurd hp (by simp)
  rw [rotationVertices_eq, getElem?_flatMap_block _ _ profilePoints.length i j (by simp) hj,
    List.getElem?_range (by omega)]
  simp only [Option.some_bind, List.getElem?_map, hp, Option.map_some']

theorem surfaceVertices_getElem? {α : Type} [LinearOrderedField α] (M : JSMath α)
    (funcType : String) (xMin xMax yMin yMax : α) (gridSize i j : ℕ)
    (hi : i ≤ gridSize) (hj : j ≤ gridSize) :
    (surfaceVertices M funcType xMin xMax yMin yMax gridSize)[i * (gridSize + 1) + j]?
      = some ![xMin + (i : α) * ((xMax - xMin) / (gridSize : α)),
              yMin + (j : α) * ((yMax - yMin) / (gridSize : α)),
              calculateFunction M funcType
                (xMin + (i : α) * ((xMax - xMin) / (gridSize : α)))
                (yMin + (j : α) * ((yMax - yMin) / (gridSize : α)))] := by
  rw [surfaceVertices_eq, getElem?_flatMap_block _ _ (gridSize + 1) i j (by simp) (by omega),
    List.getElem?_range (by omega)]
  simp only [Option.some_bind, List.getElem?_map, List.getElem?_range (Nat.lt_succ_of_le hj),
    Option.map_some']

theorem new_vertices_getElem? {α : Type} [Zero α] [Add α] [Div α] [NatCast α]
    (vertices : List (Fin 3 → α)) (faces : List (List ℤ)) (k : ℕ) (v : Fin 3 → α)
    (hv : vertices[k]? = some v) :
    (Polyhedron.new vertices faces).vertices[k]? = some ⟨v 0, v 1, v 2⟩ := by
  simp [Polyhedron.new, hv]

/-! ### Helper lemmas: projections and last rows -/

theorem vec2_ext {α : Type} (f : Fin 2 → α) (a b : α) (h0 : f 0 = a) (h1 : f 1 = b) :
    f = ![a, b] := by
  funext i; fin_cases i <;> assumption

theorem lastRow_multiplyMatrices {α : Type} [Ring α] (a b : Mat 4 4 α)
    (ha : a 3 = ![0, 0, 0, 1]) (hb : b 3 = ![0, 0, 0, 1]) :
    (multiplyMatrices a b) 3 = ![0, 0, 0, 1] := by
  have a0 : a 3 0 = 0 := by rw [ha]; rfl
  have a1 : a 3 1 = 0 := by rw [ha]; rfl
  have a2 : a 3 2 = 0 := by rw [ha]; rfl
  have a3 : a 3 3 = 1 := by rw [ha]; rfl
  rw [← hb]
  funext j
  rw [multiplyMatrices_apply, a0, a1, a2, a3]
  simp

theorem lastRow_apply {α : Type} [Ring α] (m : Mat 4 4 α) (hm : m 3 = ![0, 0, 0, 1])
    (k : ℕ) (p : Fin (k + 3) → α) : multiplyMatrixVector m p 3 = 1 := by
  have a0 : m 3 0 = 0 := by rw [hm]; rfl
  have a1 : m 3 1 = 0 := by rw [hm]; rfl
  have a2 : m 3 2 = 0 := by rw [hm]; rfl
  have a3 : m 3 3 = 1 := by rw [hm]; rfl
  show m 3 0 * p ⟨0, by omega⟩ + m 3 1 * p ⟨1, by omega⟩ + m 3 2 * p ⟨2, by omega⟩ + m 3 3 = 1
  rw [a0, a1, a2, a3]
  simp

theorem lastRow_reflection {α : Type} [Ring α] (reflectXY reflectXZ reflectYZ : Bool) :
    (getReflectionMatrix reflectXY reflectXZ reflectYZ : Mat 4 4 α) 3 = ![0, 0, 0, 1] := by
  cases reflectXY <;> cases reflectXZ <;> cases reflectYZ <;> rfl

theorem lastRow_scaleAroundCenter {α : Type} [Ring α] (scale : α) (center : Point3D α) :
    (getScaleAroundCenterMatrix scale center) 3 = ![0, 0, 0, 1] :=
  lastRow_multiplyMatrices _ _ (lastRow_multiplyMatrices _ _ rfl rfl) rfl

theorem transformBuilt_draw {α : Type} [Ring α] (M : JSMath α)
    (transformParams : TransformParams α) (currentFigure : Polyhedron α) :
    TransformBuilt M (drawTransformMatrix M transformParams currentFigure) :=
  TransformBuilt.product _ _
    (TransformBuilt.product _ _
      (TransformBuilt.product _ _
        (TransformBuilt.product _ _
          (TransformBuilt.product _ _
            (TransformBuilt.product _ _ TransformBuilt.identity
              (TransformBuilt.reflection _ _ _))
            (TransformBuilt.scaleAroundCenter _ _))
          (TransformBuilt.rotationX _))
        (TransformBuilt.rotationY _))
      (TransformBuilt.rotationZ _))
    (TransformBuilt.translation _ _ _)

/-! ### Helper lemmas: planes and triple products -/

theorem not_coplanar_of_tripleProduct (points : List (Point3D ℝ)) (p q r s : Point3D ℝ)
    (hp : p ∈ points) (hq : q ∈ points) (hr : r ∈ points) (hs : s ∈ points)
    (hdet : tripleProduct p q r s ≠ 0) : ¬ Coplanar points := by
  rintro ⟨a, b, c, d, hn, h⟩
  have ep := h p hp
  have eq := h q hq
  have er := h r hr
  have es := h s hs
  have ha : a * tripleProduct p q r s = 0 := by
    unfold tripleProduct
    linear_combination
      ((r.y - p.y) * (s.z - p.z) - (r.z - p.z) * (s.y - p.y)) * (eq - ep)
      + ((s.y - p.y) * (q.z - p.z) - (s.z - p.z) * (q.y - p.y)) * (er - ep)
      + ((q.y - p.y) * (r.z - p.z) - (q.z - p.z) * (r.y - p.y)) * (es - ep)
  have hb : b * tripleProduct p q r s = 0 := by
    unfold tripleProduct
    linear_combination
      ((r.z - p.z) * (s.x - p.x) - (r.x - p.x) * (s.z - p.z)) * (eq - ep)
      + ((s.z - p.z) * (q.x - p.x) - (s.x - p.x) * (q.z - p.z)) * (er - ep)
      + ((q.z - p.z) * (r.x - p.x) - (q.x - p.x) * (r.z - p.z)) * (es - ep)
  have hc : c * tripleProduct p q r s = 0 := by
    unfold tripleProduct
    linear_combination
      ((r.x - p.x) * (s.y - p.y) - (r.y - p.y) * (s.x - p.x)) * (eq - ep)
      + ((s.x - p.x) * (q.y - p.y) - (s.y - p.y) * (q.x - p.x)) * (er - ep)
      + ((q.x - p.x) * (r.y - p.y) - (q.y - p.y) * (r.x - p.x)) * (es - ep)
  rcases hn with hn | hn | hn
  · exact hn ((mul_eq_zero.1 ha).resolve_right hdet)
  · exact hn ((mul_eq_zero.1 hb).resolve_right hdet)
  · exact hn ((mul_eq_zero.1 hc).resolve_right hdet)

theorem sqrt5_facts :
    Real.sqrt 5 ^ 2 = 5 ∧ Real.sqrt 5 ^ 3 = 5 * Real.sqrt 5 ∧ 2 < Real.sqrt 5
    ∧ 1 / ((1 + Real.sqrt 5) / 2) = (Real.sqrt 5 - 1) / 2 := by
  have hs : Real.sqrt 5 * Real.sqrt 5 = 5 := Real.mul_self_sqrt (by norm_num)
  have hp : 0 ≤ Real.sqrt 5 := Real.sqrt_nonneg 5
  refine ⟨by nlinarith, by nlinarith, by nlinarith, ?_⟩
  have : (1 + Real.sqrt 5) / 2 ≠ 0 := by positivity
  field_simp
  nlinarith

theorem dodecahedron_vertices_real :
    (createDodecahedron ⟨Real.cos, Real.sin, Real.sqrt, Real.pi⟩).vertices
      = [⟨1, 1, 1⟩, ⟨1, 1, -1⟩, ⟨1, -1, 1⟩, ⟨1, -1, -1⟩,
         ⟨-1, 1, 1⟩, ⟨-1, 1, -1⟩, ⟨-1, -1, 1⟩, ⟨-1, -1, -1⟩,
         ⟨0, 1 / ((1 + Real.sqrt 5) / 2), (1 + Real.sqrt 5) / 2⟩,
         ⟨0, -(1 / ((1 + Real.sqrt 5) / 2)), (1 + Real.sqrt 5) / 2⟩,
         ⟨0, 1 / ((1 + Real.sqrt 5) / 2), -((1 + Real.sqrt 5) / 2)⟩,
         ⟨0, -(1 / ((1 + Real.sqrt 5) / 2)), -((1 + Real.sqrt 5) / 2)⟩,
         ⟨1 / ((1 + Real.sqrt 5) / 2), (1 + Real.sqrt 5) / 2, 0⟩,
         ⟨-(1 / ((1 + Real.sqrt 5) / 2)), (1 + Real.sqrt 5) / 2, 0⟩,
         ⟨1 / ((1 + Real.sqrt 5) / 2), -((1 + Real.sqrt 5) / 2), 0⟩,
         ⟨-(1 / ((1 + Real.sqrt 5) / 2)), -((1 + Real.sqrt 5) / 2), 0⟩,
         ⟨(1 + Real.sqrt 5) / 2, 0, 1 / ((1 + Real.sqrt 5) / 2)⟩,
         ⟨-((1 + Real.sqrt 5) / 2), 0, 1 / ((1 + Real.sqrt 5) / 2)⟩,
         ⟨(1 + Real.sqrt 5) / 2, 0, -(1 / ((1 + Real.sqrt 5) / 2))⟩,
         ⟨-((1 + Real.sqrt 5) / 2), 0, -(1 / ((1 + Real.sqrt 5) / 2))⟩] := by
  rfl


theorem coplanar_of_subset {α : Type} [Ring α] (ps qs : List (Point3D α))
    (h : ∀ x ∈ qs, x ∈ ps) (hc : Coplanar ps) : Coplanar qs := by
  obtain ⟨a, b, c, d, hn, hp⟩ := hc
  exact ⟨a, b, c, d, hn, fun p hq => hp p (h p hq)⟩

theorem coplanar_of_normal (p q r : Point3D ℝ) (a b c : ℝ) (hn : a ≠ 0 ∨ b ≠ 0 ∨ c ≠ 0)
    (hq : a * (q.x - p.x) + b * (q.y - p.y) + c * (q.z - p.z) = 0)
    (hr : a * (r.x - p.x) + b * (r.y - p.y) + c * (r.z - p.z) = 0) : Coplanar [p, q, r] := by
  refine ⟨a, b, c, a * p.x + b * p.y + c * p.z, hn, ?_⟩
  intro s hs
  simp only [List.mem_cons, List.mem_singleton, List.not_mem_nil, or_false] at hs
  rcases hs with rfl | rfl | rfl
  · rfl
  · linarith
  · linarith

theorem coplanar_triple (p q r : Point3D ℝ) : Coplanar [p, q, r] := by
  by_cases h1 : (q.y - p.y) * (r.z - p.z) - (q.z - p.z) * (r.y - p.y) ≠ 0
      ∨ (q.z - p.z) * (r.x - p.x) - (q.x - p.x) * (r.z - p.z) ≠ 0
      ∨ (q.x - p.x) * (r.y - p.y) - (q.y - p.y) * (r.x - p.x) ≠ 0
  · exact coplanar_of_normal p q r _ _ _ h1 (by ring) (by ring)
  · simp only [not_or, not_not] at h1
    obtain ⟨n1, n2, n3⟩ := h1
    by_cases hu : q.y - p.y ≠ 0 ∨ -(q.x - p.x) ≠ 0 ∨ (0 : ℝ) ≠ 0
    · exact coplanar_of_normal p q r _ _ _ hu (by ring) (by linear_combination -n3)
    · simp only [not_or, not_not, neg_eq_zero] at hu
      obtain ⟨uy, ux, -⟩ := hu
      by_cases huz : q.z - p.z ≠ 0 ∨ (0 : ℝ) ≠ 0 ∨ -(q.x - p.x) ≠ 0
      · exact coplanar_of_normal p q r _ _ _ huz (by ring) (by linear_combination n2)
      · simp only [not_or, not_not, neg_eq_zero] at huz
        obtain ⟨uz, -, -⟩ := huz
        by_cases hv : r.y - p.y ≠ 0 ∨ -(r.x - p.x) ≠ 0 ∨ (0 : ℝ) ≠ 0
        · exact coplanar_of_normal p q r _ _ _ hv (by rw [ux, uy]; ring) (by ring)
        · simp only [not_or, not_not, neg_eq_zero] at hv
          obtain ⟨vy, vx, -⟩ := hv
          by_cases hvz : r.z - p.z ≠ 0 ∨ (0 : ℝ) ≠ 0 ∨ -(r.x - p.x) ≠ 0
          · exact coplanar_of_normal p q r _ _ _ hvz (by rw [ux, uz]; ring) (by ring)
          · exact coplanar_of_normal p q r 1 0 0 (Or.inl one_ne_zero)
              (by rw [ux]; ring) (by rw [vx]; ring)

theorem coplanar_of_length_le_three (ps : List (Point3D ℝ)) (h : ps.length ≤ 3) :
    Coplanar ps := by
  match ps, h with
  | [], _ => exact ⟨1, 0, 0, 0, Or.inl one_ne_zero, by simp⟩
  | [p], _ => exact coplanar_of_subset [p, p, p] [p] (by simp) (coplanar_triple p p p)
  | [p, q], _ => exact coplanar_of_subset [p, q, q] [p, q] (by simp) (coplanar_triple p q q)
  | [p, q, r], _ => exact coplanar_triple p q r
  | _ :: _ :: _ :: _ :: _, h => simp at h

theorem coplanar_facePoints_of_triangle (m : Polyhedron ℝ) (f : Face)
    (h : f.vertexIndices.length ≤ 3) : Coplanar (m.facePoints f) :=
  coplanar_of_length_le_three _
    (le_trans (List.length_filterMap_le _ _) h)

theorem cube_faces_coplanar :
    ∀ f ∈ (createCube : Polyhedron ℝ).faces,
      Coplanar ((createCube : Polyhedron ℝ).facePoints f) := by
  have hv : (createCube : Polyhedron ℝ).vertices
      = [⟨-1, -1, -1⟩, ⟨1, -1, -1⟩, ⟨1, 1, -1⟩, ⟨-1, 1, -1⟩,
         ⟨-1, -1, 1⟩, ⟨1, -1, 1⟩, ⟨1, 1, 1⟩, ⟨-1, 1, 1⟩] := rfl
  have hf : (createCube : Polyhedron ℝ).faces
      = [⟨[0, 1, 2, 3]⟩, ⟨[4, 5, 6, 7]⟩, ⟨[0, 1, 5, 4]⟩,
         ⟨[2, 3, 7, 6]⟩, ⟨[0, 3, 7, 4]⟩, ⟨[1, 2, 6, 5]⟩] := rfl
  intro f hmem
  rw [hf] at hmem
  simp only [List.mem_cons, List.mem_singleton, List.not_mem_nil, or_false] at hmem
  rcases hmem with rfl | rfl | rfl | rfl | rfl | rfl
  · refine ⟨0, 0, 1, -1, by norm_num, ?_⟩
    simp [Polyhedron.facePoints, hv]
  · refine ⟨0, 0, 1, 1, by norm_num, ?_⟩
    simp [Polyhedron.facePoints, hv]
  · refine ⟨0, 1, 0, -1, by norm_num, ?_⟩
    simp [Polyhedron.facePoints, hv]
  · refine ⟨0, 1, 0, 1, by norm_num, ?_⟩
    simp [Polyhedron.facePoints, hv]
  · refine ⟨1, 0, 0, -1, by norm_num, ?_⟩
    simp [Polyhedron.facePoints, hv]
  · refine ⟨1, 0, 0, 1, by norm_num, ?_⟩
    simp [Polyhedron.facePoints, hv]

theorem dodecahedron_face0_coplanar :
    Coplanar ((createDodecahedron ⟨Real.cos, Real.sin, Real.sqrt, Real.pi⟩).facePoints
        ⟨[0, 8, 9, 2, 16]⟩) := by
  obtain ⟨h2, h3, hgt, hinv⟩ := sqrt5_facts
  refine ⟨1, 0, (1 + Real.sqrt 5) / 2, 1 + (1 + Real.sqrt 5) / 2, Or.inl one_ne_zero, ?_⟩
  simp only [Polyhedron.facePoints, dodecahedron_vertices_real, hinv]
  intro p hp
  simp at hp
  rcases hp with rfl | rfl | rfl | rfl | rfl <;> simp <;> nlinarith

theorem dodecahedron_face1_not_coplanar :
    ¬ Coplanar ((createDodecahedron ⟨Real.cos, Real.sin, Real.sqrt, Real.pi⟩).facePoints
        ⟨[0, 16, 17, 4, 12]⟩) := by
  obtain ⟨h2, h3, hgt, hinv⟩ := sqrt5_facts
  simp only [Polyhedron.facePoints, dodecahedron_vertices_real, hinv]
  refine not_coplanar_of_tripleProduct _
    ⟨1, 1, 1⟩
    ⟨(1 + Real.sqrt 5) / 2, 0, (Real.sqrt 5 - 1) / 2⟩
    ⟨-((1 + Real.sqrt 5) / 2), 0, (Real.sqrt 5 - 1) / 2⟩
    ⟨(Real.sqrt 5 - 1) / 2, (1 + Real.sqrt 5) / 2, 0⟩
    (by simp) (by simp) (by simp) (by simp) ?_
  simp only [tripleProduct]
  intro h
  ring_nf at h
  nlinarith

theorem dodecahedron_face2_not_coplanar :
    ¬ Coplanar ((createDodecahedron ⟨Real.cos, Real.sin, Real.sqrt, Real.pi⟩).facePoints
        ⟨[0, 12, 13, 1, 8]⟩) := by
  obtain ⟨h2, h3, hgt, hinv⟩ := sqrt5_facts
  simp only [Polyhedron.facePoints, dodecahedron_vertices_real, hinv]
  refine not_coplanar_of_tripleProduct _
    ⟨1, 1, 1⟩
    ⟨-((Real.sqrt 5 - 1) / 2), (1 + Real.sqrt 5) / 2, 0⟩
    ⟨1, 1, -1⟩
    ⟨0, (Real.sqrt 5 - 1) / 2, (1 + Real.sqrt 5) / 2⟩
    (by simp) (by simp) (by simp) (by simp) ?_
  simp only [tripleProduct]
  intro h
  ring_nf at h
  nlinarith

theorem dodecahedron_face3_not_coplanar :
    ¬ Coplanar ((createDodecahedron ⟨Real.cos, Real.sin, Real.sqrt, Real.pi⟩).facePoints
        ⟨[1, 13, 14, 3, 10]⟩) := by
  obtain ⟨h2, h3, hgt, hinv⟩ := sqrt5_facts
  simp only [Polyhedron.facePoints, dodecahedron_vertices_real, hinv]
  refine not_coplanar_of_tripleProduct _
    ⟨1, 1, -1⟩
    ⟨-((Real.sqrt 5 - 1) / 2), (1 + Real.sqrt 5) / 2, 0⟩
    ⟨1, -1, -1⟩
    ⟨0, (Real.sqrt 5 - 1) / 2, -((1 + Real.sqrt 5) / 2)⟩
    (by simp) (by simp) (by simp) (by simp) ?_
  simp only [tripleProduct]
  intro h
  ring_nf at h
  nlinarith

theorem dodecahedron_face4_not_coplanar :
    ¬ Coplanar ((createDodecahedron ⟨Real.cos, Real.sin, Real.sqrt, Real.pi⟩).facePoints
        ⟨[1, 10, 11, 5, 9]⟩) := by
  obtain ⟨h2, h3, hgt, hinv⟩ := sqrt5_facts
  simp only [Polyhedron.facePoints, dodecahedron_vertices_real, hinv]
  refine not_coplanar_of_tripleProduct _
    ⟨1, 1, -1⟩
    ⟨0, (Real.sqrt 5 - 1) / 2, -((1 + Real.sqrt 5) / 2)⟩
    ⟨0, -((Real.sqrt 5 - 1) / 2), -((1 + Real.sqrt 5) / 2)⟩
    ⟨0, -((Real.sqrt 5 - 1) / 2), (1 + Real.sqrt 5) / 2⟩
    (by simp) (by simp) (by simp) (by simp) ?_
  simp only [tripleProduct]
  intro h
  ring_nf at h
  nlinarith

theorem dodecahedron_face5_not_coplanar :
    ¬ Coplanar ((createDodecahedron ⟨Real.cos, Real.sin, Real.sqrt, Real.pi⟩).facePoints
        ⟨[2, 9, 5, 15, 18]⟩) := by
  obtain ⟨h2, h3, hgt, hinv⟩ := sqrt5_facts
  simp only [Polyhedron.facePoints, dodecahedron_vertices_real, hinv]
  refine not_coplanar_of_tripleProduct _
    ⟨1, -1, 1⟩
    ⟨0, -((Real.sqrt 5 - 1) / 2), (1 + Real.sqrt 5) / 2⟩
    ⟨-((Real.sqrt 5 - 1) / 2), -((1 + Real.sqrt 5) / 2), 0⟩
    ⟨(1 + Real.sqrt 5) / 2, 0, -((Real.sqrt 5 - 1) / 2)⟩
    (by simp) (by simp) (by simp) (by simp) ?_
  simp only [tripleProduct]
  intro h
  ring_nf at h
  nlinarith

theorem dodecahedron_face6_not_coplanar :
    ¬ Coplanar ((createDodecahedron ⟨Real.cos, Real.sin, Real.sqrt, Real.pi⟩).facePoints
        ⟨[2, 18, 19, 6, 16]⟩) := by
  obtain ⟨h2, h3, hgt, hinv⟩ := sqrt5_facts
  simp only [Polyhedron.facePoints, dodecahedron_vertices_real, hinv]
  refine not_coplanar_of_tripleProduct _
    ⟨1, -1, 1⟩
    ⟨(1 + Real.sqrt 5) / 2, 0, -((Real.sqrt 5 - 1) / 2)⟩
    ⟨-((1 + Real.sqrt 5) / 2), 0, -((Real.sqrt 5 - 1) / 2)⟩
    ⟨(1 + Real.sqrt 5) / 2, 0, (Real.sqrt 5 - 1) / 2⟩
    (by simp) (by simp) (by simp) (by simp) ?_
  simp only [tripleProduct]
  intro h
  ring_nf at h
  nlinarith

theorem dodecahedron_face7_not_coplanar :
    ¬ Coplanar ((createDodecahedron ⟨Real.cos, Real.sin, Real.sqrt, Real.pi⟩).facePoints
        ⟨[3, 14, 13, 12, 17]⟩) := by
  obtain ⟨h2, h3, hgt, hinv⟩ := sqrt5_facts
  simp only [Polyhedron.facePoints, dodecahedron_vertices_real, hinv]
  refine not_coplanar_of_tripleProduct _
    ⟨1, -1, -1⟩
    ⟨(Real.sqrt 5 - 1) / 2, -((1 + Real.sqrt 5) / 2), 0⟩
    ⟨-((Real.sqrt 5 - 1) / 2), (1 + Real.sqrt 5) / 2, 0⟩
    ⟨(Real.sqrt 5 - 1) / 2, (1 + Real.sqrt 5) / 2, 0⟩
    (by simp) (by simp) (by simp) (by simp) ?_
  simp only [tripleProduct]
  intro h
  ring_nf at h
  nlinarith

theorem dodecahedron_face8_not_coplanar :
    ¬ Coplanar ((createDodecahedron ⟨Real.cos, Real.sin, Real.sqrt, Real.pi⟩).facePoints
        ⟨[3, 17, 16, 6, 19]⟩) := by
  obtain ⟨h2, h3, hgt, hinv⟩ := sqrt5_facts
  simp only [Polyhedron.facePoints, dodecahedron_vertices_real, hinv]
  refine not_coplanar_of_tripleProduct _
    ⟨1, -1, -1⟩
    ⟨-((1 + Real.sqrt 5) / 2), 0, (Real.sqrt 5 - 1) / 2⟩
    ⟨(1 + Real.sqrt 5) / 2, 0, (Real.sqrt 5 - 1) / 2⟩
    ⟨-((1 + Real.sqrt 5) / 2), 0, -((Real.sqrt 5 - 1) / 2)⟩
    (by simp) (by simp) (by simp) (by simp) ?_
  simp only [tripleProduct]
  intro h
  ring_nf at h
  nlinarith

theorem dodecahedron_face9_not_coplanar :
    ¬ Coplanar ((createDodecahedron ⟨Real.cos, Real.sin, Real.sqrt, Real.pi⟩).facePoints
        ⟨[4, 8, 1, 10, 11]⟩) := by
  obtain ⟨h2, h3, hgt, hinv⟩ := sqrt5_facts
  simp only [Polyhedron.facePoints, dodecahedron_vertices_real, hinv]
  refine not_coplanar_of_tripleProduct _
    ⟨-1, 1, 1⟩
    ⟨0, (Real.sqrt 5 - 1) / 2, (1 + Real.sqrt 5) / 2⟩
    ⟨0, (Real.sqrt 5 - 1) / 2, -((1 + Real.sqrt 5) / 2)⟩
    ⟨0, -((Real.sqrt 5 - 1) / 2), -((1 + Real.sqrt 5) / 2)⟩
    (by simp) (by simp) (by simp) (by simp) ?_
  simp only [tripleProduct]
  intro h
  ring_nf at h
  nlinarith

theorem dodecahedron_face10_not_coplanar :
    ¬ Coplanar ((createDodecahedron ⟨Real.cos, Real.sin, Real.sqrt, Real.pi⟩).facePoints
        ⟨[4, 11, 7, 15, 12]⟩) := by
  obtain ⟨h2, h3, hgt, hinv⟩ := sqrt5_facts
  simp only [Polyhedron.facePoints, dodecahedron_vertices_real, hinv]
  refine not_coplanar_of_tripleProduct _
    ⟨-1, 1, 1⟩
    ⟨0, -((Real.sqrt 5 - 1) / 2), -((1 + Real.sqrt 5) / 2)⟩
    ⟨-1, -1, -1⟩
    ⟨-((Real.sqrt 5 - 1) / 2), -((1 + Real.sqrt 5) / 2), 0⟩
    (by simp) (by simp) (by simp) (by simp) ?_
  simp only [tripleProduct]
  intro h
  ring_nf at h
  nlinarith

theorem dodecahedron_face11_not_coplanar :
    ¬ Coplanar ((createDodecahedron ⟨Real.cos, Real.sin, Real.sqrt, Real.pi⟩).facePoints
        ⟨[5, 11, 10, 3, 14]⟩) := by
  obtain ⟨h2, h3, hgt, hinv⟩ := sqrt5_facts
  simp only [Polyhedron.facePoints, dodecahedron_vertices_real, hinv]
  refine not_coplanar_of_tripleProduct _
    ⟨-1, 1, -1⟩
    ⟨0, -((Real.sqrt 5 - 1) / 2), -((1 + Real.sqrt 5) / 2)⟩
    ⟨0, (Real.sqrt 5 - 1) / 2, -((1 + Real.sqrt 5) / 2)⟩
    ⟨(Real.sqrt 5 - 1) / 2, -((1 + Real.sqrt 5) / 2), 0⟩
    (by simp) (by simp) (by simp) (by simp) ?_
  simp only [tripleProduct]
  intro h
  ring_nf at h
  nlinarith

/-! ### C1: the constructor does not validate face indices -/

/-- C1 (refuted as stated): `OBJLoader.parseOBJ` on the text `"v 1 2 3\nf 1 2 3\n"`
does not stop with an error.  It returns what the constructor builds from the
one vertex `(1, 2, 3)` and the one face `[0, 1, 2]`, a mesh whose face indices
1 and 2 are outside `[0, 1)`. -/
theorem parseOBJ_out_of_range_face_is_returned :
    parseOBJ "v 1 2 3\nf 1 2 3\n".toList
        = Polyhedron.new [![JSNum.fin 1, JSNum.fin 2, JSNum.fin 3]] [[0, 1, 2]]
    ∧ ¬ (parseOBJ "v 1 2 3\nf 1 2 3\n".toList).IndicesInRange := by
  have h : parseOBJ "v 1 2 3\nf 1 2 3\n".toList
      = ⟨[⟨JSNum.fin 1, JSNum.fin 2, JSNum.fin 3⟩], [⟨[0, 1, 2]⟩],
          ⟨JSNum.fin 1, JSNum.fin 2, JSNum.fin 3⟩⟩ := by decide!
  have h2 : (Polyhedron.new [![JSNum.fin 1, JSNum.fin 2, JSNum.fin 3]] [[0, 1, 2]]
      : Polyhedron JSNum)
      = ⟨[⟨JSNum.fin 1, JSNum.fin 2, JSNum.fin 3⟩], [⟨[0, 1, 2]⟩],
          ⟨JSNum.fin 1, JSNum.fin 2, JSNum.fin 3⟩⟩ := by decide!
  refine ⟨h.trans h2.symm, ?_⟩
  rw [h]
  intro hr
  have := hr ⟨[0, 1, 2]⟩ (by simp) 1 (by simp)
  simp at this

/-- C1 (amended): the constructor accepts every vertex list and every face
list, whatever the indices: the mesh it returns holds exactly the given
coordinate triples and exactly the given index lists.  In particular the parse
of `"v 1 2 3\nf 1 2 3\n"` is the mesh with the vertex `(1, 2, 3)`, the face
`[0, 1, 2]` and the center `(1, 2, 3)`. -/
theorem Polyhedron_new_keeps_every_face {α : Type} [Zero α] [Add α] [Div α] [NatCast α]
    (vertices : List (Fin 3 → α)) (faces : List (List ℤ)) :
    (Polyhedron.new vertices faces).vertices.map Point3D.toArray = vertices
    ∧ (Polyhedron.new vertices faces).faces.map Face.vertexIndices = faces
    ∧ parseOBJ "v 1 2 3\nf 1 2 3\n".toList
        = ⟨[⟨JSNum.fin 1, JSNum.fin 2, JSNum.fin 3⟩], [⟨[0, 1, 2]⟩],
            ⟨JSNum.fin 1, JSNum.fin 2, JSNum.fin 3⟩⟩ :=
  ⟨new_vertices_toArray vertices faces, new_faces_vertexIndices vertices faces, by decide!⟩

/-! ### C2: the OBJ round trip -/

theorem filterMap_map_some {β γ δ : Type} (f : γ → Option δ) (g : β → γ) (h : β → δ)
    (l : List β) (hl : ∀ x ∈ l, f (g x) = some (h x)) :
    (l.map g).filterMap f = l.map h := by
  induction l with
  | nil => rfl
  | cons x xs ih =>
    have hx := hl x (by simp)
    have := ih (fun y hy => hl y (by simp [hy]))
    simp [List.filterMap_cons, hx, this]

theorem filterMap_map_none {β γ δ : Type} (f : γ → Option δ) (g : β → γ)
    (l : List β) (hl : ∀ x ∈ l, f (g x) = none) :
    (l.map g).filterMap f = [] := by
  induction l with
  | nil => rfl
  | cons x xs ih =>
    have hx := hl x (by simp)
    have := ih (fun y hy => hl y (by simp [hy]))
    simp [List.filterMap_cons, hx, this]

/-- C2: if every face of `m` has at least three indices, and the engine prints
every coordinate of `m` as a token that `parseFloat` reads back as the same
number, then parsing the text written by `toOBJ` gives a mesh with exactly the
vertices of `m` and exactly the faces of `m`, in the same order. -/
theorem parseOBJ_toOBJ (numToString : JSNum → List Char) (m : Polyhedron JSNum)
    (hfaces : ∀ f ∈ m.faces, 3 ≤ f.vertexIndices.length)
    (hnum : ∀ v ∈ m.vertices, ∀ c ∈ [v.x, v.y, v.z],
      IsToken (numToString c) ∧ parseFloat (numToString c) = c) :
    (parseOBJ (m.toOBJ numToString)).vertices = m.vertices
    ∧ (parseOBJ (m.toOBJ numToString)).faces = m.faces := by
  have htok : ∀ v ∈ m.vertices, IsToken (numToString v.x) ∧ IsToken (numToString v.y)
      ∧ IsToken (numToString v.z) := fun v hv =>
    ⟨(hnum v hv v.x (by simp)).1, (hnum v hv v.y (by simp)).1, (hnum v hv v.z (by simp)).1⟩
  have hvv : (m.vertices.map (objVertexLine numToString)).filterMap vertexOfLine
      = m.vertices.map (fun v => ![v.x, v.y, v.z]) := by
    apply filterMap_map_some
    intro v hv
    obtain ⟨hx, hy, hz⟩ := htok v hv
    rw [(vertexOfLine_objVertexLine numToString v hx hy hz).1,
      (hnum v hv v.x (by simp)).2, (hnum v hv v.y (by simp)).2, (hnum v hv v.z (by simp)).2]
  have hvf : (m.vertices.map (objVertexLine numToString)).filterMap faceOfLine = [] := by
    apply filterMap_map_none
    intro v hv
    obtain ⟨hx, hy, hz⟩ := htok v hv
    exact (vertexOfLine_objVertexLine numToString v hx hy hz).2
  have hff : (m.faces.map objFaceLine).filterMap faceOfLine
      = m.faces.map Face.vertexIndices := by
    apply filterMap_map_some
    intro f hf
    exact (faceOfLine_objFaceLine f (hfaces f hf)).1
  have hfv : (m.faces.map objFaceLine).filterMap vertexOfLine = [] := by
    apply filterMap_map_none
    intro f hf
    exact (faceOfLine_objFaceLine f (hfaces f hf)).2
  have hhv : vertexOfLine objHeader.dropLast = none := by decide
  have hhf : faceOfLine objHeader.dropLast = none := by decide
  have hev : vertexOfLine [] = none := by decide
  have hef : faceOfLine [] = none := by decide
  rw [parseOBJ_eq, splitChar_toOBJ numToString m htok]
  simp only [List.filterMap_append, List.filterMap_cons, List.filterMap_nil, hhv, hhf, hev, hef,
    hvv, hvf, hff, hfv, List.append_nil, List.nil_append]
  constructor
  · simp only [Polyhedron.new, List.map_map]
    conv_rhs => rw [← List.map_id m.vertices]
    apply List.map_congr_left
    intro v _
    rfl
  · simp only [Polyhedron.new, List.map_map]
    conv_rhs => rw [← List.map_id m.faces]
    apply List.map_congr_left
    intro f _
    rfl

/-- Witness for C2: the sample mesh, with its integer coordinates printed as
decimal numerals. -/
theorem parseOBJ_toOBJ_witness :
    (∀ f ∈ sampleMesh.faces, 3 ≤ f.vertexIndices.length)
    ∧ (∀ v ∈ sampleMesh.vertices, ∀ c ∈ [v.x, v.y, v.z],
        IsToken (integerNumeral c) ∧ parseFloat (integerNumeral c) = c)
    ∧ sampleMesh.toOBJ integerNumeral
        = "# Экспортированная 3D модель\nv 0 0 0\nv 1 0 0\nv 0 12 0\nv 0 0 -2\n\nf 1 2 3\nf 1 3 4 2\n".toList
    ∧ (parseOBJ (sampleMesh.toOBJ integerNumeral)).vertices = sampleMesh.vertices
    ∧ (parseOBJ (sampleMesh.toOBJ integerNumeral)).faces = sampleMesh.faces :=
  ⟨by decide!, by decide!, by decide!,
    parseOBJ_toOBJ integerNumeral sampleMesh (by decide!) (by decide!)⟩

/-! ### C3: the center is the mean of the vertices -/

/-- C3: for a mesh built by the constructor from a non-empty vertex list, each
coordinate of `center` is the sum of that coordinate over the vertices divided
by the number of vertices; the center of the built-in cube is `(0, 0, 0)`. -/
theorem center_eq_mean {α : Type} [Field α] (vertices : List (Fin 3 → α))
    (faces : List (List ℤ)) (_hne : vertices ≠ []) :
    (Polyhedron.new vertices faces).center
        = ⟨((Polyhedron.new vertices faces).vertices.map Point3D.x).sum
              / ((Polyhedron.new vertices faces).vertices.length : α),
           ((Polyhedron.new vertices faces).vertices.map Point3D.y).sum
              / ((Polyhedron.new vertices faces).vertices.length : α),
           ((Polyhedron.new vertices faces).vertices.map Point3D.z).sum
              / ((Polyhedron.new vertices faces).vertices.length : α)⟩
    ∧ (createCube : Polyhedron α).center = ⟨0, 0, 0⟩ := by
  constructor
  · simp only [Polyhedron.new, Polyhedron.calculateCenter, foldl_center_sum, zero_add]
  · simp only [createCube, Polyhedron.new, Polyhedron.calculateCenter, foldl_center_sum]
    simp

/-- Witness for C3: a mesh of two vertices over the rationals. -/
theorem center_eq_mean_witness :
    ([![1, 2, 3], ![3, 4, 7]] : List (Fin 3 → ℚ)) ≠ []
    ∧ (Polyhedron.new ([![1, 2, 3], ![3, 4, 7]] : List (Fin 3 → ℚ)) [[0, 1, 0]]).center
        = ⟨2, 3, 5⟩ := by
  refine ⟨by simp, ?_⟩
  rw [(center_eq_mean ([![1, 2, 3], ![3, 4, 7]] : List (Fin 3 → ℚ)) [[0, 1, 0]] (by simp)).1]
  simp [Polyhedron.new]
  norm_num

/-! ### C4: `clone` -/

theorem readFaces_inv_refs {α : Type} (h : Heap α) (rs : List ℕ) (fs : List Face)
    (hr : readFaces h rs = some fs) :
    ∃ frefs, List.Forall₂ (fun r f => h[r]? = some (Cell.face f)) rs frefs
      ∧ List.Forall₂ (fun f (items : List ℤ) => h[f]? = some (Cell.indices items)) frefs
          (fs.map Face.vertexIndices) := by
  have := readFaces_inv h rs fs hr
  clear hr
  induction this with
  | nil => exact ⟨[], List.Forall₂.nil, List.Forall₂.nil⟩
  | cons hx _ ih =>
    obtain ⟨a, ha1, ha2⟩ := hx
    obtain ⟨frefs, h1, h2⟩ := ih
    exact ⟨a :: frefs, List.Forall₂.cons ha1 h1, List.Forall₂.cons ha2 h2⟩

theorem readPolyhedron_inv {α : Type} (h : Heap α) (r : ℕ) (m : Polyhedron α)
    (hr : readPolyhedron h r = some m) :
    ∃ vertices faces center vs fs,
      h[r]? = some (Cell.polyhedron vertices faces center)
      ∧ h[vertices]? = some (Cell.array vs)
      ∧ h[faces]? = some (Cell.array fs)
      ∧ h[center]? = some (Cell.ofPoint m.center)
      ∧ readPoints h vs = some m.vertices
      ∧ readFaces h fs = some m.faces := by
  unfold readPolyhedron at hr
  split at hr
  · rename_i vertices faces center h0
    split at hr
    · rename_i vs fs x y z h1 h2 h3
      split at hr
      · rename_i ps faceList h4 h5
        simp only [Option.some.injEq] at hr
        subst hr
        exact ⟨vertices, faces, center, vs, fs, h0, h1, h2, h3, h4, h5⟩
      · exact absurd hr (by simp)
    · exact absurd hr (by simp)
  · exact absurd hr (by simp)

theorem map_mk_vertexIndices (fs : List Face) :
    (fs.map Face.vertexIndices).map Face.mk = fs := by
  induction fs with
  | nil => rfl
  | cons f fs ih => simp [ih]

/-- Reading a mesh only looks at its own cells: a heap that agrees with `h` on
every cell of `h` holds the same mesh at `r`. -/
theorem readPolyhedron_frame {α : Type} (h g : Heap α) (r : ℕ) (m : Polyhedron α)
    (hext : ∀ (a : ℕ) (c : Cell α), h[a]? = some c → g[a]? = some c)
    (hr : readPolyhedron h r = some m) : readPolyhedron g r = some m := by
  obtain ⟨vertices, faces, center, vs, fs, h0, h1, h2, h3, h4, h5⟩ :=
    readPolyhedron_inv h r m hr
  obtain ⟨frefs, h6, h7⟩ := readFaces_inv_refs h fs m.faces h5
  have := (readPolyhedron_of_cells g r vertices faces center vs fs frefs m.vertices
    (m.faces.map Face.vertexIndices) m.center (hext _ _ h0) (hext _ _ h1) (hext _ _ h2)
    (hext _ _ h3) ((readPoints_inv h vs _ h4).imp (fun _ _ hx => hext _ _ hx))
    (h6.imp (fun _ _ hx => hext _ _ hx)) (h7.imp (fun _ _ hx => hext _ _ hx))).1
  rw [this, map_mk_vertexIndices]

theorem clone_eq {α : Type} [Zero α] [Add α] [Div α] [NatCast α] (m : Polyhedron α) :
    m.clone = ⟨m.vertices, m.faces, Polyhedron.calculateCenter m.vertices⟩ := by
  have hv : (m.vertices.map (fun v => v.toArray)).map
      (fun v => Point3D.mk (v 0) (v 1) (v 2)) = m.vertices := by
    rw [List.map_map]
    conv_rhs => rw [← List.map_id m.vertices]
    apply List.map_congr_left
    intro v _
    rfl
  have hf : (m.faces.map (fun f => f.vertexIndices.map (fun i => i))).map
      (fun f => Face.mk f) = m.faces := by
    rw [List.map_map]
    conv_rhs => rw [← List.map_id m.faces]
    apply List.map_congr_left
    intro f _
    simp
  simp only [Polyhedron.clone, Polyhedron.new, hv, hf]

theorem cloneH_spec {α : Type} [Zero α] [Add α] [Div α] [NatCast α] (h : Heap α) (r : ℕ)
    (m : Polyhedron α) (hread : readPolyhedron h r = some m) :
    ∃ e r', cloneH h r = some (h ++ e, r')
      ∧ readPolyhedron (h ++ e) r' = some m.clone
      ∧ ∀ a ∈ meshCells (h ++ e) r', h.length ≤ a := by
  obtain ⟨vertices, faces, center, vs, fs, h0, h1, h2, -, h4, h5⟩ :=
    readPolyhedron_inv h r m hread
  -- the arrays made by `toArray`
  have hcb1 : List.Forall₂ (fun r p => ∀ e, toArrayOf (h ++ e) r = some (Cell.ofTriple p))
      vs m.vertices := by
    refine List.Forall₂.imp ?_ (readPoints_inv h vs _ h4)
    intro r p hr e
    have := getElem?_append_stable h e r _ hr
    simp only [Cell.ofPoint] at this
    simp only [toArrayOf, this, Cell.ofTriple]
  obtain ⟨out1, e1, r1, a1, -, a3, a4, -⟩ :=
    arrayMap_spec toArrayOf Cell.ofTriple vertices vs m.vertices h h1 hcb1
  -- the copies of the index arrays
  have hcb2 : List.Forall₂
      (fun r (items : List ℤ) => ∀ e, spreadIndices ((h ++ e1) ++ e) r = some (Cell.indices items))
      fs (m.faces.map Face.vertexIndices) := by
    rw [List.forall₂_map_right_iff]
    refine List.Forall₂.imp ?_ (readFaces_inv h fs _ h5)
    intro r F hr e
    obtain ⟨a, ha1, ha2⟩ := hr
    have t1 := getElem?_append_stable _ e _ _ (getElem?_append_stable h e1 _ _ ha1)
    have t2 := getElem?_append_stable _ e _ _ (getElem?_append_stable h e1 _ _ ha2)
    simp only [spreadIndices, t1, t2]
  obtain ⟨out2, e2, r2, b1, -, b3, b4, b5⟩ :=
    arrayMap_spec spreadIndices Cell.indices faces fs (m.faces.map Face.vertexIndices)
      (h ++ e1) (getElem?_append_stable h e1 _ _ h2) hcb2
  -- the constructor
  obtain ⟨e3, r', c1, c2, c3⟩ := constructorH_spec ((h ++ e1) ++ e2) r1 r2 out1 out2
    m.vertices (m.faces.map Face.vertexIndices)
    (getElem?_append_stable _ e2 _ _ a3) (forall₂_append_stable _ e2 Cell.ofTriple _ _ a4)
    b3 b4
  have hF : h ++ (e1 ++ (e2 ++ e3)) = ((h ++ e1) ++ e2) ++ e3 := by
    simp only [List.append_assoc]
  refine ⟨e1 ++ (e2 ++ e3), r', ?_, ?_, ?_⟩
  · rw [hF]
    simp only [cloneH, h0, a1, b1, c1]
  · rw [hF, c2, clone_eq, map_mk_vertexIndices]
  · rw [hF]
    intro a ha
    rcases c3 a ha with hge | hmem
    · simp only [List.length_append] at hge
      omega
    · have := b5 a hmem
      simp only [List.length_append] at this
      omega

/-- C4: for a mesh `m` held at reference `r` of a heap, `clone` returns a new
mesh that reads as `m.clone`, which has the vertices and the faces of `m` and
the center computed from these vertices (the center of `m` itself when `m` came
out of the constructor); every object of the clone is new; and overwriting any
object of the clone leaves `m` as it was. -/
theorem clone_independent {α : Type} [Zero α] [Add α] [Div α] [NatCast α] (h : Heap α)
    (r : ℕ) (m : Polyhedron α) (hread : readPolyhedron h r = some m) :
    ∃ h' r', cloneH h r = some (h', r')
      ∧ readPolyhedron h' r' = some m.clone
      ∧ m.clone.vertices = m.vertices
      ∧ m.clone.faces = m.faces
      ∧ m.clone.center = Polyhedron.calculateCenter m.vertices
      ∧ (∀ vertices faces, m = Polyhedron.new vertices faces → m.clone = m)
      ∧ (∀ a ∈ meshCells h' r', h.length ≤ a)
      ∧ (∀ a ∈ meshCells h' r', ∀ c : Cell α, readPolyhedron (h'.set a c) r = some m) := by
  obtain ⟨e, r', h1, h2, h3⟩ := cloneH_spec h r m hread
  refine ⟨h ++ e, r', h1, h2, by rw [clone_eq], by rw [clone_eq], by rw [clone_eq], ?_, h3, ?_⟩
  · intro vertices faces hm
    rw [clone_eq]
    subst hm
    rfl
  · intro a ha c
    rw [List.set_append_right a c (h3 a ha)]
    exact readPolyhedron_frame h _ r m (fun b d hb => getElem?_append_stable h _ b d hb) hread

/-- Witness for C4: the triangle at reference 17 of the sample heap. -/
theorem clone_independent_witness :
    readPolyhedron sampleHeap 17 = some sampleTriangle
    ∧ ∃ h' r', cloneH sampleHeap 17 = some (h', r')
      ∧ readPolyhedron h' r' = some sampleTriangle.clone
      ∧ sampleTriangle.clone.vertices = sampleTriangle.vertices
      ∧ sampleTriangle.clone.faces = sampleTriangle.faces
      ∧ sampleTriangle.clone.center = Polyhedron.calculateCenter sampleTriangle.vertices
      ∧ (∀ vertices faces, sampleTriangle = Polyhedron.new vertices faces
          → sampleTriangle.clone = sampleTriangle)
      ∧ (∀ a ∈ meshCells h' r', sampleHeap.length ≤ a)
      ∧ (∀ a ∈ meshCells h' r', ∀ c : Cell ℚ,
          readPolyhedron (h'.set a c) 17 = some sampleTriangle) :=
  ⟨by decide!, clone_independent sampleHeap 17 sampleTriangle (by decide!)⟩

/-! ### C5: the identity matrix is neutral -/

/-- C5: `multiplyMatrices(getIdentityMatrix(), M) = M` and
`multiplyMatrices(M, getIdentityMatrix()) = M` for every 4×4 matrix `M`. -/
theorem multiplyMatrices_identity {α : Type} [Semiring α] (M : Mat 4 4 α) :
    multiplyMatrices getIdentityMatrix M = M ∧ multiplyMatrices M getIdentityMatrix = M := by
  constructor <;> funext i j <;> rw [multiplyMatrices_apply] <;>
    simp only [getIdentityMatrix_apply] <;>
    fin_cases i <;> fin_cases j <;> simp

/-! ### C6: the matrix of one frame -/

/-- C6: the matrix built by `draw` is the left-to-right product
`I · Refl · (T(-c) · S(scale) · T(c)) · Rx · Ry · Rz · T(translate)`, the
bracketed factor is `getScaleAroundCenterMatrix(scale, c)`, and every projected
vertex is the projection of this one matrix applied to the vertex. -/
theorem draw_matrix_composition {α : Type} [LinearOrderedField α] (M : JSMath α)
    (self : Viewer α) :
    let p := self.transformParams
    let c := self.currentFigure.center
    let scaleAround := multiplyMatrices
      (multiplyMatrices (getTranslationMatrix (-c.x) (-c.y) (-c.z)) (getScaleMatrix p.scale))
      (getTranslationMatrix c.x c.y c.z)
    let frame := multiplyMatrices (multiplyMatrices (multiplyMatrices (multiplyMatrices
      (multiplyMatrices (multiplyMatrices getIdentityMatrix
        (getReflectionMatrix p.reflectXY p.reflectXZ p.reflectYZ))
        scaleAround)
        (getRotationXMatrix M p.rotateX))
        (getRotationYMatrix M p.rotateY))
        (getRotationZMatrix M p.rotateZ))
        (getTranslationMatrix p.translateX p.translateY p.translateZ)
    getScaleAroundCenterMatrix p.scale c = scaleAround
    ∧ drawTransformMatrix M p self.currentFigure = frame
    ∧ drawTransformedVertices M self = self.currentFigure.vertices.map (fun v =>
        if self.currentProjection = "perspective"
        then projectPerspective self.canvasWidth self.canvasHeight
          (multiplyMatrixVector frame ![v.x, v.y, v.z])
        else projectAxonometric M self.canvasWidth self.canvasHeight
          (multiplyMatrixVector frame ![v.x, v.y, v.z])) := by
  intro p c scaleAround frame
  exact ⟨rfl, rfl, rfl⟩

/-! ### C7: reflections -/

/-- C7: the reflection matrix applied to `(x, y, z)` gives `(sx·x, sy·y, sz·z, 1)`
with `sz = -1` iff `aboutXY`, `sy = -1` iff `aboutXZ`, `sx = -1` iff `aboutYZ`,
and `1` otherwise; `(1, 2, 3)` goes to `(1, 2, -3)` under `(true, false, false)`
and to `(-1, -2, -3)` under `(true, true, true)`. -/
theorem reflection_apply {α : Type} [Ring α] (aboutXY aboutXZ aboutYZ : Bool) (x y z : α) :
    multiplyMatrixVector (getReflectionMatrix aboutXY aboutXZ aboutYZ) ![x, y, z]
        = ![(if aboutYZ then -1 else 1) * x, (if aboutXZ then -1 else 1) * y,
            (if aboutXY then -1 else 1) * z, 1]
    ∧ multiplyMatrixVector (getReflectionMatrix true false false) ![(1 : α), 2, 3]
        = ![1, 2, -3, 1]
    ∧ multiplyMatrixVector (getReflectionMatrix true true true) ![(1 : α), 2, 3]
        = ![-1, -2, -3, 1] := by
  have key : ∀ (a b c : Bool) (x y z : α),
      multiplyMatrixVector (getReflectionMatrix a b c) ![x, y, z]
        = ![(if c then -1 else 1) * x, (if b then -1 else 1) * y,
            (if a then -1 else 1) * z, 1] := by
    intro a b c x y z
    rw [multiplyMatrixVector_apply]
    cases a <;> cases b <;> cases c <;>
      simp [getReflectionMatrix, getIdentityMatrix_apply, Mat.assign, Function.update]
  refine ⟨key _ _ _ x y z, ?_, ?_⟩
  · rw [key]; simp
  · rw [key]; simp

/-! ### C8: rotation about Z -/

/-- C8: over the reals, `getRotationZMatrix(θ)` applied to `(x, y, z)` gives
`(x cos θ − y sin θ, x sin θ + y cos θ, z, 1)`; for `θ = π/2` the point
`(1, 0, 0)` goes to `(0, 1, 0)`. -/
theorem rotationZ_apply (θ x y z : ℝ) :
    multiplyMatrixVector
        (getRotationZMatrix ⟨Real.cos, Real.sin, Real.sqrt, Real.pi⟩ θ) ![x, y, z]
        = ![x * Real.cos θ - y * Real.sin θ, x * Real.sin θ + y * Real.cos θ, z, 1]
    ∧ multiplyMatrixVector
        (getRotationZMatrix ⟨Real.cos, Real.sin, Real.sqrt, Real.pi⟩ (Real.pi / 2))
          ![(1 : ℝ), 0, 0]
        = ![0, 1, 0, 1] := by
  have key : ∀ θ x y z : ℝ, multiplyMatrixVector
        (getRotationZMatrix ⟨Real.cos, Real.sin, Real.sqrt, Real.pi⟩ θ) ![x, y, z]
        = ![x * Real.cos θ - y * Real.sin θ, x * Real.sin θ + y * Real.cos θ, z, 1] := by
    intro θ x y z
    apply vec4_ext
    · show Real.cos θ * x + -Real.sin θ * y + 0 * z + 0 = _
      ring
    · show Real.sin θ * x + Real.cos θ * y + 0 * z + 0 = _
      ring
    · show 0 * x + 0 * y + 1 * z + 0 = _
      ring
    · show 0 * x + 0 * y + 0 * z + 1 = _
      ring
  refine ⟨key θ x y z, ?_⟩
  rw [key]
  simp

/-! ### C9: vertex lines with tokens that are not numbers -/

/-- C9 (the code departs from it): the line `v a b c` has three tokens after the
`v`, none of which is a number, and the parser does not discard it: the mesh
gets the vertex `(NaN, NaN, NaN)`, and its center is `(NaN, NaN, NaN)` too.  One
failing token is enough: `v 1 x 3` gives the vertex `(1, NaN, 3)`. -/
theorem parseOBJ_keeps_non_numeric_vertex :
    parseOBJ "v a b c\n".toList
        = ⟨[⟨JSNum.nan, JSNum.nan, JSNum.nan⟩], [], ⟨JSNum.nan, JSNum.nan, JSNum.nan⟩⟩
    ∧ (parseOBJ "v 1 x 3\n".toList).vertices = [⟨JSNum.fin 1, JSNum.nan, JSNum.fin 3⟩] := by
  constructor <;> decide!

/-! ### C10: face lines -/

/-- C10: the faces of the parsed mesh are, in the order of the lines, the faces
`faceOfLine` of those lines that have one: a line contributes exactly when its
trimmed form starts with `f ` and at least three of the tokens after the `f`
yield an integer in front of their first `/`, and then it contributes those
integers less one, in token order.  So a line that starts with `v `, and a line
that starts with neither prefix, contribute no face. -/
theorem parseOBJ_faces (content : List Char) :
    (parseOBJ content).faces.map Face.vertexIndices
      = (splitChar '\n' content).filterMap faceOfLine := by
  rw [parseOBJ_eq, new_faces_vertexIndices]

/-! ### C11: the center of no vertex -/

/-- C11 (refuted as stated): on the empty vertex sequence `calculateCenter` does
not fail.  It divides the sums `0` by the count `0` and returns a center, which
is `(NaN, NaN, NaN)`. -/
theorem calculateCenter_empty_returns_a_center :
    Polyhedron.calculateCenter ([] : List (Point3D JSNum))
      = ⟨JSNum.nan, JSNum.nan, JSNum.nan⟩ := by
  decide!

/-- C11 (amended): the constructor accepts an empty vertex list with any face
list and raises no error: the mesh it returns has no vertex, the given faces,
and the center `(NaN, NaN, NaN)` computed by `calculateCenter`, which is not the
zero point. -/
theorem Polyhedron_new_without_vertices (faces : List (List ℤ)) :
    (Polyhedron.new [] faces : Polyhedron JSNum)
        = ⟨[], faces.map Face.mk, ⟨JSNum.nan, JSNum.nan, JSNum.nan⟩⟩
    ∧ (Polyhedron.new [] faces : Polyhedron JSNum).center
        = Polyhedron.calculateCenter ([] : List (Point3D JSNum))
    ∧ (Polyhedron.new [] faces : Polyhedron JSNum).center ≠ ⟨0, 0, 0⟩ := by
  have hc : Polyhedron.calculateCenter ([] : List (Point3D JSNum))
      = ⟨JSNum.nan, JSNum.nan, JSNum.nan⟩ := by decide!
  refine ⟨?_, rfl, ?_⟩
  · simp only [Polyhedron.new, List.map_nil, hc]
  · simp only [Polyhedron.new, List.map_nil, hc]
    decide

/-! ### C12: meshes without vertices -/

/-- C12 (refuted as stated): `parseOBJ` does not refuse a text without vertex
line.  For the empty text, and for a text with a comment and a face line only,
it returns a mesh with no vertex, whose center is `(NaN, NaN, NaN)`; and
`createRotationFigure` returns a mesh with no vertex for the empty profile. -/
theorem generators_return_meshes_without_vertices :
    parseOBJ [] = ⟨[], [], ⟨JSNum.nan, JSNum.nan, JSNum.nan⟩⟩
    ∧ parseOBJ "# no vertex\nf 1 2 3\n".toList
        = ⟨[], [⟨[0, 1, 2]⟩], ⟨JSNum.nan, JSNum.nan, JSNum.nan⟩⟩
    ∧ (createRotationFigure (⟨id, id, id, 3⟩ : JSMath ℚ) [] Axis.z 4).vertices = [] := by
  refine ⟨by decide!, by decide!, by decide!⟩

/-- C12 (amended): the three operations return a mesh for every input.  The
mesh of `createSurface` has `(g+1)²` vertices, so at least one; the mesh of
`createRotationFigure` has `(n+1)·P` vertices, so at least one exactly when the
profile is not empty; the mesh of `parseOBJ` has one vertex for each vertex line
of the text, and for a text without vertex line it has no vertex and the center
`(NaN, NaN, NaN)` that `calculateCenter` computes on the empty vertex list. -/
theorem generators_vertex_counts {α : Type} [LinearOrderedField α] (M : JSMath α)
    (funcType : String) (xMin xMax yMin yMax : α) (gridSize : ℕ)
    (profilePoints : List (Fin 3 → α)) (axis : Axis) (slices : ℕ) (content : List Char) :
    (createSurface M funcType xMin xMax yMin yMax gridSize).vertices.length
        = (gridSize + 1) * (gridSize + 1)
    ∧ 1 ≤ (createSurface M funcType xMin xMax yMin yMax gridSize).vertices.length
    ∧ (createRotationFigure M profilePoints axis slices).vertices.length
        = (slices + 1) * profilePoints.length
    ∧ (1 ≤ (createRotationFigure M profilePoints axis slices).vertices.length
        ↔ profilePoints ≠ [])
    ∧ (parseOBJ content).vertices.length
        = ((splitChar '\n' content).filterMap vertexOfLine).length
    ∧ ((splitChar '\n' content).filterMap vertexOfLine = []
        → parseOBJ content
            = ⟨[], ((splitChar '\n' content).filterMap faceOfLine).map Face.mk,
                Polyhedron.calculateCenter ([] : List (Point3D JSNum))⟩
          ∧ (parseOBJ content).center = ⟨JSNum.nan, JSNum.nan, JSNum.nan⟩) := by
  have hs : (createSurface M funcType xMin xMax yMin yMax gridSize).vertices.length
      = (gridSize + 1) * (gridSize + 1) := by
    rw [createSurface, new_vertices_length, surfaceVertices_length]
  have hr : (createRotationFigure M profilePoints axis slices).vertices.length
      = (slices + 1) * profilePoints.length := by
    rw [createRotationFigure, new_vertices_length, rotationVertices_length]
  refine ⟨hs, ?_, hr, ?_, ?_, ?_⟩
  · rw [hs]
    exact Nat.succ_le_of_lt (Nat.mul_pos (Nat.succ_pos _) (Nat.succ_pos _))
  · rw [hr]
    constructor
    · intro h hnil
      rw [hnil] at h
      simp at h
    · intro h
      have : 0 < profilePoints.length := List.length_pos.2 h
      exact Nat.succ_le_of_lt (Nat.mul_pos (Nat.succ_pos _) this)
  · rw [parseOBJ_eq, new_vertices_length]
  · intro h
    have hc : Polyhedron.calculateCenter ([] : List (Point3D JSNum))
        = ⟨JSNum.nan, JSNum.nan, JSNum.nan⟩ := by decide!
    rw [parseOBJ_eq, h]
    exact ⟨rfl, hc⟩

/-! ### C13: the indices of the generated meshes are in range -/

/-- C13: every index of every face lies in `[0, len(vertices))` for the mesh of
`createRotationFigure` (any profile, any slice count, so also `P ≥ 2`, `n ≥ 1`),
for the mesh of `createSurface` (any grid size, so also `g ≥ 1`) and for the
five built-in solids. -/
theorem generated_meshes_indices_in_range {α : Type} [LinearOrderedField α] (M : JSMath α)
    (funcType : String) (xMin xMax yMin yMax : α) (gridSize : ℕ)
    (profilePoints : List (Fin 3 → α)) (axis : Axis) (slices : ℕ) :
    (createRotationFigure M profilePoints axis slices).IndicesInRange
    ∧ (createSurface M funcType xMin xMax yMin yMax gridSize).IndicesInRange
    ∧ (createTetrahedron M).IndicesInRange
    ∧ (createCube : Polyhedron α).IndicesInRange
    ∧ (createOctahedron : Polyhedron α).IndicesInRange
    ∧ (createIcosahedron M).IndicesInRange
    ∧ (createDodecahedron M).IndicesInRange := by
  refine ⟨?_, ?_, ?_, ?_, ?_, ?_, ?_⟩
  · rw [createRotationFigure, indicesInRange_new, rotationVertices_length]
    intro f hf v hv
    obtain ⟨i, j, hi, hj, hq⟩ := rotationFaces_mem _ _ f hf
    exact rotationQuad_inRange _ _ i j hi hj f hq v hv
  · rw [createSurface, indicesInRange_new, surfaceVertices_length]
    intro f hf v hv
    obtain ⟨i, j, hi, hj, hq⟩ := surfaceFaces_mem _ f hf
    exact surfaceQuad_inRange _ i j hi hj f hq v hv
  · rw [createTetrahedron, indicesInRange_new]
    simp only [List.length_cons, List.length_nil]
    decide
  · rw [createCube, indicesInRange_new]
    simp only [List.length_cons, List.length_nil]
    decide
  · rw [createOctahedron, indicesInRange_new]
    simp only [List.length_cons, List.length_nil]
    decide
  · rw [createIcosahedron, indicesInRange_new]
    simp only [List.length_cons, List.length_nil]
    decide
  · rw [createDodecahedron, indicesInRange_new]
    simp only [List.length_cons, List.length_nil]
    decide

/-! ### C14: the vertices of a figure of revolution -/

/-- C14: for a slice count `n ≥ 1` the mesh of `createRotationFigure` has
`(n+1)·P` vertices, and for `i ≤ n` the vertex at index `i·P + j` is profile
point `j` rotated by the angle `i·(2π/n)` about the axis: about X the first
coordinate is kept and `(y, z)` is rotated, about Y the second is kept and
`(x, z)` is rotated, about Z the third is kept and `(x, y)` is rotated.  The
profile `[(1,0,0), (1,0,1)]` with 4 slices gives 10 vertices. -/
theorem createRotationFigure_vertices {α : Type} [Field α] (M : JSMath α)
    (profilePoints : List (Fin 3 → α)) (axis : Axis) (slices : ℕ) (_hn : 1 ≤ slices) :
    (createRotationFigure M profilePoints axis slices).vertices.length
        = (slices + 1) * profilePoints.length
    ∧ (∀ (i j : ℕ) (p : Fin 3 → α), i ≤ slices → profilePoints[j]? = some p →
        (createRotationFigure M profilePoints axis slices).vertices[
            i * profilePoints.length + j]?
          = some (
            let angle : α := (i : α) * ((2 * M.PI) / (slices : α))
            match axis with
            | Axis.x => ⟨p 0, p 1 * M.cos angle - p 2 * M.sin angle,
                p 1 * M.sin angle + p 2 * M.cos angle⟩
            | Axis.y => ⟨p 0 * M.cos angle + p 2 * M.sin angle, p 1,
                -p 0 * M.sin angle + p 2 * M.cos angle⟩
            | Axis.z => ⟨p 0 * M.cos angle - p 1 * M.sin angle,
                p 0 * M.sin angle + p 1 * M.cos angle, p 2⟩))
    ∧ (createRotationFigure M [![1, 0, 0], ![1, 0, 1]] Axis.z 4).vertices.length = 10 := by
  have hlen : ∀ (ps : List (Fin 3 → α)) (ax : Axis) (n : ℕ),
      (createRotationFigure M ps ax n).vertices.length = (n + 1) * ps.length := by
    intro ps ax n
    rw [createRotationFigure, new_vertices_length, rotationVertices_length]
  refine ⟨hlen _ _ _, ?_, ?_⟩
  · intro i j p hi hp
    rw [createRotationFigure, new_vertices_getElem? _ _ _ _
      (rotationVertices_getElem? M profilePoints axis slices i j p hi hp)]
    cases axis <;> rfl
  · rw [hlen]
    rfl

/-- Witness for C14: a profile of two points turned about Z in four slices. -/
theorem createRotationFigure_vertices_witness :
    1 ≤ 4
    ∧ (createRotationFigure (⟨id, id, id, 3⟩ : JSMath ℚ) [![1, 0, 0], ![1, 0, 1]]
        Axis.z 4).vertices.length = (4 + 1) * 2 :=
  ⟨by decide, (createRotationFigure_vertices (⟨id, id, id, 3⟩ : JSMath ℚ)
    [![1, 0, 0], ![1, 0, 1]] Axis.z 4 (by decide)).1⟩

/-! ### C15: the faces of a figure of revolution -/

/-- C15: for a profile of `P ≥ 1` points the face list of `createRotationFigure`
is, for `i = 0..n-1` and inside it `j = 0..P-2`, the triangle `[v1, v2, v3]`
followed by `[v1, v3, v4]` with `v1 = i·P + j`, `v2 = i·P + j + 1`,
`v3 = (i+1)·P + j + 1`, `v4 = (i+1)·P + j`; the modulo `(i+1) mod (n+1)` is
`i+1` for every `i < n`; there are `2·n·(P−1)` faces, all triangles; and a
profile of 2 points with 4 slices gives 8 faces. -/
theorem createRotationFigure_faces {α : Type} [Field α] (M : JSMath α)
    (profilePoints : List (Fin 3 → α)) (axis : Axis) (slices : ℕ)
    (hP : 1 ≤ profilePoints.length) :
    (createRotationFigure M profilePoints axis slices).faces.map Face.vertexIndices
        = (List.range slices).flatMap (fun (i : ℕ) =>
            (List.range (profilePoints.length - 1)).flatMap (fun (j : ℕ) =>
              [[((i * profilePoints.length + j : ℕ) : ℤ),
                ((i * profilePoints.length + j + 1 : ℕ) : ℤ),
                (((i + 1) * profilePoints.length + j + 1 : ℕ) : ℤ)],
               [((i * profilePoints.length + j : ℕ) : ℤ),
                (((i + 1) * profilePoints.length + j + 1 : ℕ) : ℤ),
                (((i + 1) * profilePoints.length + j : ℕ) : ℤ)]]))
    ∧ (∀ i, i < slices → (i + 1) % (slices + 1) = i + 1)
    ∧ ((createRotationFigure M profilePoints axis slices).faces.length : ℤ)
        = 2 * (slices : ℤ) * ((profilePoints.length : ℤ) - 1)
    ∧ (∀ f ∈ (createRotationFigure M profilePoints axis slices).faces,
        f.vertexIndices.length = 3)
    ∧ (profilePoints.length = 2 →
        (createRotationFigure M profilePoints axis 4).faces.length = 8) := by
  have hfaces : ∀ n : ℕ, (createRotationFigure M profilePoints axis n).faces.map
      Face.vertexIndices = rotationFaces profilePoints.length n := by
    intro n
    rw [createRotationFigure, new_faces_vertexIndices]
  have hlen : ∀ n : ℕ, (createRotationFigure M profilePoints axis n).faces.length
      = n * ((profilePoints.length - 1) * 2) := by
    intro n
    rw [← rotationFaces_length, ← hfaces n, List.length_map]
  refine ⟨?_, fun i hi => mod_no_wrap slices i hi, ?_, ?_, ?_⟩
  · rw [hfaces, rotationFaces_eq]
    apply flatMap_congr_range
    intro i hi
    apply flatMap_congr_range
    intro j _
    exact rotationQuad_eq _ _ i j hi
  · rw [hlen]
    push_cast [Nat.cast_sub hP]
    ring
  · intro f hf
    have hmem : f.vertexIndices ∈ rotationFaces profilePoints.length slices := by
      rw [← hfaces]
      exact List.mem_map_of_mem _ hf
    obtain ⟨i, j, hi, -, hq⟩ := rotationFaces_mem _ _ _ hmem
    rw [rotationQuad_eq _ _ i j hi] at hq
    simp only [List.mem_cons, List.mem_singleton, List.not_mem_nil, or_false] at hq
    rcases hq with h | h <;> rw [h] <;> rfl
  · intro h2
    rw [hlen, h2]

/-- Witness for C15: a profile of two points turned about Z in four slices. -/
theorem createRotationFigure_faces_witness :
    1 ≤ ([![1, 0, 0], ![1, 0, 1]] : List (Fin 3 → ℚ)).length
    ∧ (createRotationFigure (⟨id, id, id, 3⟩ : JSMath ℚ) [![1, 0, 0], ![1, 0, 1]]
        Axis.z 4).faces.map Face.vertexIndices
      = [[0, 1, 3], [0, 3, 2], [2, 3, 5], [2, 5, 4], [4, 5, 7], [4, 7, 6], [6, 7, 9],
          [6, 9, 8]] := by
  refine ⟨by decide, ?_⟩
  rw [(createRotationFigure_faces (⟨id, id, id, 3⟩ : JSMath ℚ) [![1, 0, 0], ![1, 0, 1]]
    Axis.z 4 (by decide)).1]
  decide

/-! ### C16: the grid of a surface -/

/-- C16: for a grid size `g ≥ 1` the mesh of `createSurface` has `(g+1)²`
vertices, the vertex at index `i·(g+1) + j` (for `i, j ≤ g`) is
`(x, y, calculateFunction(f, x, y))` with `x = xMin + i·(xMax − xMin)/g` and
`y = yMin + j·(yMax − yMin)/g`; its face list is, for `i = 0..g-1` and inside it
`j = 0..g-1`, `[v1, v2, v3]` followed by `[v1, v3, v4]` with `v1 = i(g+1) + j`,
`v2 = v1 + 1`, `v3 = (i+1)(g+1) + j + 1`, `v4 = (i+1)(g+1) + j`, which makes
`2·g²` triangles.  For `g = 2` these are 9 vertices and 8 faces, and for
`paraboloid` on the domain `[0,0] × [0,0]` every vertex has `z = 0`. -/
theorem createSurface_grid {α : Type} [LinearOrderedField α] (M : JSMath α)
    (funcType : String) (xMin xMax yMin yMax : α) (gridSize : ℕ) (_hg : 1 ≤ gridSize) :
    (createSurface M funcType xMin xMax yMin yMax gridSize).vertices.length
        = (gridSize + 1) ^ 2
    ∧ (∀ (i j : ℕ), i ≤ gridSize → j ≤ gridSize →
        (createSurface M funcType xMin xMax yMin yMax gridSize).vertices[
            i * (gridSize + 1) + j]?
          = some ⟨xMin + (i : α) * (xMax - xMin) / (gridSize : α),
              yMin + (j : α) * (yMax - yMin) / (gridSize : α),
              calculateFunction M funcType
                (xMin + (i : α) * (xMax - xMin) / (gridSize : α))
                (yMin + (j : α) * (yMax - yMin) / (gridSize : α))⟩)
    ∧ (createSurface M funcType xMin xMax yMin yMax gridSize).faces.map Face.vertexIndices
        = (List.range gridSize).flatMap (fun (i : ℕ) =>
            (List.range gridSize).flatMap (fun (j : ℕ) =>
              [[((i * (gridSize + 1) + j : ℕ) : ℤ), ((i * (gridSize + 1) + j + 1 : ℕ) : ℤ),
                (((i + 1) * (gridSize + 1) + j + 1 : ℕ) : ℤ)],
               [((i * (gridSize + 1) + j : ℕ) : ℤ),
                (((i + 1) * (gridSize + 1) + j + 1 : ℕ) : ℤ),
                (((i + 1) * (gridSize + 1) + j : ℕ) : ℤ)]]))
    ∧ (createSurface M funcType xMin xMax yMin yMax gridSize).faces.length
        = 2 * gridSize ^ 2
    ∧ (∀ f ∈ (createSurface M funcType xMin xMax yMin yMax gridSize).faces,
        f.vertexIndices.length = 3)
    ∧ (createSurface M funcType xMin xMax yMin yMax 2).vertices.length = 9
    ∧ (createSurface M funcType xMin xMax yMin yMax 2).faces.length = 8
    ∧ (∀ v ∈ (createSurface M "paraboloid" 0 0 0 0 gridSize).vertices, v.z = 0) := by
  have hfaces : ∀ g : ℕ, (createSurface M funcType xMin xMax yMin yMax g).faces.map
      Face.vertexIndices = surfaceFaces g := by
    intro g
    rw [createSurface, new_faces_vertexIndices]
  have hvlen : ∀ g : ℕ, (createSurface M funcType xMin xMax yMin yMax g).vertices.length
      = (g + 1) * (g + 1) := by
    intro g
    rw [createSurface, new_vertices_length, surfaceVertices_length]
  have hflen : ∀ g : ℕ, (createSurface M funcType xMin xMax yMin yMax g).faces.length
      = g * (g * 2) := by
    intro g
    rw [← surfaceFaces_length, ← hfaces g, List.length_map]
  refine ⟨?_, ?_, ?_, ?_, ?_, ?_, ?_, ?_⟩
  · rw [hvlen]
    ring
  · intro i j hi hj
    rw [createSurface, new_vertices_getElem? _ _ _ _
      (surfaceVertices_getElem? M funcType xMin xMax yMin yMax gridSize i j hi hj)]
    simp only [Matrix.cons_val_zero, Matrix.cons_val_one, Matrix.head_cons, Matrix.cons_val_two,
      Matrix.tail_cons, mul_div_assoc]
  · rw [hfaces, surfaceFaces_eq]
    rfl
  · rw [hflen]
    ring
  · intro f hf
    have hmem : f.vertexIndices ∈ surfaceFaces gridSize := by
      rw [← hfaces]
      exact List.mem_map_of_mem _ hf
    obtain ⟨i, j, -, -, hq⟩ := surfaceFaces_mem _ _ hmem
    simp only [surfaceQuad, List.cons_append, List.nil_append, List.mem_cons,
      List.mem_singleton, List.not_mem_nil, or_false] at hq
    rcases hq with h | h <;> rw [h] <;> rfl
  · rw [hvlen]
  · rw [hflen]
  · intro v hv
    simp only [createSurface, Polyhedron.new, surfaceVertices_eq, List.mem_map,
      List.mem_flatMap, List.mem_range] at hv
    obtain ⟨w, ⟨i, -, j, -, rfl⟩, rfl⟩ := hv
    simp [calculateFunction]

/-- Witness for C16: the paraboloid over `[0, 2] × [0, 2]` with grid size 2. -/
theorem createSurface_grid_witness :
    1 ≤ 2
    ∧ (createSurface (⟨id, id, id, 3⟩ : JSMath ℚ) "paraboloid" 0 2 0 2 2).vertices[
          1 * (2 + 1) + 2]?
        = some ⟨1, 2, 5⟩ := by
  refine ⟨by decide, ?_⟩
  rw [(createSurface_grid (⟨id, id, id, 3⟩ : JSMath ℚ) "paraboloid" 0 2 0 2 2 (by decide)).2.1
    1 2 (by decide) (by decide)]
  simp [calculateFunction]
  norm_num

/-! ### C17: the height functions -/

/-- C17: over the reals `calculateFunction` returns `x² + y²` for `paraboloid`,
`x² − y²` for `hyperbolic`, for `sinc` the value `1` when `r = √(x² + y²)` is `0`
and `sin(r)/r` otherwise (so the divisor is not zero), `sin(x)·cos(y)` for
`wave`, for the hemisphere selector `sphere` the value `√(1 − x² − y²)` when
`x² + y² ≤ 1` (the argument of the root is then not negative) and `0` otherwise,
in both cases a value `≥ 0`, and `0` for every other selector. -/
theorem calculateFunction_values (x y : ℝ) (funcType : String) :
    calculateFunction ⟨Real.cos, Real.sin, Real.sqrt, Real.pi⟩ "paraboloid" x y
        = x ^ 2 + y ^ 2
    ∧ calculateFunction ⟨Real.cos, Real.sin, Real.sqrt, Real.pi⟩ "hyperbolic" x y
        = x ^ 2 - y ^ 2
    ∧ (Real.sqrt (x ^ 2 + y ^ 2) = 0 →
        calculateFunction ⟨Real.cos, Real.sin, Real.sqrt, Real.pi⟩ "sinc" x y = 1)
    ∧ (Real.sqrt (x ^ 2 + y ^ 2) ≠ 0 →
        calculateFunction ⟨Real.cos, Real.sin, Real.sqrt, Real.pi⟩ "sinc" x y
          = Real.sin (Real.sqrt (x ^ 2 + y ^ 2)) / Real.sqrt (x ^ 2 + y ^ 2))
    ∧ calculateFunction ⟨Real.cos, Real.sin, Real.sqrt, Real.pi⟩ "wave" x y
        = Real.sin x * Real.cos y
    ∧ (x ^ 2 + y ^ 2 ≤ 1 →
        calculateFunction ⟨Real.cos, Real.sin, Real.sqrt, Real.pi⟩ "sphere" x y
          = Real.sqrt (1 - x ^ 2 - y ^ 2) ∧ 0 ≤ 1 - x ^ 2 - y ^ 2)
    ∧ (¬ x ^ 2 + y ^ 2 ≤ 1 →
        calculateFunction ⟨Real.cos, Real.sin, Real.sqrt, Real.pi⟩ "sphere" x y = 0)
    ∧ 0 ≤ calculateFunction ⟨Real.cos, Real.sin, Real.sqrt, Real.pi⟩ "sphere" x y
    ∧ (funcType ∉ ["paraboloid", "hyperbolic", "sinc", "wave", "sphere"] →
        calculateFunction ⟨Real.cos, Real.sin, Real.sqrt, Real.pi⟩ funcType x y = 0) := by
  have hsq : x * x + y * y = x ^ 2 + y ^ 2 := by ring
  refine ⟨?_, ?_, ?_, ?_, ?_, ?_, ?_, ?_, ?_⟩
  · simp only [calculateFunction, if_true]
    ring
  · simp [calculateFunction]
    ring
  · intro h
    simp [calculateFunction, hsq, h]
  · intro h
    simp [calculateFunction, hsq, h]
  · simp [calculateFunction]
  · intro h
    have h' : x * x + y * y ≤ 1 := by rw [hsq]; exact h
    constructor
    · simp only [calculateFunction]
      simp [h']
      congr 1
      ring
    · linarith
  · intro h
    have h' : ¬ x * x + y * y ≤ 1 := by rw [hsq]; exact h
    simp only [calculateFunction]
    simp [h']
  · simp only [calculateFunction]
    simp
    split
    · exact Real.sqrt_nonneg _
    · exact le_refl _
  · intro h
    simp only [List.mem_cons, List.mem_singleton, List.not_mem_nil, or_false, not_or] at h
    obtain ⟨h1, h2, h3, h4, h5⟩ := h
    simp [calculateFunction, h1, h2, h3, h4, h5]

/-! ### C18: the perspective projection -/

/-- C18: `projectPerspective` returns `(100·x / w' + width/2, −100·y / w' + height/2)`
where `w = 1 − z/5` is the fourth component of the perspective matrix (last row
`[0, 0, −1/5, 1]`) applied to the point and `w' = max(w, 0.1)`; so the divisor
is at least `0.1` and never zero, and it is `0.1` for `z ≥ 5`. -/
theorem projectPerspective_formula {α : Type} [LinearOrderedField α]
    (canvasWidth canvasHeight : α) (point : Fin 4 → α) :
    (perspectiveMatrix : Mat 4 4 α) 3 = ![0, 0, -1 / 5, 1]
    ∧ multiplyMatrixVector perspectiveMatrix
        (![point 0, point 1, point 2, point 3, 1] : Fin (2 + 3) → α) 3 = 1 - point 2 / 5
    ∧ projectPerspective canvasWidth canvasHeight point
        = ![100 * point 0 / max (1 - point 2 / 5) 0.1 + canvasWidth / 2,
            -100 * point 1 / max (1 - point 2 / 5) 0.1 + canvasHeight / 2]
    ∧ projectPerspective canvasWidth canvasHeight point
        = ![multiplyMatrixVector perspectiveMatrix
              (![point 0, point 1, point 2, point 3, 1] : Fin (2 + 3) → α) 0
              / max (multiplyMatrixVector perspectiveMatrix
                  (![point 0, point 1, point 2, point 3, 1] : Fin (2 + 3) → α) 3) 0.1
              + canvasWidth / 2,
            multiplyMatrixVector perspectiveMatrix
              (![point 0, point 1, point 2, point 3, 1] : Fin (2 + 3) → α) 1
              / max (multiplyMatrixVector perspectiveMatrix
                  (![point 0, point 1, point 2, point 3, 1] : Fin (2 + 3) → α) 3) 0.1
              + canvasHeight / 2]
    ∧ (0.1 : α) ≤ max (1 - point 2 / 5) 0.1
    ∧ max (1 - point 2 / 5) 0.1 ≠ 0
    ∧ (5 ≤ point 2 → max (1 - point 2 / 5) 0.1 = 0.1) := by
  have ew : 0 * point 0 + 0 * point 1 + -1 / 5 * point 2 + 1 = 1 - point 2 / 5 := by ring
  have ex : 100 * point 0 + 0 * point 1 + 0 * point 2 + 0 = 100 * point 0 := by ring
  have ey : 0 * point 0 + -100 * point 1 + 0 * point 2 + 0 = -100 * point 1 := by ring
  have hpos : (0 : α) < 0.1 := by norm_num
  refine ⟨rfl, ?_, ?_, rfl, le_max_right _ _, ?_, ?_⟩
  · show 0 * point 0 + 0 * point 1 + -1 / 5 * point 2 + 1 = _
    exact ew
  · apply vec2_ext
    · show (100 * point 0 + 0 * point 1 + 0 * point 2 + 0)
        / max (0 * point 0 + 0 * point 1 + -1 / 5 * point 2 + 1) 0.1 + canvasWidth / 2 = _
      rw [ew, ex]
    · show (0 * point 0 + -100 * point 1 + 0 * point 2 + 0)
        / max (0 * point 0 + 0 * point 1 + -1 / 5 * point 2 + 1) 0.1 + canvasHeight / 2 = _
      rw [ew, ey]
  · exact ne_of_gt (lt_of_lt_of_le hpos (le_max_right _ _))
  · intro hz
    apply max_eq_right
    have : point 2 / 5 ≥ 1 := by
      rw [ge_iff_le, le_div_iff₀ (by norm_num : (0 : α) < 5)]
      linarith
    have h01 : (0 : α) ≤ 0.1 := le_of_lt hpos
    linarith

/-! ### C19: the axonometric projection -/

/-- C19: the axonometric matrix applied to the point has third component `0`
and fourth component `1`, and `projectAxonometric` returns
`(x·80 + width/2, height/2 − y·80)` with `x = cos(a)·px − sin(a)·pz` and
`y = sin²(a)·px + cos(a)·py + cos(a)·sin(a)·pz` for `a = π/6`; nothing is
divided by the fourth component. -/
theorem projectAxonometric_formula {α : Type} [LinearOrderedField α] (M : JSMath α)
    (canvasWidth canvasHeight : α) (point : Fin 4 → α) :
    multiplyMatrixVector (axonometricMatrix M)
        (![point 0, point 1, point 2, point 3, 1] : Fin (2 + 3) → α) 2 = 0
    ∧ multiplyMatrixVector (axonometricMatrix M)
        (![point 0, point 1, point 2, point 3, 1] : Fin (2 + 3) → α) 3 = 1
    ∧ projectAxonometric M canvasWidth canvasHeight point
        = ![(M.cos (M.PI / 6) * point 0 - M.sin (M.PI / 6) * point 2) * 80
              + canvasWidth / 2,
            canvasHeight / 2
              - (M.sin (M.PI / 6) ^ 2 * point 0 + M.cos (M.PI / 6) * point 1
                  + M.cos (M.PI / 6) * M.sin (M.PI / 6) * point 2) * 80]
    ∧ projectAxonometric M canvasWidth canvasHeight point
        = ![multiplyMatrixVector (axonometricMatrix M)
              (![point 0, point 1, point 2, point 3, 1] : Fin (2 + 3) → α) 0 * 80
              + canvasWidth / 2,
            canvasHeight / 2
              - multiplyMatrixVector (axonometricMatrix M)
                  (![point 0, point 1, point 2, point 3, 1] : Fin (2 + 3) → α) 1 * 80] := by
  refine ⟨?_, ?_, ?_, rfl⟩
  · show 0 * point 0 + 0 * point 1 + 0 * point 2 + 0 = 0
    ring
  · show 0 * point 0 + 0 * point 1 + 0 * point 2 + 1 = 1
    ring
  · apply vec2_ext
    · show (M.cos (M.PI / 6) * point 0 + 0 * point 1 + -M.sin (M.PI / 6) * point 2 + 0) * 80
        + canvasWidth / 2 = _
      ring
    · show canvasHeight / 2 - (M.sin (M.PI / 6) * M.sin (M.PI / 6) * point 0
        + M.cos (M.PI / 6) * point 1 + M.cos (M.PI / 6) * M.sin (M.PI / 6) * point 2 + 0) * 80
        = _
      ring

/-! ### C20: affine matrices keep `w = 1` -/

/-- C20: a matrix obtained from the constructors of `TransformationMatrix` by
any number of products has the last row `[0, 0, 0, 1]`, and applied to any point
it gives the fourth component `1`; the matrix of one frame of `draw` is such a
matrix. -/
theorem transformBuilt_lastRow {α : Type} [Ring α] (M : JSMath α) (m : Mat 4 4 α)
    (hm : TransformBuilt M m) :
    m 3 = ![0, 0, 0, 1]
    ∧ (∀ (k : ℕ) (p : Fin (k + 3) → α), multiplyMatrixVector m p 3 = 1)
    ∧ (∀ (transformParams : TransformParams α) (currentFigure : Polyhedron α),
        TransformBuilt M (drawTransformMatrix M transformParams currentFigure)
        ∧ (drawTransformMatrix M transformParams currentFigure) 3 = ![0, 0, 0, 1]
        ∧ ∀ v : Point3D α,
            multiplyMatrixVector (drawTransformMatrix M transformParams currentFigure)
              v.toArray 3 = 1) := by
  have key : ∀ a : Mat 4 4 α, TransformBuilt M a → a 3 = ![0, 0, 0, 1] := by
    intro a ha
    induction ha with
    | identity => rfl
    | rotationX angle => rfl
    | rotationY angle => rfl
    | rotationZ angle => rfl
    | scale scale => rfl
    | translation dx dy dz => rfl
    | reflection reflectXY reflectXZ reflectYZ => exact lastRow_reflection _ _ _
    | scaleAroundCenter scale center => exact lastRow_scaleAroundCenter _ _
    | product a b _ _ iha ihb => exact lastRow_multiplyMatrices a b iha ihb
  refine ⟨key m hm, fun k p => lastRow_apply m (key m hm) k p, ?_⟩
  intro transformParams currentFigure
  have hd := transformBuilt_draw M transformParams currentFigure
  exact ⟨hd, key _ hd, fun v => lastRow_apply _ (key _ hd) 0 v.toArray⟩

/-- Witness for C20: a rotation about X followed by a translation. -/
theorem transformBuilt_lastRow_witness :
    TransformBuilt (⟨id, id, id, 3⟩ : JSMath ℚ)
      (multiplyMatrices (getRotationXMatrix (⟨id, id, id, 3⟩ : JSMath ℚ) 2)
        (getTranslationMatrix 1 2 3))
    ∧ (multiplyMatrices (getRotationXMatrix (⟨id, id, id, 3⟩ : JSMath ℚ) 2)
        (getTranslationMatrix 1 2 3)) 3 = ![0, 0, 0, 1] :=
  ⟨TransformBuilt.product _ _ (TransformBuilt.rotationX 2) (TransformBuilt.translation 1 2 3),
    (transformBuilt_lastRow (⟨id, id, id, 3⟩ : JSMath ℚ) _
      (TransformBuilt.product _ _ (TransformBuilt.rotationX 2)
        (TransformBuilt.translation 1 2 3))).1⟩

/-! ### C21: scaling around the center -/

/-- C21 (the code departs from it): `getScaleAroundCenterMatrix(f, c)` applied to
a point `v` gives `f·(v + c) − c`, not `c + f·(v − c)`: the translation by `+c`
acts on the point first.  With `f = 2` and `c = (1, 0, 0)` the center is sent to
`(3, 0, 0)`, so it is not a fixed point; the fixed point is `−c`. -/
theorem scaleAroundCenter_apply {α : Type} [CommRing α] (f : α) (c : Point3D α) (x y z : α) :
    multiplyMatrixVector (getScaleAroundCenterMatrix f c) ![x, y, z]
        = ![f * (x + c.x) - c.x, f * (y + c.y) - c.y, f * (z + c.z) - c.z, 1]
    ∧ multiplyMatrixVector (getScaleAroundCenterMatrix f c) ![-c.x, -c.y, -c.z]
        = ![-c.x, -c.y, -c.z, 1]
    ∧ multiplyMatrixVector (getScaleAroundCenterMatrix (2 : ℚ) ⟨1, 0, 0⟩) ![1, 0, 0]
        = ![3, 0, 0, 1]
    ∧ multiplyMatrixVector (getScaleAroundCenterMatrix (2 : ℚ) ⟨1, 0, 0⟩) ![1, 0, 0]
        ≠ ![1, 0, 0, 1] := by
  have key : ∀ {β : Type} [CommRing β] (f : β) (c : Point3D β) (x y z : β),
      multiplyMatrixVector (getScaleAroundCenterMatrix f c) ![x, y, z]
        = ![f * (x + c.x) - c.x, f * (y + c.y) - c.y, f * (z + c.z) - c.z, 1] := by
    intro β _ f c x y z
    apply vec4_ext <;>
      simp [multiplyMatrixVector, getScaleAroundCenterMatrix, multiplyMatrices_apply,
        getTranslationMatrix, getScaleMatrix, Matrix.vecHead, Matrix.vecTail] <;>
      ring
  refine ⟨key f c x y z, ?_, ?_, ?_⟩
  · rw [key]
    apply vec4_ext <;> simp
  · rw [key]
    apply vec4_ext <;> norm_num
  · rw [key]
    intro h
    have := congrFun h 0
    norm_num at this

/-! ### C22: the last slice lies on the first -/

/-- C22: over the reals, for a slice count `n ≥ 1` and every profile point `p`
at position `j`, the vertex of `createRotationFigure` at index `n·P + j` and the
vertex at index `j` both have the coordinates of `p`; they are two entries of
the vertex list, at different indices, and the list has `(n+1)·P` entries. -/
theorem createRotationFigure_seam (profilePoints : List (Fin 3 → ℝ)) (axis : Axis)
    (slices j : ℕ) (p : Fin 3 → ℝ) (hn : 1 ≤ slices) (hp : profilePoints[j]? = some p) :
    (createRotationFigure ⟨Real.cos, Real.sin, Real.sqrt, Real.pi⟩ profilePoints axis
        slices).vertices[slices * profilePoints.length + j]? = some ⟨p 0, p 1, p 2⟩
    ∧ (createRotationFigure ⟨Real.cos, Real.sin, Real.sqrt, Real.pi⟩ profilePoints axis
        slices).vertices[j]? = some ⟨p 0, p 1, p 2⟩
    ∧ slices * profilePoints.length + j ≠ j
    ∧ (createRotationFigure ⟨Real.cos, Real.sin, Real.sqrt, Real.pi⟩ profilePoints axis
        slices).vertices.length = (slices + 1) * profilePoints.length := by
  have hj : j < profilePoints.length := by
    by_contra hge
    rw [List.getElem?_eq_none (by omega)] at hp
    exact absurd hp (by simp)
  have hn0 : (slices : ℝ) ≠ 0 := by
    have : (0 : ℝ) < (slices : ℝ) := by exact_mod_cast hn
    exact ne_of_gt this
  have hlast := rotationVertices_getElem? (⟨Real.cos, Real.sin, Real.sqrt, Real.pi⟩ : JSMath ℝ)
    profilePoints axis slices slices j p (le_refl _) hp
  have hfirst := rotationVertices_getElem?
    (⟨Real.cos, Real.sin, Real.sqrt, Real.pi⟩ : JSMath ℝ)
    profilePoints axis slices 0 j p (Nat.zero_le _) hp
  have ha : (slices : ℝ) * ((2 * Real.pi) / (slices : ℝ)) = 2 * Real.pi := by
    field_simp
  have hz : ((0 : ℕ) : ℝ) * ((2 * Real.pi) / (slices : ℝ)) = 0 := by simp
  simp only [ha] at hlast
  simp only [hz, Nat.zero_mul, Nat.zero_add] at hfirst
  refine ⟨?_, ?_, ?_, ?_⟩
  · rw [createRotationFigure, new_vertices_getElem? _ _ _ _ hlast]
    cases axis <;> simp [rotateProfilePoint]
  · rw [createRotationFigure, new_vertices_getElem? _ _ _ _ hfirst]
    cases axis <;> simp [rotateProfilePoint]
  · have : 0 < slices * profilePoints.length := Nat.mul_pos (by omega) (by omega)
    omega
  · rw [createRotationFigure, new_vertices_length, rotationVertices_length]

/-- Witness for C22: the profile `[(1, 0, 0), (1, 0, 1)]` turned about Z in four slices. -/
theorem createRotationFigure_seam_witness :
    1 ≤ 4
    ∧ ([![1, 0, 0], ![1, 0, 1]] : List (Fin 3 → ℝ))[1]? = some ![1, 0, 1]
    ∧ (createRotationFigure ⟨Real.cos, Real.sin, Real.sqrt, Real.pi⟩
        [![1, 0, 0], ![1, 0, 1]] Axis.z 4).vertices[4 * 2 + 1]? = some ⟨1, 0, 1⟩
    ∧ (createRotationFigure ⟨Real.cos, Real.sin, Real.sqrt, Real.pi⟩
        [![1, 0, 0], ![1, 0, 1]] Axis.z 4).vertices[1]? = some ⟨1, 0, 1⟩ :=
  ⟨by decide, rfl,
    (createRotationFigure_seam [![1, 0, 0], ![1, 0, 1]] Axis.z 4 1 ![1, 0, 1] (by decide)
      rfl).1,
    (createRotationFigure_seam [![1, 0, 0], ![1, 0, 1]] Axis.z 4 1 ![1, 0, 1] (by decide)
      rfl).2.1⟩

/-! ### C23: the faces of the built-in solids -/

/-- C23 (the code departs from it): every face of the tetrahedron, of the cube, of
the octahedron and of the icosahedron is flat, and so is the first face
`[0, 8, 9, 2, 16]` of `createDodecahedron`; but the vertices of each of its
other eleven faces, the second one `[0, 16, 17, 4, 12]` among them, do not lie
in one plane. -/
theorem builtin_solids_flat_faces :
    (∀ f ∈ (createTetrahedron ⟨Real.cos, Real.sin, Real.sqrt, Real.pi⟩).faces,
        Coplanar ((createTetrahedron ⟨Real.cos, Real.sin, Real.sqrt, Real.pi⟩).facePoints f))
    ∧ (∀ f ∈ (createCube : Polyhedron ℝ).faces,
        Coplanar ((createCube : Polyhedron ℝ).facePoints f))
    ∧ (∀ f ∈ (createOctahedron : Polyhedron ℝ).faces,
        Coplanar ((createOctahedron : Polyhedron ℝ).facePoints f))
    ∧ (∀ f ∈ (createIcosahedron ⟨Real.cos, Real.sin, Real.sqrt, Real.pi⟩).faces,
        Coplanar ((createIcosahedron ⟨Real.cos, Real.sin, Real.sqrt, Real.pi⟩).facePoints f))
    ∧ (∀ f ∈ (createDodecahedron ⟨Real.cos, Real.sin, Real.sqrt, Real.pi⟩).faces,
        (Coplanar ((createDodecahedron ⟨Real.cos, Real.sin, Real.sqrt, Real.pi⟩).facePoints f) ↔ f = ⟨[0, 8, 9, 2, 16]⟩))
    ∧ (createDodecahedron ⟨Real.cos, Real.sin, Real.sqrt, Real.pi⟩).faces[1]? = some ⟨[0, 16, 17, 4, 12]⟩
    ∧ (createDodecahedron ⟨Real.cos, Real.sin, Real.sqrt, Real.pi⟩).facePoints ⟨[0, 16, 17, 4, 12]⟩
        = [⟨1, 1, 1⟩,
           ⟨(1 + Real.sqrt 5) / 2, 0, 1 / ((1 + Real.sqrt 5) / 2)⟩,
           ⟨-((1 + Real.sqrt 5) / 2), 0, 1 / ((1 + Real.sqrt 5) / 2)⟩,
           ⟨-1, 1, 1⟩,
           ⟨1 / ((1 + Real.sqrt 5) / 2), (1 + Real.sqrt 5) / 2, 0⟩]
    ∧ ¬ Coplanar ((createDodecahedron ⟨Real.cos, Real.sin, Real.sqrt, Real.pi⟩).facePoints ⟨[0, 16, 17, 4, 12]⟩) := by
  have ht : (createTetrahedron ⟨Real.cos, Real.sin, Real.sqrt, Real.pi⟩).faces
      = [⟨[0, 1, 2]⟩, ⟨[0, 2, 3]⟩, ⟨[0, 3, 1]⟩, ⟨[1, 3, 2]⟩] := rfl
  have ho : (createOctahedron : Polyhedron ℝ).faces
      = [⟨[0, 1, 2]⟩, ⟨[0, 2, 3]⟩, ⟨[0, 3, 4]⟩, ⟨[0, 4, 1]⟩,
         ⟨[5, 1, 2]⟩, ⟨[5, 2, 3]⟩, ⟨[5, 3, 4]⟩, ⟨[5, 4, 1]⟩] := rfl
  have hi : (createIcosahedron ⟨Real.cos, Real.sin, Real.sqrt, Real.pi⟩).faces
      = [⟨[0, 11, 5]⟩, ⟨[0, 5, 1]⟩, ⟨[0, 1, 7]⟩, ⟨[0, 7, 10]⟩, ⟨[0, 10, 11]⟩,
         ⟨[1, 5, 9]⟩, ⟨[5, 11, 4]⟩, ⟨[11, 10, 2]⟩, ⟨[10, 7, 6]⟩, ⟨[7, 1, 8]⟩,
         ⟨[3, 9, 4]⟩, ⟨[3, 4, 2]⟩, ⟨[3, 2, 6]⟩, ⟨[3, 6, 8]⟩, ⟨[3, 8, 9]⟩,
         ⟨[4, 9, 5]⟩, ⟨[2, 4, 11]⟩, ⟨[6, 2, 10]⟩, ⟨[8, 6, 7]⟩, ⟨[9, 8, 1]⟩] := rfl
  have hd : (createDodecahedron ⟨Real.cos, Real.sin, Real.sqrt, Real.pi⟩).faces
      = [⟨[0, 8, 9, 2, 16]⟩, ⟨[0, 16, 17, 4, 12]⟩, ⟨[0, 12, 13, 1, 8]⟩,
         ⟨[1, 13, 14, 3, 10]⟩, ⟨[1, 10, 11, 5, 9]⟩, ⟨[2, 9, 5, 15, 18]⟩,
         ⟨[2, 18, 19, 6, 16]⟩, ⟨[3, 14, 13, 12, 17]⟩, ⟨[3, 17, 16, 6, 19]⟩,
         ⟨[4, 8, 1, 10, 11]⟩, ⟨[4, 11, 7, 15, 12]⟩, ⟨[5, 11, 10, 3, 14]⟩] := rfl
  refine ⟨?_, cube_faces_coplanar, ?_, ?_, ?_, rfl, rfl, dodecahedron_face1_not_coplanar⟩
  · intro f hf
    refine coplanar_facePoints_of_triangle _ f ?_
    rw [ht] at hf
    revert f
    decide
  · intro f hf
    refine coplanar_facePoints_of_triangle _ f ?_
    rw [ho] at hf
    revert f
    decide
  · intro f hf
    refine coplanar_facePoints_of_triangle _ f ?_
    rw [hi] at hf
    revert f
    decide
  · intro f hf
    rw [hd] at hf
    simp only [List.mem_cons, List.mem_singleton, List.not_mem_nil, or_false] at hf
    rcases hf with rfl | rfl | rfl | rfl | rfl | rfl | rfl | rfl | rfl | rfl | rfl | rfl
    · exact ⟨fun _ => rfl, fun _ => dodecahedron_face0_coplanar⟩
    · exact ⟨fun h => absurd h dodecahedron_face1_not_coplanar, fun h => absurd h (by decide)⟩
    · exact ⟨fun h => absurd h dodecahedron_face2_not_coplanar, fun h => absurd h (by decide)⟩
    · exact ⟨fun h => absurd h dodecahedron_face3_not_coplanar, fun h => absurd h (by decide)⟩
    · exact ⟨fun h => absurd h dodecahedron_face4_not_coplanar, fun h => absurd h (by decide)⟩
    · exact ⟨fun h => absurd h dodecahedron_face5_not_coplanar, fun h => absurd h (by decide)⟩
    · exact ⟨fun h => absurd h dodecahedron_face6_not_coplanar, fun h => absurd h (by decide)⟩
    · exact ⟨fun h => absurd h dodecahedron_face7_not_coplanar, fun h => absurd h (by decide)⟩
    · exact ⟨fun h => absurd h dodecahedron_face8_not_coplanar, fun h => absurd h (by decide)⟩
    · exact ⟨fun h => absurd h dodecahedron_face9_not_coplanar, fun h => absurd h (by decide)⟩
    · exact ⟨fun h => absurd h dodecahedron_face10_not_coplanar, fun h => absurd h (by decide)⟩
    · exact ⟨fun h => absurd h dodecahedron_face11_not_coplanar, fun h => absurd h (by decide)⟩

/-! ### C24: a product acts with its right factor first -/

/-- C24: for 4×4 matrices `A` and `B` with last row `[0, 0, 0, 1]` and every
point `p`, `multiplyMatrixVector(multiplyMatrices(A, B), p)` is
`multiplyMatrixVector(A, q)` for `q` the first three components of
`multiplyMatrixVector(B, p)`, and also for the whole four-component result in
the place of `q`; and `multiplyMatrixVector` gives the same result on two
arguments with the same first three components. -/
theorem multiplyMatrixVector_product {α : Type} [CommRing α] (A B : Mat 4 4 α)
    (_hA : A 3 = ![0, 0, 0, 1]) (hB : B 3 = ![0, 0, 0, 1]) (k : ℕ) (p : Fin (k + 3) → α) :
    multiplyMatrixVector (multiplyMatrices A B) p
        = multiplyMatrixVector A ![multiplyMatrixVector B p 0, multiplyMatrixVector B p 1,
            multiplyMatrixVector B p 2]
    ∧ multiplyMatrixVector (multiplyMatrices A B) p
        = multiplyMatrixVector A (multiplyMatrixVector B p : Fin (1 + 3) → α)
    ∧ (∀ (l : ℕ) (r : Fin (l + 3) → α),
        r ⟨0, by omega⟩ = p ⟨0, by omega⟩ → r ⟨1, by omega⟩ = p ⟨1, by omega⟩ →
        r ⟨2, by omega⟩ = p ⟨2, by omega⟩ →
        multiplyMatrixVector A r = multiplyMatrixVector A p) := by
  have b0 : B 3 0 = 0 := by rw [hB]; rfl
  have b1 : B 3 1 = 0 := by rw [hB]; rfl
  have b2 : B 3 2 = 0 := by rw [hB]; rfl
  have b3 : B 3 3 = 1 := by rw [hB]; rfl
  have key : ∀ i : Fin 4, multiplyMatrixVector (multiplyMatrices A B) p i
      = A i 0 * multiplyMatrixVector B p 0 + A i 1 * multiplyMatrixVector B p 1
        + A i 2 * multiplyMatrixVector B p 2 + A i 3 := by
    intro i
    have hl : multiplyMatrixVector (multiplyMatrices A B) p i
        = multiplyMatrices A B i 0 * p ⟨0, by omega⟩ + multiplyMatrices A B i 1 * p ⟨1, by omega⟩
          + multiplyMatrices A B i 2 * p ⟨2, by omega⟩ + multiplyMatrices A B i 3 := by
      fin_cases i <;> rfl
    have h0 : multiplyMatrixVector B p 0
        = B 0 0 * p ⟨0, by omega⟩ + B 0 1 * p ⟨1, by omega⟩ + B 0 2 * p ⟨2, by omega⟩ + B 0 3 :=
      rfl
    have h1 : multiplyMatrixVector B p 1
        = B 1 0 * p ⟨0, by omega⟩ + B 1 1 * p ⟨1, by omega⟩ + B 1 2 * p ⟨2, by omega⟩ + B 1 3 :=
      rfl
    have h2 : multiplyMatrixVector B p 2
        = B 2 0 * p ⟨0, by omega⟩ + B 2 1 * p ⟨1, by omega⟩ + B 2 2 * p ⟨2, by omega⟩ + B 2 3 :=
      rfl
    rw [hl, h0, h1, h2]
    simp only [multiplyMatrices_apply, b0, b1, b2, b3]
    ring
  have hr : ∀ (l : ℕ) (q : Fin (l + 3) → α) (i : Fin 4), multiplyMatrixVector A q i
      = A i 0 * q ⟨0, by omega⟩ + A i 1 * q ⟨1, by omega⟩ + A i 2 * q ⟨2, by omega⟩ + A i 3 := by
    intro l q i
    fin_cases i <;> rfl
  refine ⟨?_, ?_, ?_⟩
  · funext i
    rw [key i, hr 0]
    rfl
  · funext i
    rw [key i, hr 1]
    rfl
  · intro l r e0 e1 e2
    funext i
    rw [hr l r i, hr k p i, e0, e1, e2]

/-- Witness for C24: a scaling followed by a translation, at the point `(1, 2, 3)`. -/
theorem multiplyMatrixVector_product_witness :
    (getScaleMatrix (2 : ℚ)) 3 = ![0, 0, 0, 1]
    ∧ (getTranslationMatrix (1 : ℚ) 1 1) 3 = ![0, 0, 0, 1]
    ∧ multiplyMatrixVector (multiplyMatrices (getScaleMatrix (2 : ℚ))
          (getTranslationMatrix 1 1 1)) ![1, 2, 3]
        = multiplyMatrixVector (getScaleMatrix (2 : ℚ))
            ![multiplyMatrixVector (getTranslationMatrix (1 : ℚ) 1 1) ![1, 2, 3] 0,
              multiplyMatrixVector (getTranslationMatrix (1 : ℚ) 1 1) ![1, 2, 3] 1,
              multiplyMatrixVector (getTranslationMatrix (1 : ℚ) 1 1) ![1, 2, 3] 2] :=
  ⟨rfl, rfl,
    (multiplyMatrixVector_product (getScaleMatrix (2 : ℚ)) (getTranslationMatrix 1 1 1)
      rfl rfl 0 ![1, 2, 3]).1⟩

/-! ### C25: the builder rotates as the rotation matrices do -/

/-- C25: over the reals, for each axis the point that `createRotationFigure`
computes for a profile point `p` at the angle `θ` is the first three components
of the rotation matrix of that axis applied to `p`; it keeps the coordinate of
`p` along the axis and the squared distance of `p` from the axis. -/
theorem rotateProfilePoint_eq_matrix (θ : ℝ) (p : Fin 3 → ℝ) :
    (∀ i : Fin 3, rotateProfilePoint ⟨Real.cos, Real.sin, Real.sqrt, Real.pi⟩ Axis.x θ p i
        = multiplyMatrixVector
            (getRotationXMatrix ⟨Real.cos, Real.sin, Real.sqrt, Real.pi⟩ θ) p i.castSucc)
    ∧ (∀ i : Fin 3, rotateProfilePoint ⟨Real.cos, Real.sin, Real.sqrt, Real.pi⟩ Axis.y θ p i
        = multiplyMatrixVector
            (getRotationYMatrix ⟨Real.cos, Real.sin, Real.sqrt, Real.pi⟩ θ) p i.castSucc)
    ∧ (∀ i : Fin 3, rotateProfilePoint ⟨Real.cos, Real.sin, Real.sqrt, Real.pi⟩ Axis.z θ p i
        = multiplyMatrixVector
            (getRotationZMatrix ⟨Real.cos, Real.sin, Real.sqrt, Real.pi⟩ θ) p i.castSucc)
    ∧ (rotateProfilePoint ⟨Real.cos, Real.sin, Real.sqrt, Real.pi⟩ Axis.x θ p 0 = p 0
        ∧ rotateProfilePoint ⟨Real.cos, Real.sin, Real.sqrt, Real.pi⟩ Axis.x θ p 1 ^ 2
            + rotateProfilePoint ⟨Real.cos, Real.sin, Real.sqrt, Real.pi⟩ Axis.x θ p 2 ^ 2
          = p 1 ^ 2 + p 2 ^ 2)
    ∧ (rotateProfilePoint ⟨Real.cos, Real.sin, Real.sqrt, Real.pi⟩ Axis.y θ p 1 = p 1
        ∧ rotateProfilePoint ⟨Real.cos, Real.sin, Real.sqrt, Real.pi⟩ Axis.y θ p 0 ^ 2
            + rotateProfilePoint ⟨Real.cos, Real.sin, Real.sqrt, Real.pi⟩ Axis.y θ p 2 ^ 2
          = p 0 ^ 2 + p 2 ^ 2)
    ∧ (rotateProfilePoint ⟨Real.cos, Real.sin, Real.sqrt, Real.pi⟩ Axis.z θ p 2 = p 2
        ∧ rotateProfilePoint ⟨Real.cos, Real.sin, Real.sqrt, Real.pi⟩ Axis.z θ p 0 ^ 2
            + rotateProfilePoint ⟨Real.cos, Real.sin, Real.sqrt, Real.pi⟩ Axis.z θ p 1 ^ 2
          = p 0 ^ 2 + p 1 ^ 2) := by
  have hcs : Real.cos θ ^ 2 + Real.sin θ ^ 2 = 1 := Real.cos_sq_add_sin_sq θ
  refine ⟨?_, ?_, ?_, ⟨rfl, ?_⟩, ⟨rfl, ?_⟩, ⟨rfl, ?_⟩⟩
  · intro i
    fin_cases i
    · show p 0 = 1 * p 0 + 0 * p 1 + 0 * p 2 + 0
      ring
    · show p 1 * Real.cos θ - p 2 * Real.sin θ
        = 0 * p 0 + Real.cos θ * p 1 + -Real.sin θ * p 2 + 0
      ring
    · show p 1 * Real.sin θ + p 2 * Real.cos θ
        = 0 * p 0 + Real.sin θ * p 1 + Real.cos θ * p 2 + 0
      ring
  · intro i
    fin_cases i
    · show p 0 * Real.cos θ + p 2 * Real.sin θ
        = Real.cos θ * p 0 + 0 * p 1 + Real.sin θ * p 2 + 0
      ring
    · show p 1 = 0 * p 0 + 1 * p 1 + 0 * p 2 + 0
      ring
    · show -p 0 * Real.sin θ + p 2 * Real.cos θ
        = -Real.sin θ * p 0 + 0 * p 1 + Real.cos θ * p 2 + 0
      ring
  · intro i
    fin_cases i
    · show p 0 * Real.cos θ - p 1 * Real.sin θ
        = Real.cos θ * p 0 + -Real.sin θ * p 1 + 0 * p 2 + 0
      ring
    · show p 0 * Real.sin θ + p 1 * Real.cos θ
        = Real.sin θ * p 0 + Real.cos θ * p 1 + 0 * p 2 + 0
      ring
    · show p 2 = 0 * p 0 + 0 * p 1 + 1 * p 2 + 0
      ring
  · show (p 1 * Real.cos θ - p 2 * Real.sin θ) ^ 2 + (p 1 * Real.sin θ + p 2 * Real.cos θ) ^ 2
      = p 1 ^ 2 + p 2 ^ 2
    linear_combination (p 1 ^ 2 + p 2 ^ 2) * hcs
  · show (p 0 * Real.cos θ + p 2 * Real.sin θ) ^ 2 + (-p 0 * Real.sin θ + p 2 * Real.cos θ) ^ 2
      = p 0 ^ 2 + p 2 ^ 2
    linear_combination (p 0 ^ 2 + p 2 ^ 2) * hcs
  · show (p 0 * Real.cos θ - p 1 * Real.sin θ) ^ 2 + (p 0 * Real.sin θ + p 1 * Real.cos θ) ^ 2
      = p 0 ^ 2 + p 1 ^ 2
    linear_combination (p 0 ^ 2 + p 1 ^ 2) * hcs

end Lab7
